import Mathlib

/-!
Graphene `/dev/attestation` pseudo-files: a shallow embedding.

Source: `LibOS/shim/src/fs/dev/attestation.c`.

The process-wide globals of the C file become an explicit state record that
every operation takes and returns.  The two PAL primitives
(`DkAttestationReport`, `DkAttestationQuote`) and the host identity are not
part of that file; they are a parameter (`Pal`).  Every operation also returns
the list of PAL calls it made, in order, so that "no platform call" and "the
platform is called with these arguments" are statements about the model.

Bytes are natural numbers; buffers are lists of bytes.  `memcpy dst src n`
is the list operation "first `n` bytes of `src`, then the rest of `dst`";
it agrees with C whenever `n` is within both buffers, which is all C defines.
-/

namespace Attestation

/-- A byte of a buffer. -/
abbrev Byte := Nat

/-! ## Constants -/

/-- The `#define USER_REPORT_DATA_MAX_SIZE 256` of attestation.c. -/
def USER_REPORT_DATA_MAX_SIZE : Nat := 256
/-- The `#define TARGET_INFO_MAX_SIZE 1024` of attestation.c. -/
def TARGET_INFO_MAX_SIZE : Nat := 1024
/-- The `#define QUOTE_MAX_SIZE 2048` of attestation.c. -/
def QUOTE_MAX_SIZE : Nat := 2048

/-- Modelled from the spec: the errno constant behind `access-denied`
(`EACCES`, declared in a header that is not among the sources; Linux value). -/
def EACCES : Int := 13
/-- Modelled from the spec: the errno constant behind `out-of-memory`
(`ENOMEM`, declared in a header that is not among the sources; Linux value). -/
def ENOMEM : Int := 12
/-- Modelled from the spec: write-only access flag (`O_WRONLY`, Linux value). -/
def O_WRONLY : Nat := 1
/-- Modelled from the spec: read+write access flag (`O_RDWR`, Linux value). -/
def O_RDWR : Nat := 2
/-- Modelled from the spec: handle access bit for writing (`MAY_WRITE`, Linux value). -/
def MAY_WRITE : Nat := 2
/-- Modelled from the spec: handle access bit for reading (`MAY_READ`, Linux value). -/
def MAY_READ : Nat := 4

/-- Modelled from the spec: `strcmp_static(var, str)` (a macro that is not among
the sources) is non-zero exactly when the host identity differs from the
sentinel string. -/
def strcmp_static (var str : String) : Bool := decide (var ≠ str)

/-- The C condition `flags & (O_WRONLY | O_RDWR)`; `flags` is the bit pattern
of the `int` argument. -/
def write_flags (flags : Nat) : Bool := decide (flags &&& (O_WRONLY ||| O_RDWR) ≠ 0)

/-- The C call `memcpy(dst, src, n)` on buffers: the result is the new content
of `dst`.  It is exact when `n` is within both buffers (`memcpy_in_bounds`
below); for a larger `n` the C call is undefined, and the list result (which
then holds fewer than `n` copied bytes) has no counterpart in the C program. -/
def memcpy (dst src : List Byte) (n : Nat) : List Byte := src.take n ++ dst.drop n

/-- The C call `calloc(1, n)` when it succeeds: `n` zero bytes. -/
def calloc_bytes (n : Nat) : List Byte := List.replicate n 0

/-! ## State, handles, platform -/

/-- The five file-scope globals of attestation.c. -/
structure AttState where
  g_user_report_data : List Byte
  g_user_report_data_size : Nat
  g_target_info : List Byte
  g_target_info_size : Nat
  g_report_size : Nat
deriving DecidableEq, Repr

/-- The globals as the C initialisers leave them at process start. -/
def AttState.initial : AttState where
  g_user_report_data := List.replicate USER_REPORT_DATA_MAX_SIZE 0
  g_user_report_data_size := 0
  g_target_info := List.replicate TARGET_INFO_MAX_SIZE 0
  g_target_info_size := 0
  g_report_size := 0

/-- The close-commit callback stored in `data->modify`. -/
inductive ModifyHook where
  | user_report_data_modify
  | target_info_modify
deriving DecidableEq, Repr

/-- Modelled from the spec: the fields of `struct shim_str_data` (declared in a
header that is not among the sources) that attestation.c touches: the byte
buffer, the valid byte count, the capacity and the close-commit hook. -/
structure StrData where
  str : List Byte
  len : Nat
  buf_size : Nat
  modify : Option ModifyHook
deriving DecidableEq, Repr

/-- What an open stores into `*hdl`: `type = TYPE_STR`, `acc_mode`,
`info.str.data`; `info.str.ptr` points at the start of `data.str`. -/
structure Handle where
  acc_mode : Nat
  data : StrData
deriving DecidableEq, Repr

/-- The six arguments of `DkAttestationReport` as the callee sees them: a
buffer is `none` for a NULL pointer; the sizes are the pointed-to values.
The `report` buffer is passed uninitialised, so only its capacity is given. -/
structure ReportArgs where
  user_report_data : Option (List Byte)
  user_report_data_size : Nat
  target_info : Option (List Byte)
  target_info_size : Nat
  report : Option Nat
  report_size : Nat
deriving DecidableEq, Repr

/-- What `DkAttestationReport` leaves behind: its return value, the three
sizes it wrote back, and the content of each buffer after the call (read by
the caller only where it passed a non-NULL pointer). -/
structure ReportResult where
  ret : Int
  user_report_data : List Byte
  user_report_data_size : Nat
  target_info : List Byte
  target_info_size : Nat
  report : List Byte
  report_size : Nat
deriving DecidableEq, Repr

/-- The arguments of `DkAttestationQuote` as the callee sees them. -/
structure QuoteArgs where
  user_report_data : List Byte
  user_report_data_size : Nat
  quote_capacity : Nat
  quote_size : Nat
deriving DecidableEq, Repr

/-- What `DkAttestationQuote` leaves behind: return value, content of the
quote buffer, and the quote size it wrote back. -/
structure QuoteResult where
  ret : Int
  quote : List Byte
  quote_size : Nat
deriving DecidableEq, Repr

/-- Modelled from the spec: the platform binding (section 4.1).  The PAL is not
among the sources; it is a parameter.  `DkAttestationReport` takes every
buffer and size in/out; `DkAttestationQuote` reads the user report data and
writes the quote buffer and its size. -/
structure Pal where
  host_type : String
  DkAttestationReport : ReportArgs → ReportResult
  DkAttestationQuote : QuoteArgs → QuoteResult

/-- A PAL call, as recorded in the trace of an operation. -/
inductive PalCall where
  | report (args : ReportArgs)
  | quote (args : QuoteArgs)
deriving DecidableEq, Repr

/-- Whether the two `calloc` calls of an open succeed: first the
`shim_str_data` record, then the byte buffer. -/
structure Alloc where
  data_ok : Bool
  str_ok : Bool
deriving DecidableEq, Repr

/-- Modelled from the spec: how a C function ends.  A failed `assert` (the macro
is not among the sources) is a programmer error that is not recoverable: the
function does not return. -/
inductive Outcome where
  | returned (code : Int)
  | aborted
deriving DecidableEq, Repr

/-- Result of `init_attestation_struct_sizes` and of the close-commit
callbacks: how the call ended, the globals afterwards, the PAL calls made. -/
structure StepResult where
  outcome : Outcome
  state : AttState
  calls : List PalCall
deriving DecidableEq, Repr

/-- Result of an open callback: how the call ended, the globals afterwards,
what was stored into the handle (`none`: the handle was not touched), and the
PAL calls made. -/
structure OpenResult where
  outcome : Outcome
  state : AttState
  hdl : Option Handle
  calls : List PalCall
deriving DecidableEq, Repr

/-! ## The functions of attestation.c -/

/-- The arguments of the sizes probe in `init_attestation_struct_sizes`. -/
def probe_args (s : AttState) : ReportArgs where
  user_report_data := none
  user_report_data_size := s.g_user_report_data_size
  target_info := none
  target_info_size := s.g_target_info_size
  report := none
  report_size := s.g_report_size

/-- The C function `init_attestation_struct_sizes`. -/
def init_attestation_struct_sizes (P : Pal) (s : AttState) : StepResult :=
  if s.g_user_report_data_size ≠ 0 ∧ s.g_target_info_size ≠ 0 ∧ s.g_report_size ≠ 0 then
    ⟨.returned 0, s, []⟩
  else
    let r := P.DkAttestationReport (probe_args s)
    let s1 : AttState :=
      { s with g_user_report_data_size := r.user_report_data_size
               g_target_info_size := r.target_info_size
               g_report_size := r.report_size }
    if r.ret < 0 then
      ⟨.returned (-EACCES), s1, [.report (probe_args s)]⟩
    else if ¬ (s1.g_user_report_data_size ≠ 0
                ∧ s1.g_user_report_data_size ≤ USER_REPORT_DATA_MAX_SIZE) then
      ⟨.aborted, s1, [.report (probe_args s)]⟩
    else if ¬ (s1.g_target_info_size ≠ 0 ∧ s1.g_target_info_size ≤ TARGET_INFO_MAX_SIZE) then
      ⟨.aborted, s1, [.report (probe_args s)]⟩
    else if ¬ (s1.g_report_size ≠ 0) then
      ⟨.aborted, s1, [.report (probe_args s)]⟩
    else
      ⟨.returned 0, s1, [.report (probe_args s)]⟩

/-- The C function `user_report_data_modify` (close-commit of
`user_report_data`); `hdl` is the handle being closed. -/
def user_report_data_modify (s : AttState) (hdl : Handle) : StepResult :=
  if ¬ (s.g_user_report_data_size ≠ 0) then
    ⟨.aborted, s, []⟩
  else
    ⟨.returned 0,
     { s with g_user_report_data :=
                memcpy s.g_user_report_data hdl.data.str s.g_user_report_data_size },
     []⟩

/-- The C function `target_info_modify` (close-commit of `target_info`). -/
def target_info_modify (s : AttState) (hdl : Handle) : StepResult :=
  if ¬ (s.g_target_info_size ≠ 0) then
    ⟨.aborted, s, []⟩
  else
    ⟨.returned 0,
     { s with g_target_info := memcpy s.g_target_info hdl.data.str s.g_target_info_size },
     []⟩

/-- The C function `dev_attestation_user_report_data_open`. -/
def dev_attestation_user_report_data_open (P : Pal) (A : Alloc) (s : AttState)
    (_flags : Nat) : OpenResult :=
  if strcmp_static P.host_type "Linux-SGX" then
    ⟨.returned (-EACCES), s, none, []⟩
  else
    let i := init_attestation_struct_sizes P s
    match i.outcome with
    | .aborted => ⟨.aborted, i.state, none, i.calls⟩
    | .returned c =>
      if c < 0 then ⟨.returned (-EACCES), i.state, none, i.calls⟩
      else if ¬ A.data_ok then ⟨.returned (-ENOMEM), i.state, none, i.calls⟩
      else if ¬ A.str_ok then ⟨.returned (-ENOMEM), i.state, none, i.calls⟩
      else
        let s1 := i.state
        let data_str_userreportdata :=
          memcpy (calloc_bytes s1.g_user_report_data_size) s1.g_user_report_data
            s1.g_user_report_data_size
        ⟨.returned 0, s1,
         some { acc_mode := MAY_WRITE ||| MAY_READ
                data := { str := data_str_userreportdata
                          len := 0
                          buf_size := s1.g_user_report_data_size
                          modify := some .user_report_data_modify } },
         i.calls⟩

/-- The C function `dev_attestation_target_info_open`. -/
def dev_attestation_target_info_open (P : Pal) (A : Alloc) (s : AttState)
    (_flags : Nat) : OpenResult :=
  if strcmp_static P.host_type "Linux-SGX" then
    ⟨.returned (-EACCES), s, none, []⟩
  else
    let i := init_attestation_struct_sizes P s
    match i.outcome with
    | .aborted => ⟨.aborted, i.state, none, i.calls⟩
    | .returned c =>
      if c < 0 then ⟨.returned (-EACCES), i.state, none, i.calls⟩
      else if ¬ A.data_ok then ⟨.returned (-ENOMEM), i.state, none, i.calls⟩
      else if ¬ A.str_ok then ⟨.returned (-ENOMEM), i.state, none, i.calls⟩
      else
        let s1 := i.state
        let data_str_ti :=
          memcpy (calloc_bytes s1.g_target_info_size) s1.g_target_info s1.g_target_info_size
        ⟨.returned 0, s1,
         some { acc_mode := MAY_WRITE ||| MAY_READ
                data := { str := data_str_ti
                          len := 0
                          buf_size := s1.g_target_info_size
                          modify := some .target_info_modify } },
         i.calls⟩

/-- The arguments of the `DkAttestationReport` call in
`dev_attestation_my_target_info_open`: zeroed local scratch buffers of the
cached sizes, no report buffer. -/
def my_target_info_args (s : AttState) : ReportArgs where
  user_report_data := some (List.replicate s.g_user_report_data_size 0)
  user_report_data_size := s.g_user_report_data_size
  target_info := some (List.replicate s.g_target_info_size 0)
  target_info_size := s.g_target_info_size
  report := none
  report_size := s.g_report_size

/-- The C function `dev_attestation_my_target_info_open`. -/
def dev_attestation_my_target_info_open (P : Pal) (A : Alloc) (s : AttState)
    (flags : Nat) : OpenResult :=
  if strcmp_static P.host_type "Linux-SGX" then
    ⟨.returned (-EACCES), s, none, []⟩
  else
    let i := init_attestation_struct_sizes P s
    match i.outcome with
    | .aborted => ⟨.aborted, i.state, none, i.calls⟩
    | .returned c =>
      if c < 0 then ⟨.returned (-EACCES), i.state, none, i.calls⟩
      else if write_flags flags then ⟨.returned (-EACCES), i.state, none, i.calls⟩
      else
        let s1 := i.state
        let r := P.DkAttestationReport (my_target_info_args s1)
        let calls := i.calls ++ [.report (my_target_info_args s1)]
        if r.ret < 0 then ⟨.returned (-EACCES), s1, none, calls⟩
        else if ¬ (r.user_report_data_size = s1.g_user_report_data_size) then
          ⟨.aborted, s1, none, calls⟩
        else if ¬ (r.target_info_size = s1.g_target_info_size) then
          ⟨.aborted, s1, none, calls⟩
        else if ¬ (r.report_size = s1.g_report_size) then
          ⟨.aborted, s1, none, calls⟩
        else if ¬ A.data_ok then ⟨.returned (-ENOMEM), s1, none, calls⟩
        else if ¬ A.str_ok then ⟨.returned (-ENOMEM), s1, none, calls⟩
        else
          let data_str_ti :=
            memcpy (calloc_bytes r.target_info_size) r.target_info r.target_info_size
          ⟨.returned 0, s1,
           some { acc_mode := MAY_READ
                  data := { str := data_str_ti
                            len := r.target_info_size
                            buf_size := r.target_info_size
                            modify := none } },
           calls⟩

/-- The arguments of the `DkAttestationReport` call in
`dev_attestation_report_open`: the globals themselves, by address, and a
stack buffer of `g_report_size` bytes. -/
def report_args (s : AttState) : ReportArgs where
  user_report_data := some s.g_user_report_data
  user_report_data_size := s.g_user_report_data_size
  target_info := some s.g_target_info
  target_info_size := s.g_target_info_size
  report := some s.g_report_size
  report_size := s.g_report_size

/-- The C function `dev_attestation_report_open`.  The platform receives the
addresses of the five globals, so whatever it leaves in them is the state
afterwards. -/
def dev_attestation_report_open (P : Pal) (A : Alloc) (s : AttState)
    (flags : Nat) : OpenResult :=
  if strcmp_static P.host_type "Linux-SGX" then
    ⟨.returned (-EACCES), s, none, []⟩
  else if s.g_target_info_size = 0 ∨ s.g_user_report_data_size = 0 ∨ s.g_report_size = 0 then
    ⟨.returned (-EACCES), s, none, []⟩
  else if write_flags flags then
    ⟨.returned (-EACCES), s, none, []⟩
  else
    let r := P.DkAttestationReport (report_args s)
    let s1 : AttState :=
      { g_user_report_data := r.user_report_data
        g_user_report_data_size := r.user_report_data_size
        g_target_info := r.target_info
        g_target_info_size := r.target_info_size
        g_report_size := r.report_size }
    let stack_report := r.report
    let calls := [PalCall.report (report_args s)]
    if r.ret < 0 then ⟨.returned (-EACCES), s1, none, calls⟩
    else if ¬ A.data_ok then ⟨.returned (-ENOMEM), s1, none, calls⟩
    else if ¬ A.str_ok then ⟨.returned (-ENOMEM), s1, none, calls⟩
    else
      let data_str_report :=
        memcpy (calloc_bytes s1.g_report_size) stack_report s1.g_report_size
      ⟨.returned 0, s1,
       some { acc_mode := MAY_READ
              data := { str := data_str_report
                        len := s1.g_report_size
                        buf_size := s1.g_report_size
                        modify := none } },
       calls⟩

/-- The arguments of the `DkAttestationQuote` call in
`dev_attestation_quote_open`. -/
def quote_args (s : AttState) : QuoteArgs where
  user_report_data := s.g_user_report_data
  user_report_data_size := s.g_user_report_data_size
  quote_capacity := QUOTE_MAX_SIZE
  quote_size := QUOTE_MAX_SIZE

/-- The C function `dev_attestation_quote_open`.  The `shim_str_data` record
is allocated before the platform call, the byte buffer after it. -/
def dev_attestation_quote_open (P : Pal) (A : Alloc) (s : AttState)
    (flags : Nat) : OpenResult :=
  if strcmp_static P.host_type "Linux-SGX" then
    ⟨.returned (-EACCES), s, none, []⟩
  else if s.g_user_report_data_size = 0 then
    ⟨.returned (-EACCES), s, none, []⟩
  else if write_flags flags then
    ⟨.returned (-EACCES), s, none, []⟩
  else if ¬ A.data_ok then
    ⟨.returned (-ENOMEM), s, none, []⟩
  else
    let r := P.DkAttestationQuote (quote_args s)
    let calls := [PalCall.quote (quote_args s)]
    if r.ret < 0 then ⟨.returned (-EACCES), s, none, calls⟩
    else if ¬ A.str_ok then ⟨.returned (-ENOMEM), s, none, calls⟩
    else
      let data_str_quote := memcpy (calloc_bytes r.quote_size) r.quote r.quote_size
      ⟨.returned 0, s,
       some { acc_mode := MAY_READ
              data := { str := data_str_quote
                        len := r.quote_size
                        buf_size := r.quote_size
                        modify := none } },
       calls⟩

/-- The five pseudo-files of `dev_attestation_dir`, in table order. -/
inductive Leaf where
  | user_report_data
  | target_info
  | my_target_info
  | report
  | quote
deriving DecidableEq, Repr

/-- The `.open` callback wired to each entry of `dev_attestation_dir`. -/
def Leaf.open (l : Leaf) (P : Pal) (A : Alloc) (s : AttState) (flags : Nat) : OpenResult :=
  match l with
  | .user_report_data => dev_attestation_user_report_data_open P A s flags
  | .target_info => dev_attestation_target_info_open P A s flags
  | .my_target_info => dev_attestation_my_target_info_open P A s flags
  | .report => dev_attestation_report_open P A s flags
  | .quote => dev_attestation_quote_open P A s flags

/-! ## A concrete platform for examples -/

/-- What the example platform leaves in the `target_info` buffer: with both
input buffers present and the sizes (64, 512, 432), an all-zero target info is
overwritten in place with this instance's identifier (32 bytes 0xEE at the
start); otherwise the buffer is left alone. -/
def example_target_info_out (a : ReportArgs) : List Byte :=
  match a.user_report_data, a.target_info with
  | some _, some t =>
    if a.user_report_data_size = 64 ∧ a.target_info_size = 512 ∧ a.report_size = 432
        ∧ t.take 512 = List.replicate 512 0
    then memcpy t (List.replicate 32 238) 32 else t
  | _, _ => a.target_info.getD []

/-- What the example platform writes into the `report` buffer: with both input
buffers present and the sizes (64, 512, 432), the 64 bytes of user report data
followed by the first 368 bytes of the target info; otherwise nothing. -/
def example_report_out (a : ReportArgs) : List Byte :=
  match a.user_report_data, a.target_info with
  | some u, some _ =>
    if a.user_report_data_size = 64 ∧ a.target_info_size = 512 ∧ a.report_size = 432
    then u.take 64 ++ (example_target_info_out a).take 368 else []
  | _, _ => []

/-- An example platform with the SGX sizes (64, 512, 432), following the
platform binding: every call succeeds and reports the sizes; the user report
data is only read; the quote is the user report data followed by 36 bytes. -/
def examplePal : Pal where
  host_type := "Linux-SGX"
  DkAttestationReport := fun a =>
    { ret := 0
      user_report_data := a.user_report_data.getD []
      user_report_data_size := 64
      target_info := example_target_info_out a
      target_info_size := 512
      report := example_report_out a
      report_size := 432 }
  DkAttestationQuote := fun a =>
    { ret := 0
      quote := a.user_report_data.take a.user_report_data_size ++ List.replicate 36 171
      quote_size := 100 }

/-- The example platform under a host identity other than the supported one. -/
def otherHostPal : Pal := { examplePal with host_type := "Linux" }

/-- Both allocations of an open succeed. -/
def allocOk : Alloc := ⟨true, true⟩

/-- The globals after a successful sizes probe on the example platform and
no commit yet. -/
def sizedState : AttState :=
  { AttState.initial with g_user_report_data_size := 64
                          g_target_info_size := 512
                          g_report_size := 432 }

/-- A handle of a writable file at close time, after the application wrote
the bytes `B` over the whole buffer. -/
def written_handle (hook : ModifyHook) (B : List Byte) : Handle :=
  ⟨MAY_WRITE ||| MAY_READ, ⟨B, B.length, B.length, some hook⟩⟩

/-- The 64 bytes 0x01 .. 0x40. -/
def exampleUserData : List Byte := (List.range 64).map (fun i => i + 1)

/-- The 512 bytes 0xAA. -/
def exampleTargetInfo : List Byte := List.replicate 512 170

/-- The access flags ask for writing: `O_WRONLY` or `O_RDWR` is set. -/
def has_write_flag (flags : Nat) : Prop := flags &&& O_WRONLY ≠ 0 ∨ flags &&& O_RDWR ≠ 0

instance has_write_flag_decidable (flags : Nat) : Decidable (has_write_flag flags) := by
  unfold has_write_flag
  exact inferInstance

/-- An operation of an application on the two writable files: an open (with
its allocation results and flags) or the close-commit of a handle. -/
inductive WritableOp where
  | open_user_report_data (A : Alloc) (flags : Nat)
  | open_target_info (A : Alloc) (flags : Nat)
  | close_user_report_data (hdl : Handle)
  | close_target_info (hdl : Handle)
deriving DecidableEq, Repr

/-- The globals after one operation on a writable file. -/
def WritableOp.step (P : Pal) (s : AttState) : WritableOp → AttState
  | .open_user_report_data A flags => (dev_attestation_user_report_data_open P A s flags).state
  | .open_target_info A flags => (dev_attestation_target_info_open P A s flags).state
  | .close_user_report_data hdl => (user_report_data_modify s hdl).state
  | .close_target_info hdl => (target_info_modify s hdl).state

/-- The globals after a sequence of operations on the writable files, in
program order. -/
def run_writable_ops (P : Pal) (s : AttState) (ops : List WritableOp) : AttState :=
  ops.foldl (WritableOp.step P) s

/-- The buffer of the most recent `user_report_data` commit so far (`acc`: the
one before this operation). -/
def WritableOp.last_user_report_data (acc : Option (List Byte)) :
    WritableOp → Option (List Byte)
  | .close_user_report_data hdl => some hdl.data.str
  | _ => acc

/-- The buffer of the most recent `target_info` commit so far. -/
def WritableOp.last_target_info (acc : Option (List Byte)) : WritableOp → Option (List Byte)
  | .close_target_info hdl => some hdl.data.str
  | _ => acc

/-- The buffer of the most recent `user_report_data` commit of a sequence,
`none` if there was none. -/
def last_user_report_data_commit (ops : List WritableOp) : Option (List Byte) :=
  ops.foldl WritableOp.last_user_report_data none

/-- The buffer of the most recent `target_info` commit of a sequence, `none`
if there was none. -/
def last_target_info_commit (ops : List WritableOp) : Option (List Byte) :=
  ops.foldl WritableOp.last_target_info none

/-- The handle closed by a commit holds at least as many bytes as the
close-commit copies (opens create the buffer with exactly that many). -/
def WritableOp.fits (s : AttState) : WritableOp → Prop
  | .close_user_report_data hdl => s.g_user_report_data_size ≤ hdl.data.str.length
  | .close_target_info hdl => s.g_target_info_size ≤ hdl.data.str.length
  | _ => True

instance fits_decidable (s : AttState) (op : WritableOp) : Decidable (op.fits s) := by
  cases op <;> unfold WritableOp.fits <;> exact inferInstance

/-- The staging buffer that results from an initial content `g0` and the most
recent commit `last` of `n` bytes. -/
def staged_after (g0 : List Byte) (n : Nat) (last : Option (List Byte)) : List Byte :=
  match last with
  | none => g0
  | some B => memcpy g0 B n

/-- An example run: write 0x01 .. 0x40 to `user_report_data` and close, then
write 512 bytes 0xAA to `target_info` and close. -/
def exampleOps : List WritableOp :=
  [.open_user_report_data allocOk O_RDWR,
   .close_user_report_data (written_handle .user_report_data_modify exampleUserData),
   .open_target_info allocOk O_RDWR,
   .close_target_info (written_handle .target_info_modify exampleTargetInfo)]

/-- The globals of `sizedState` after a commit of 512 bytes 0xAA to
`target_info`. -/
def targetedState : AttState :=
  { sizedState with g_target_info := memcpy sizedState.g_target_info exampleTargetInfo 512 }

/-- The triple of cached sizes. -/
def AttState.sizes (s : AttState) : Nat × Nat × Nat :=
  (s.g_user_report_data_size, s.g_target_info_size, s.g_report_size)

/-- The C call `memcpy(dst, src, n)` stays inside both buffers. -/
def memcpy_in_bounds (dst src : List Byte) (n : Nat) : Prop :=
  n ≤ dst.length ∧ n ≤ src.length

instance memcpy_in_bounds_decidable (dst src : List Byte) (n : Nat) :
    Decidable (memcpy_in_bounds dst src n) := by
  unfold memcpy_in_bounds
  exact inferInstance

/-- The staging buffers have the lengths of the C arrays `g_user_report_data`
and `g_target_info`. -/
def AttState.arrays_ok (s : AttState) : Prop :=
  s.g_user_report_data.length = USER_REPORT_DATA_MAX_SIZE
  ∧ s.g_target_info.length = TARGET_INFO_MAX_SIZE

instance arrays_ok_decidable (s : AttState) : Decidable s.arrays_ok := by
  unfold AttState.arrays_ok
  exact inferInstance

/-- The example platform, except that every DkAttestationReport call returns
-5 and every DkAttestationQuote call returns -7. -/
def failingPal : Pal :=
  { examplePal with
    DkAttestationReport := fun a => { examplePal.DkAttestationReport a with ret := -5 }
    DkAttestationQuote := fun a => { examplePal.DkAttestationQuote a with ret := -7 } }

/-! ## Memory with addresses

The opens hand out heap buffers, and the close-commit hooks read the buffer
of the handle being closed through `hdl->info.str.data->str`.  To state which
bytes a handle reads, the opens and the hooks are embedded a second time over
a memory in which a `char*` is an address: `data->str = p` stores the pointer
`p`, not the bytes behind it, and every `memcpy` writes through its
destination pointer. -/

/-- Where a `char*` of attestation.c points: nowhere (`NULL`), at the start of
one of the two file-scope arrays, or at the start of a heap block (numbered in
the order of the successful byte-buffer `calloc` calls). -/
inductive BufPtr where
  | null
  | g_user_report_data
  | g_target_info
  | heap (block : Nat)
deriving DecidableEq, Repr

/-- Modelled from the spec: `struct shim_str_data` (declared in a header that is
not among the sources) as it lies in memory: `str` is a pointer, the other
fields are as in `StrData`. -/
structure StrRecord where
  str : BufPtr
  len : Nat
  buf_size : Nat
  modify : Option ModifyHook
deriving DecidableEq, Repr

/-- A `struct shim_str_data` as `calloc` returns it: all fields zero. -/
def StrRecord.zeroed : StrRecord := ⟨.null, 0, 0, none⟩

/-- What an open stores into `*hdl`, with addresses: `acc_mode`,
`info.str.data` (the record, numbered in the order of the successful record
`calloc` calls) and `info.str.ptr`. -/
structure MemHandle where
  acc_mode : Nat
  data : Nat
  ptr : BufPtr
deriving DecidableEq, Repr

/-- The memory attestation.c works on: the five globals, the
`shim_str_data` records allocated so far (`none`: freed), and the heap byte
blocks allocated so far. -/
structure Memory where
  globals : AttState
  records : List (Option StrRecord)
  blocks : List (List Byte)
deriving DecidableEq, Repr

/-- The memory with the globals replaced (the heap is untouched). -/
def Memory.with_globals (m : Memory) (s : AttState) : Memory := { m with globals := s }

/-- The address the next successful `calloc(1, sizeof(*data))` returns. -/
def Memory.next_record (m : Memory) : Nat := m.records.length

/-- A successful `calloc(1, sizeof(*data))`: one more record, zeroed. -/
def Memory.calloc_record (m : Memory) : Memory :=
  { m with records := m.records ++ [some StrRecord.zeroed] }

/-- The C call `free(data)`. -/
def Memory.free_record (m : Memory) (data : Nat) : Memory :=
  { m with records := m.records.set data none }

/-- The pointer the next successful `calloc(1, n)` of a byte buffer returns. -/
def Memory.next_block (m : Memory) : BufPtr := .heap m.blocks.length

/-- A successful `calloc(1, n)` of a byte buffer: one more block of `n` zero
bytes. -/
def Memory.calloc_block (m : Memory) (n : Nat) : Memory :=
  { m with blocks := m.blocks ++ [calloc_bytes n] }

/-- The bytes behind a pointer (none behind `NULL` or a block that was never
allocated, where C defines nothing). -/
def Memory.load (m : Memory) : BufPtr → List Byte
  | .null => []
  | .g_user_report_data => m.globals.g_user_report_data
  | .g_target_info => m.globals.g_target_info
  | .heap b => (m.blocks[b]?).getD []

/-- The memory after the bytes behind a pointer are replaced. -/
def Memory.store (m : Memory) (p : BufPtr) (bytes : List Byte) : Memory :=
  match p with
  | .null => m
  | .g_user_report_data => { m with globals := { m.globals with g_user_report_data := bytes } }
  | .g_target_info => { m with globals := { m.globals with g_target_info := bytes } }
  | .heap b => { m with blocks := m.blocks.set b bytes }

/-- The C call `memcpy(dst, src, n)` with `dst` a pointer: the bytes behind
`dst` become `memcpy` of what was there. -/
def Memory.memcpy_to (m : Memory) (dst : BufPtr) (src : List Byte) (n : Nat) : Memory :=
  m.store dst (memcpy (m.load dst) src n)

/-- The record at an address, if it is allocated. -/
def Memory.record (m : Memory) (data : Nat) : Option StrRecord := (m.records[data]?).join

/-- The assignments to the fields of `*data`: the record at the address is
replaced. -/
def Memory.set_record (m : Memory) (data : Nat) (r : StrRecord) : Memory :=
  { m with records := m.records.set data (some r) }

/-- The C expression `hdl->info.str.data->str`. -/
def Memory.str_of (m : Memory) (hdl : MemHandle) : BufPtr :=
  match m.record hdl.data with
  | some r => r.str
  | none => .null

/-- What a reader of a handle sees in a memory: the access mode, the bytes
behind `data->str`, and the other fields of the record. -/
def Memory.view (m : Memory) (hdl : MemHandle) : Option Handle :=
  (m.record hdl.data).map
    (fun r => ⟨hdl.acc_mode, ⟨m.load r.str, r.len, r.buf_size, r.modify⟩⟩)

/-- Result of a close-commit callback over a memory. -/
structure MemStepResult where
  outcome : Outcome
  mem : Memory
  calls : List PalCall
deriving DecidableEq, Repr

/-- Result of an open callback over a memory: how the call ended, the memory
afterwards, what was stored into the handle, and the PAL calls made. -/
structure MemOpenResult where
  outcome : Outcome
  mem : Memory
  hdl : Option MemHandle
  calls : List PalCall
deriving DecidableEq, Repr

/-- The C function `user_report_data_modify` over a memory: the destination is
the global array, the source is read through `hdl->info.str.data->str`. -/
def user_report_data_modify_mem (m : Memory) (hdl : MemHandle) : MemStepResult :=
  if ¬ (m.globals.g_user_report_data_size ≠ 0) then
    ⟨.aborted, m, []⟩
  else
    ⟨.returned 0,
     m.memcpy_to .g_user_report_data (m.load (m.str_of hdl)) m.globals.g_user_report_data_size,
     []⟩

/-- The C function `target_info_modify` over a memory. -/
def target_info_modify_mem (m : Memory) (hdl : MemHandle) : MemStepResult :=
  if ¬ (m.globals.g_target_info_size ≠ 0) then
    ⟨.aborted, m, []⟩
  else
    ⟨.returned 0,
     m.memcpy_to .g_target_info (m.load (m.str_of hdl)) m.globals.g_target_info_size,
     []⟩

/-- The C function `dev_attestation_user_report_data_open` over a memory.
`data->len` is not assigned and keeps the zero of `calloc`. -/
def dev_attestation_user_report_data_open_mem (P : Pal) (A : Alloc) (m : Memory)
    (_flags : Nat) : MemOpenResult :=
  if strcmp_static P.host_type "Linux-SGX" then
    ⟨.returned (-EACCES), m, none, []⟩
  else
    let i := init_attestation_struct_sizes P m.globals
    let m0 := m.with_globals i.state
    match i.outcome with
    | .aborted => ⟨.aborted, m0, none, i.calls⟩
    | .returned c =>
      if c < 0 then ⟨.returned (-EACCES), m0, none, i.calls⟩
      else if ¬ A.data_ok then ⟨.returned (-ENOMEM), m0, none, i.calls⟩
      else
        let data := m0.next_record
        let m1 := m0.calloc_record
        if ¬ A.str_ok then ⟨.returned (-ENOMEM), m1.free_record data, none, i.calls⟩
        else
          let data_str_userreportdata := m1.next_block
          let m2 := m1.calloc_block m1.globals.g_user_report_data_size
          let m3 := m2.memcpy_to data_str_userreportdata (m2.load .g_user_report_data)
            m2.globals.g_user_report_data_size
          let m4 := m3.set_record data
            { StrRecord.zeroed with str := data_str_userreportdata
                                    buf_size := m3.globals.g_user_report_data_size
                                    modify := some .user_report_data_modify }
          ⟨.returned 0, m4, some ⟨MAY_WRITE ||| MAY_READ, data, data_str_userreportdata⟩,
           i.calls⟩

/-- The C function `dev_attestation_target_info_open` over a memory. -/
def dev_attestation_target_info_open_mem (P : Pal) (A : Alloc) (m : Memory)
    (_flags : Nat) : MemOpenResult :=
  if strcmp_static P.host_type "Linux-SGX" then
    ⟨.returned (-EACCES), m, none, []⟩
  else
    let i := init_attestation_struct_sizes P m.globals
    let m0 := m.with_globals i.state
    match i.outcome with
    | .aborted => ⟨.aborted, m0, none, i.calls⟩
    | .returned c =>
      if c < 0 then ⟨.returned (-EACCES), m0, none, i.calls⟩
      else if ¬ A.data_ok then ⟨.returned (-ENOMEM), m0, none, i.calls⟩
      else
        let data := m0.next_record
        let m1 := m0.calloc_record
        if ¬ A.str_ok then ⟨.returned (-ENOMEM), m1.free_record data, none, i.calls⟩
        else
          let data_str_ti := m1.next_block
          let m2 := m1.calloc_block m1.globals.g_target_info_size
          let m3 := m2.memcpy_to data_str_ti (m2.load .g_target_info)
            m2.globals.g_target_info_size
          let m4 := m3.set_record data
            { StrRecord.zeroed with str := data_str_ti
                                    buf_size := m3.globals.g_target_info_size
                                    modify := some .target_info_modify }
          ⟨.returned 0, m4, some ⟨MAY_WRITE ||| MAY_READ, data, data_str_ti⟩, i.calls⟩

/-- The C function `dev_attestation_my_target_info_open` over a memory.  The
two scratch buffers are locals; the platform call touches no global and no
heap block. -/
def dev_attestation_my_target_info_open_mem (P : Pal) (A : Alloc) (m : Memory)
    (flags : Nat) : MemOpenResult :=
  if strcmp_static P.host_type "Linux-SGX" then
    ⟨.returned (-EACCES), m, none, []⟩
  else
    let i := init_attestation_struct_sizes P m.globals
    let m0 := m.with_globals i.state
    match i.outcome with
    | .aborted => ⟨.aborted, m0, none, i.calls⟩
    | .returned c =>
      if c < 0 then ⟨.returned (-EACCES), m0, none, i.calls⟩
      else if write_flags flags then ⟨.returned (-EACCES), m0, none, i.calls⟩
      else
        let r := P.DkAttestationReport (my_target_info_args m0.globals)
        let target_info := r.target_info
        let calls := i.calls ++ [.report (my_target_info_args m0.globals)]
        if r.ret < 0 then ⟨.returned (-EACCES), m0, none, calls⟩
        else if ¬ (r.user_report_data_size = m0.globals.g_user_report_data_size) then
          ⟨.aborted, m0, none, calls⟩
        else if ¬ (r.target_info_size = m0.globals.g_target_info_size) then
          ⟨.aborted, m0, none, calls⟩
        else if ¬ (r.report_size = m0.globals.g_report_size) then
          ⟨.aborted, m0, none, calls⟩
        else if ¬ A.data_ok then ⟨.returned (-ENOMEM), m0, none, calls⟩
        else
          let data := m0.next_record
          let m1 := m0.calloc_record
          if ¬ A.str_ok then ⟨.returned (-ENOMEM), m1.free_record data, none, calls⟩
          else
            let data_str_ti := m1.next_block
            let m2 := m1.calloc_block r.target_info_size
            let m3 := m2.memcpy_to data_str_ti target_info r.target_info_size
            let m4 := m3.set_record data
              { StrRecord.zeroed with str := data_str_ti
                                      buf_size := r.target_info_size
                                      len := r.target_info_size }
            ⟨.returned 0, m4, some ⟨MAY_READ, data, data_str_ti⟩, calls⟩

/-- The C function `dev_attestation_report_open` over a memory.  The platform
receives the addresses of the five globals and of the local `stack_report`;
it touches no heap block. -/
def dev_attestation_report_open_mem (P : Pal) (A : Alloc) (m : Memory)
    (flags : Nat) : MemOpenResult :=
  if strcmp_static P.host_type "Linux-SGX" then
    ⟨.returned (-EACCES), m, none, []⟩
  else if m.globals.g_target_info_size = 0 ∨ m.globals.g_user_report_data_size = 0
      ∨ m.globals.g_report_size = 0 then
    ⟨.returned (-EACCES), m, none, []⟩
  else if write_flags flags then
    ⟨.returned (-EACCES), m, none, []⟩
  else
    let r := P.DkAttestationReport (report_args m.globals)
    let m0 := m.with_globals
      { g_user_report_data := r.user_report_data
        g_user_report_data_size := r.user_report_data_size
        g_target_info := r.target_info
        g_target_info_size := r.target_info_size
        g_report_size := r.report_size }
    let stack_report := r.report
    let calls := [PalCall.report (report_args m.globals)]
    if r.ret < 0 then ⟨.returned (-EACCES), m0, none, calls⟩
    else if ¬ A.data_ok then ⟨.returned (-ENOMEM), m0, none, calls⟩
    else
      let data := m0.next_record
      let m1 := m0.calloc_record
      if ¬ A.str_ok then ⟨.returned (-ENOMEM), m1.free_record data, none, calls⟩
      else
        let data_str_report := m1.next_block
        let m2 := m1.calloc_block m1.globals.g_report_size
        let m3 := m2.memcpy_to data_str_report stack_report m2.globals.g_report_size
        let m4 := m3.set_record data
          { StrRecord.zeroed with str := data_str_report
                                  buf_size := m3.globals.g_report_size
                                  len := m3.globals.g_report_size }
        ⟨.returned 0, m4, some ⟨MAY_READ, data, data_str_report⟩, calls⟩

/-- The C function `dev_attestation_quote_open` over a memory.  The record is
allocated before the platform call and freed on the two later failure paths;
the quote buffer is a local. -/
def dev_attestation_quote_open_mem (P : Pal) (A : Alloc) (m : Memory)
    (flags : Nat) : MemOpenResult :=
  if strcmp_static P.host_type "Linux-SGX" then
    ⟨.returned (-EACCES), m, none, []⟩
  else if m.globals.g_user_report_data_size = 0 then
    ⟨.returned (-EACCES), m, none, []⟩
  else if write_flags flags then
    ⟨.returned (-EACCES), m, none, []⟩
  else if ¬ A.data_ok then
    ⟨.returned (-ENOMEM), m, none, []⟩
  else
    let data := m.next_record
    let m1 := m.calloc_record
    let r := P.DkAttestationQuote (quote_args m1.globals)
    let quote := r.quote
    let quote_size := r.quote_size
    let calls := [PalCall.quote (quote_args m1.globals)]
    if r.ret < 0 then ⟨.returned (-EACCES), m1.free_record data, none, calls⟩
    else if ¬ A.str_ok then ⟨.returned (-ENOMEM), m1.free_record data, none, calls⟩
    else
      let data_str_quote := m1.next_block
      let m2 := m1.calloc_block quote_size
      let m3 := m2.memcpy_to data_str_quote quote quote_size
      let m4 := m3.set_record data
        { StrRecord.zeroed with str := data_str_quote
                                buf_size := quote_size
                                len := quote_size }
      ⟨.returned 0, m4, some ⟨MAY_READ, data, data_str_quote⟩, calls⟩

/-- The `.open` callback wired to each entry of `dev_attestation_dir`, over a
memory. -/
def Leaf.open_mem (l : Leaf) (P : Pal) (A : Alloc) (m : Memory) (flags : Nat) :
    MemOpenResult :=
  match l with
  | .user_report_data => dev_attestation_user_report_data_open_mem P A m flags
  | .target_info => dev_attestation_target_info_open_mem P A m flags
  | .my_target_info => dev_attestation_my_target_info_open_mem P A m flags
  | .report => dev_attestation_report_open_mem P A m flags
  | .quote => dev_attestation_quote_open_mem P A m flags

/-- An attestation operation on a memory: an open of one of the five files, or
the close-commit hook run on a handle being closed. -/
inductive MemOp where
  | open_leaf (l : Leaf) (A : Alloc) (flags : Nat)
  | close_user_report_data (hdl : MemHandle)
  | close_target_info (hdl : MemHandle)
deriving DecidableEq, Repr

/-- The memory after one attestation operation. -/
def MemOp.step (P : Pal) (m : Memory) : MemOp → Memory
  | .open_leaf l A flags => (l.open_mem P A m flags).mem
  | .close_user_report_data hdl => (user_report_data_modify_mem m hdl).mem
  | .close_target_info hdl => (target_info_modify_mem m hdl).mem

/-- The memory after a sequence of attestation operations, in program order. -/
def run_mem_ops (P : Pal) (m : Memory) (ops : List MemOp) : Memory :=
  ops.foldl (MemOp.step P) m

/-- The handle's record is allocated and its `str` points at an allocated heap
block, the one `info.str.ptr` points at. -/
def Memory.owns (m : Memory) (hdl : MemHandle) : Prop :=
  ∃ r b, m.record hdl.data = some r ∧ r.str = .heap b ∧ b < m.blocks.length
    ∧ hdl.ptr = .heap b

/-- The second memory has every record and every heap block of the first,
unchanged, and possibly more of each. -/
def Memory.extended_by (m m1 : Memory) : Prop :=
  ∃ rs bs, m1.records = m.records ++ rs ∧ m1.blocks = m.blocks ++ bs

/-- The memory at process start with the sizes of the example platform
cached: no record and no heap block yet. -/
def sizedMemory : Memory := ⟨sizedState, [], []⟩

/-- The handle that the first successful read-only open stores in
`sizedMemory`: record 0, heap block 0. -/
def firstHandle : MemHandle := ⟨MAY_READ, 0, .heap 0⟩

/-- The handle that a following successful open of a writable file stores:
record 1, heap block 1. -/
def secondHandle : MemHandle := ⟨MAY_WRITE ||| MAY_READ, 1, .heap 1⟩

/-- An example memory: `report` was opened read-only in `sizedMemory`, then
`user_report_data` was opened for writing, and the application wrote the
bytes 0x01 .. 0x40 into the buffer of that second handle. -/
def writtenMemory : Memory :=
  ((Leaf.user_report_data.open_mem examplePal allocOk
      (Leaf.report.open_mem examplePal allocOk sizedMemory 0).mem O_RDWR).mem).store
    (.heap 1) exampleUserData

/-- A memory in which the record of handle 0 aliases the global array (its
`str` is `g_user_report_data` itself) and handle 1 owns a heap block holding
the bytes 0x01 .. 0x40. -/
def aliasMemory : Memory :=
  ⟨sizedState,
   [some ⟨.g_user_report_data, 64, 64, none⟩,
    some ⟨.heap 0, 0, 64, some .user_report_data_modify⟩],
   [exampleUserData]⟩

/-- Modelled from the spec: permission bits of a read-only file (`FILE_R_MODE`,
declared in a header that is not among the sources; octal 0444). -/
def FILE_R_MODE : Nat := 292
/-- Modelled from the spec: permission bits of a read+write file
(`FILE_RW_MODE`, declared in a header that is not among the sources; octal
0666). -/
def FILE_RW_MODE : Nat := 438
/-- Modelled from the spec: the regular-file bit of `st_mode` (`S_IFREG`, Linux
value, octal 0100000). -/
def S_IFREG : Nat := 32768
/-- Modelled from the spec: the regular-file type tag of a directory entry
(`LINUX_DT_REG`, Linux value). -/
def LINUX_DT_REG : Nat := 8

/-- Modelled from the spec: the fields of `struct stat` (declared in a system
header that is not among the sources; Linux x86-64 layout). -/
structure Stat where
  st_dev : Nat
  st_ino : Nat
  st_nlink : Nat
  st_mode : Nat
  st_uid : Nat
  st_gid : Nat
  st_rdev : Nat
  st_size : Nat
  st_blksize : Nat
  st_blocks : Nat
  st_atime : Nat
  st_mtime : Nat
  st_ctime : Nat
deriving DecidableEq, Repr

/-- The stat buffer after `memset(buf, 0, sizeof(*buf))`. -/
def Stat.zeroed : Stat := ⟨0, 0, 0, 0, 0, 0, 0, 0, 0, 0, 0, 0, 0⟩

/-- The C function `dev_attestation_readonly_mode`: return value and `*mode`. -/
def dev_attestation_readonly_mode (_name : String) : Int × Nat :=
  (0, FILE_R_MODE ||| S_IFREG)

/-- The C function `dev_attestation_readwrite_mode`: return value and `*mode`. -/
def dev_attestation_readwrite_mode (_name : String) : Int × Nat :=
  (0, FILE_RW_MODE ||| S_IFREG)

/-- The C function `dev_attestation_readonly_stat`: return value and `*buf`. -/
def dev_attestation_readonly_stat (_name : String) (_buf : Stat) : Int × Stat :=
  (0, { Stat.zeroed with st_dev := 1, st_ino := 1, st_mode := FILE_R_MODE ||| S_IFREG })

/-- The C function `dev_attestation_readwrite_stat`: return value and `*buf`. -/
def dev_attestation_readwrite_stat (_name : String) (_buf : Stat) : Int × Stat :=
  (0, { Stat.zeroed with st_dev := 1, st_ino := 1, st_mode := FILE_RW_MODE ||| S_IFREG })

/-- The three callbacks of a `struct pseudo_fs_ops` that attestation.c sets
(`open_fn` is the C field `open`). -/
structure pseudo_fs_ops where
  open_fn : Pal → Alloc → AttState → Nat → OpenResult
  mode : String → Int × Nat
  stat : String → Stat → Int × Stat

/-- An entry of a `struct pseudo_dir`. -/
structure pseudo_ent where
  name : String
  fs_ops : pseudo_fs_ops
  type : Nat

/-- A `struct pseudo_dir`: the declared number of entries and the entries. -/
structure pseudo_dir where
  size : Nat
  ent : List pseudo_ent

/-- The table `dev_attestation_user_report_data_fs_ops`. -/
def dev_attestation_user_report_data_fs_ops : pseudo_fs_ops :=
  ⟨dev_attestation_user_report_data_open, dev_attestation_readwrite_mode,
   dev_attestation_readwrite_stat⟩

/-- The table `dev_attestation_target_info_fs_ops`. -/
def dev_attestation_target_info_fs_ops : pseudo_fs_ops :=
  ⟨dev_attestation_target_info_open, dev_attestation_readwrite_mode,
   dev_attestation_readwrite_stat⟩

/-- The table `dev_attestation_my_target_info_fs_ops`. -/
def dev_attestation_my_target_info_fs_ops : pseudo_fs_ops :=
  ⟨dev_attestation_my_target_info_open, dev_attestation_readonly_mode,
   dev_attestation_readonly_stat⟩

/-- The table `dev_attestation_report_fs_ops`. -/
def dev_attestation_report_fs_ops : pseudo_fs_ops :=
  ⟨dev_attestation_report_open, dev_attestation_readonly_mode, dev_attestation_readonly_stat⟩

/-- The table `dev_attestation_quote_fs_ops`. -/
def dev_attestation_quote_fs_ops : pseudo_fs_ops :=
  ⟨dev_attestation_quote_open, dev_attestation_readonly_mode, dev_attestation_readonly_stat⟩

/-- The directory descriptor `dev_attestation_dir`. -/
def dev_attestation_dir : pseudo_dir where
  size := 5
  ent :=
    [⟨"user_report_data", dev_attestation_user_report_data_fs_ops, LINUX_DT_REG⟩,
     ⟨"target_info", dev_attestation_target_info_fs_ops, LINUX_DT_REG⟩,
     ⟨"my_target_info", dev_attestation_my_target_info_fs_ops, LINUX_DT_REG⟩,
     ⟨"report", dev_attestation_report_fs_ops, LINUX_DT_REG⟩,
     ⟨"quote", dev_attestation_quote_fs_ops, LINUX_DT_REG⟩]

end Attestation

/-!
Hex parsing of the SGX tools.

Source: `Pal/src/host/Linux-SGX/tools/common/util.c`.  A C string is the list
of its characters before the terminating NUL; `size_t` values are natural
numbers below 2^64 and the one product the code forms is reduced modulo 2^64.
-/

namespace Util

/-- A byte of a buffer. -/
abbrev Byte := Nat

/-- The values of `endianness_t`. -/
inductive endianness_t where
  | ENDIAN_LSB
  | ENDIAN_MSB
deriving DecidableEq, Repr

/-- The globals of util.c that the functions below read or write. -/
structure UtilState where
  g_verbose : Bool
  g_endianness : endianness_t
deriving DecidableEq, Repr

/-- The globals as the C initialisers leave them. -/
def UtilState.initial : UtilState := ⟨false, .ENDIAN_LSB⟩

/-- The C function `set_endianness` (its debug output is not part of the
state). -/
def set_endianness (g : UtilState) (endianness : endianness_t) : UtilState :=
  { g with g_endianness := endianness }

/-- The C function `get_endianness`. -/
def get_endianness (g : UtilState) : endianness_t := g.g_endianness

/-- The number of values of `size_t`, 2^64. -/
def SIZE_T_MOD : Nat := 18446744073709551616

/-- The libc function `isxdigit`: `0`-`9`, `a`-`f`, `A`-`F`. -/
def isxdigit (c : Char) : Bool :=
  (48 ≤ c.toNat && c.toNat ≤ 57) || (97 ≤ c.toNat && c.toNat ≤ 102)
    || (65 ≤ c.toNat && c.toNat ≤ 70)

/-- The value of a hexadecimal digit (0 for any other character). -/
def hex_digit_value (c : Char) : Nat :=
  if 48 ≤ c.toNat ∧ c.toNat ≤ 57 then c.toNat - 48
  else if 97 ≤ c.toNat ∧ c.toNat ≤ 102 then c.toNat - 87
  else if 65 ≤ c.toNat ∧ c.toNat ≤ 70 then c.toNat - 55
  else 0

/-- The character `hex[i]` of a C string: its `i`-th character, and the
terminating NUL at index `strlen(hex)`. -/
def char_at (hex : List Char) (i : Nat) : Char := hex.getD i (Char.ofNat 0)

/-- The byte that the `k`-th pair of hexadecimal digits of `hex` denotes. -/
def hex_byte (hex : List Char) (k : Nat) : Byte :=
  16 * hex_digit_value (char_at hex (2 * k)) + hex_digit_value (char_at hex (2 * k + 1))

/-- The libc call `sscanf(s, "%02hhx", &b)` on a string whose first two
characters are hexadecimal digits: both are converted and the value is stored
as an `unsigned char`.  On any other string the result is `none` and nothing
is stored; `parse_hex` makes no such call. -/
def sscanf_02hhx (s : List Char) : Option Byte :=
  match s with
  | c1 :: c2 :: _ =>
    if isxdigit c1 && isxdigit c2 then
      some ((16 * hex_digit_value c1 + hex_digit_value c2) % 256)
    else none
  | _ => none

/-- The `for` loop of `parse_hex`, with `n` iterations left and loop variable
`i`: return value and buffer content. -/
def parse_hex_loop (g : UtilState) (hex : List Char) (buffer_size : Nat) :
    Nat → Nat → List Byte → Int × List Byte
  | 0, _, buffer => (0, buffer)
  | n + 1, i, buffer =>
    if !isxdigit (char_at hex ((i * 2) % SIZE_T_MOD))
        || !isxdigit (char_at hex ((i * 2 + 1) % SIZE_T_MOD)) then
      (-1, buffer)
    else
      let k := if g.g_endianness = .ENDIAN_LSB then i else buffer_size - i - 1
      let buffer1 :=
        match sscanf_02hhx (hex.drop ((i * 2) % SIZE_T_MOD)) with
        | some b => buffer.set k b
        | none => buffer
      parse_hex_loop g hex buffer_size n (i + 1) buffer1

/-- The C function `parse_hex`: return value and buffer content afterwards.
`none` is a NULL pointer. -/
def parse_hex (g : UtilState) (hex : Option (List Char)) (buffer : Option (List Byte))
    (buffer_size : Nat) : Int × Option (List Byte) :=
  match hex, buffer with
  | some h, some b =>
    if buffer_size = 0 then (-1, some b)
    else if h.length ≠ (buffer_size * 2) % SIZE_T_MOD then (-1, some b)
    else
      ((parse_hex_loop g h buffer_size buffer_size 0 b).1,
       some (parse_hex_loop g h buffer_size buffer_size 0 b).2)
  | _, _ => (-1, buffer)

end Util

/-!
Polling of `/dev` handles.

Source: `LibOS/shim/src/fs/dev/fs.c`.
-/

namespace DevFs

/-- The poll flags `FS_POLL_RD`, `FS_POLL_WR` and `FS_POLL_SZ`: they are
declared in a header that is not among the sources and are a parameter. -/
structure poll_flags where
  FS_POLL_RD : Nat
  FS_POLL_WR : Nat
  FS_POLL_SZ : Nat
deriving DecidableEq, Repr

/-- The values of the poll flags in the Graphene headers. -/
def graphene_poll_flags : poll_flags := ⟨1, 2, 8⟩

/-- The callbacks of `hdl->info.dev.dev_ops` that `dev_poll` tests: the address
of the callback, `none` for a NULL pointer. -/
structure shim_dev_ops where
  read : Option Nat
  write : Option Nat
deriving DecidableEq, Repr

/-- The C function `dev_poll`; `poll_type` is the bit pattern of the `int`
argument. -/
def dev_poll (K : poll_flags) (dev_ops : shim_dev_ops) (poll_type : Nat) : Nat :=
  if poll_type = K.FS_POLL_SZ then 0
  else
    let ret0 : Nat := 0
    let ret1 :=
      if poll_type &&& K.FS_POLL_RD ≠ 0 ∧ dev_ops.read.isSome then ret0 ||| K.FS_POLL_RD
      else ret0
    let ret2 :=
      if poll_type &&& K.FS_POLL_WR ≠ 0 ∧ dev_ops.write.isSome then ret1 ||| K.FS_POLL_WR
      else ret1
    ret2

end DevFs

namespace Attestation

/-- Modelled from the spec: the sizes of user_report_data, target_info and
report are platform-fixed (sections 2 and 4.2): every DkAttestationReport call
writes back the same three sizes `(U, T, R)`, or leaves the three size
parameters as it was given them. -/
def Pal.sizes_fixed (P : Pal) (U T R : Nat) : Prop :=
  ∀ a : ReportArgs,
    ((P.DkAttestationReport a).user_report_data_size = U
      ∧ (P.DkAttestationReport a).target_info_size = T
      ∧ (P.DkAttestationReport a).report_size = R)
    ∨ ((P.DkAttestationReport a).user_report_data_size = a.user_report_data_size
      ∧ (P.DkAttestationReport a).target_info_size = a.target_info_size
      ∧ (P.DkAttestationReport a).report_size = a.report_size)

/-- An attestation operation on the globals: an open of one of the five files,
or the close-commit of a handle of a writable file. -/
inductive AttOp where
  | open_leaf (l : Leaf) (A : Alloc) (flags : Nat)
  | close_user_report_data (hdl : Handle)
  | close_target_info (hdl : Handle)
deriving DecidableEq, Repr

/-- The globals after one attestation operation. -/
def AttOp.step (P : Pal) (s : AttState) : AttOp → AttState
  | .open_leaf l A flags => (l.open P A s flags).state
  | .close_user_report_data hdl => (user_report_data_modify s hdl).state
  | .close_target_info hdl => (target_info_modify s hdl).state

/-- The globals after a sequence of attestation operations, in program
order. -/
def run_ops (P : Pal) (s : AttState) (ops : List AttOp) : AttState :=
  ops.foldl (AttOp.step P) s

/-- An open over a memory agrees with the same open over the globals: same
outcome, globals and PAL calls; when the open over the globals stores no
handle, neither does the other, and the heap has at most one more, freed,
record; when it stores a handle, the other stores a handle whose record is
new, whose `str` points at a new heap block holding that handle's bytes, and
whose other fields are that handle's. -/
def MemOpenResult.refines (R : MemOpenResult) (m : Memory) (V : OpenResult) : Prop :=
  (V.hdl = none
    ∧ (R = ⟨V.outcome, ⟨V.state, m.records, m.blocks⟩, none, V.calls⟩
        ∨ R = ⟨V.outcome, ⟨V.state, m.records ++ [none], m.blocks⟩, none, V.calls⟩))
  ∨ (∃ hv, V.hdl = some hv
      ∧ R = ⟨V.outcome,
             ⟨V.state,
              m.records ++ [some ⟨.heap m.blocks.length, hv.data.len, hv.data.buf_size,
                                  hv.data.modify⟩],
              m.blocks ++ [hv.data.str]⟩,
             some ⟨hv.acc_mode, m.records.length, .heap m.blocks.length⟩, V.calls⟩)

/-! ## Basic facts -/

theorem lor_eq_zero_iff (a b : Nat) : a ||| b = 0 ↔ a = 0 ∧ b = 0 := by
  constructor
  · intro h
    constructor
    · apply Nat.eq_of_testBit_eq
      intro i
      have hi := congrArg (fun x => Nat.testBit x i) h
      simp [Nat.testBit_or] at hi
      simp [hi.1]
    · apply Nat.eq_of_testBit_eq
      intro i
      have hi := congrArg (fun x => Nat.testBit x i) h
      simp [Nat.testBit_or] at hi
      simp [hi.2]
  · rintro ⟨rfl, rfl⟩
    rfl

theorem write_flags_eq_true_iff (flags : Nat) :
    write_flags flags = true ↔ has_write_flag flags := by
  unfold write_flags has_write_flag
  rw [decide_eq_true_iff, Nat.and_or_distrib_left, Ne, lor_eq_zero_iff]
  tauto

theorem write_flags_eq_false_iff (flags : Nat) :
    write_flags flags = false ↔ ¬ has_write_flag flags := by
  rw [← write_flags_eq_true_iff]
  simp

theorem strcmp_static_eq_false {a b : String} (h : a = b) : strcmp_static a b = false := by
  simp [strcmp_static, h]

theorem strcmp_static_eq_true {a b : String} (h : a ≠ b) : strcmp_static a b = true := by
  simp [strcmp_static, h]

theorem init_of_sized (P : Pal) (s : AttState)
    (hu : s.g_user_report_data_size ≠ 0) (ht : s.g_target_info_size ≠ 0)
    (hr : s.g_report_size ≠ 0) :
    init_attestation_struct_sizes P s = ⟨.returned 0, s, []⟩ := by
  simp [init_attestation_struct_sizes, hu, ht, hr]

theorem memcpy_calloc_take (src : List Byte) (n : Nat) :
    memcpy (calloc_bytes n) src n = src.take n := by
  simp [memcpy, calloc_bytes]

theorem memcpy_take_of_le (dst src : List Byte) (n : Nat) (h : n ≤ src.length) :
    (memcpy dst src n).take n = src.take n := by
  simp [memcpy, List.take_append_eq_append_take, List.length_take, Nat.min_eq_left h]

theorem memcpy_memcpy (g B1 B2 : List Byte) (n : Nat) (h : n ≤ B1.length) :
    memcpy (memcpy g B1 n) B2 n = memcpy g B2 n := by
  simp [memcpy, List.drop_append_eq_append_drop, List.length_take, Nat.min_eq_left h]

theorem memcpy_staged_after (g0 : List Byte) (n : Nat) (last : Option (List Byte))
    (B : List Byte) (h : ∀ B1, last = some B1 → n ≤ B1.length) :
    memcpy (staged_after g0 n last) B n = staged_after g0 n (some B) := by
  cases last with
  | none => rfl
  | some B1 => simp [staged_after, memcpy_memcpy _ _ _ _ (h B1 rfl)]

theorem user_report_data_open_state_of_sized (P : Pal) (A : Alloc) (s : AttState) (flags : Nat)
    (hu : s.g_user_report_data_size ≠ 0) (ht : s.g_target_info_size ≠ 0)
    (hr : s.g_report_size ≠ 0) :
    (dev_attestation_user_report_data_open P A s flags).state = s := by
  unfold dev_attestation_user_report_data_open
  rw [init_of_sized P s hu ht hr]
  split
  · rfl
  · simp only
    split_ifs <;> rfl

theorem target_info_open_state_of_sized (P : Pal) (A : Alloc) (s : AttState) (flags : Nat)
    (hu : s.g_user_report_data_size ≠ 0) (ht : s.g_target_info_size ≠ 0)
    (hr : s.g_report_size ≠ 0) :
    (dev_attestation_target_info_open P A s flags).state = s := by
  unfold dev_attestation_target_info_open
  rw [init_of_sized P s hu ht hr]
  split
  · rfl
  · simp only
    split_ifs <;> rfl

/-- Invariant of a run of operations on the writable files that started in
`s0`: the sizes are those of `s0` and each staging buffer is the one of `s0`
overwritten by the most recent commit. -/
theorem run_writable_ops_inv (P : Pal) (s0 : AttState)
    (hu : s0.g_user_report_data_size ≠ 0) (ht : s0.g_target_info_size ≠ 0)
    (hr : s0.g_report_size ≠ 0) :
    ∀ (ops : List WritableOp) (s : AttState) (aU aT : Option (List Byte)),
      (∀ op ∈ ops, op.fits s0) →
      (∀ B, aU = some B → s0.g_user_report_data_size ≤ B.length) →
      (∀ B, aT = some B → s0.g_target_info_size ≤ B.length) →
      s = ⟨staged_after s0.g_user_report_data s0.g_user_report_data_size aU,
           s0.g_user_report_data_size,
           staged_after s0.g_target_info s0.g_target_info_size aT,
           s0.g_target_info_size, s0.g_report_size⟩ →
      ops.foldl (WritableOp.step P) s
        = ⟨staged_after s0.g_user_report_data s0.g_user_report_data_size
             (ops.foldl WritableOp.last_user_report_data aU),
           s0.g_user_report_data_size,
           staged_after s0.g_target_info s0.g_target_info_size
             (ops.foldl WritableOp.last_target_info aT),
           s0.g_target_info_size, s0.g_report_size⟩ := by
  intro ops
  induction ops with
  | nil => intro s aU aT _ _ _ hs; simpa using hs
  | cons op ops ih =>
    intro s aU aT hfit hU hT hs
    have hfit1 : ∀ o ∈ ops, o.fits s0 := fun o ho => hfit o (List.mem_cons_of_mem _ ho)
    have hop : op.fits s0 := hfit op (List.mem_cons_self _ _)
    have hsu : s.g_user_report_data_size ≠ 0 := by rw [hs]; exact hu
    have hst : s.g_target_info_size ≠ 0 := by rw [hs]; exact ht
    have hsr : s.g_report_size ≠ 0 := by rw [hs]; exact hr
    rw [List.foldl_cons, List.foldl_cons, List.foldl_cons]
    cases op with
    | open_user_report_data A flags =>
      apply ih _ _ _ hfit1 hU hT
      simp only [WritableOp.step, WritableOp.last_user_report_data,
        WritableOp.last_target_info]
      rw [user_report_data_open_state_of_sized P A s flags hsu hst hsr]
      exact hs
    | open_target_info A flags =>
      apply ih _ _ _ hfit1 hU hT
      simp only [WritableOp.step, WritableOp.last_user_report_data,
        WritableOp.last_target_info]
      rw [target_info_open_state_of_sized P A s flags hsu hst hsr]
      exact hs
    | close_user_report_data hdl =>
      apply ih _ _ _ hfit1 _ hT
      · simp only [WritableOp.step, WritableOp.last_user_report_data,
          WritableOp.last_target_info]
        subst hs
        simp [user_report_data_modify, hu, memcpy_staged_after _ _ _ _ hU]
      · intro B hB
        simp only [WritableOp.last_user_report_data, Option.some.injEq] at hB
        subst hB
        exact hop
    | close_target_info hdl =>
      apply ih _ _ _ hfit1 hU _
      · simp only [WritableOp.step, WritableOp.last_user_report_data,
          WritableOp.last_target_info]
        subst hs
        simp [target_info_modify, ht, memcpy_staged_after _ _ _ _ hT]
      · intro B hB
        simp only [WritableOp.last_target_info, Option.some.injEq] at hB
        subst hB
        exact hop

theorem last_user_report_data_fits (s0 : AttState) :
    ∀ (ops : List WritableOp) (acc : Option (List Byte)),
      (∀ op ∈ ops, op.fits s0) →
      (∀ B, acc = some B → s0.g_user_report_data_size ≤ B.length) →
      ∀ B, ops.foldl WritableOp.last_user_report_data acc = some B →
        s0.g_user_report_data_size ≤ B.length := by
  intro ops
  induction ops with
  | nil => intro acc _ hacc B hB; exact hacc B hB
  | cons op ops ih =>
    intro acc hfit hacc B hB
    rw [List.foldl_cons] at hB
    refine ih _ (fun o ho => hfit o (List.mem_cons_of_mem _ ho)) ?_ B hB
    intro B1 hB1
    have hop : op.fits s0 := hfit op (List.mem_cons_self _ _)
    cases op with
    | close_user_report_data hdl =>
      simp only [WritableOp.last_user_report_data, Option.some.injEq] at hB1
      subst hB1
      exact hop
    | open_user_report_data A flags => exact hacc B1 hB1
    | open_target_info A flags => exact hacc B1 hB1
    | close_target_info hdl => exact hacc B1 hB1

theorem last_target_info_fits (s0 : AttState) :
    ∀ (ops : List WritableOp) (acc : Option (List Byte)),
      (∀ op ∈ ops, op.fits s0) →
      (∀ B, acc = some B → s0.g_target_info_size ≤ B.length) →
      ∀ B, ops.foldl WritableOp.last_target_info acc = some B →
        s0.g_target_info_size ≤ B.length := by
  intro ops
  induction ops with
  | nil => intro acc _ hacc B hB; exact hacc B hB
  | cons op ops ih =>
    intro acc hfit hacc B hB
    rw [List.foldl_cons] at hB
    refine ih _ (fun o ho => hfit o (List.mem_cons_of_mem _ ho)) ?_ B hB
    intro B1 hB1
    have hop : op.fits s0 := hfit op (List.mem_cons_self _ _)
    cases op with
    | close_target_info hdl =>
      simp only [WritableOp.last_target_info, Option.some.injEq] at hB1
      subst hB1
      exact hop
    | open_user_report_data A flags => exact hacc B1 hB1
    | open_target_info A flags => exact hacc B1 hB1
    | close_user_report_data hdl => exact hacc B1 hB1

theorem run_writable_ops_eq (P : Pal) (s0 : AttState) (ops : List WritableOp)
    (hu : s0.g_user_report_data_size ≠ 0) (ht : s0.g_target_info_size ≠ 0)
    (hr : s0.g_report_size ≠ 0) (hfit : ∀ op ∈ ops, op.fits s0) :
    run_writable_ops P s0 ops
      = ⟨staged_after s0.g_user_report_data s0.g_user_report_data_size
           (last_user_report_data_commit ops),
         s0.g_user_report_data_size,
         staged_after s0.g_target_info s0.g_target_info_size (last_target_info_commit ops),
         s0.g_target_info_size, s0.g_report_size⟩ :=
  run_writable_ops_inv P s0 hu ht hr ops s0 none none hfit
    (fun _ h => by cases h) (fun _ h => by cases h) rfl

theorem report_open_calls_of_sized (P : Pal) (A : Alloc) (s : AttState) (flags : Nat)
    (hhost : P.host_type = "Linux-SGX")
    (hu : s.g_user_report_data_size ≠ 0) (ht : s.g_target_info_size ≠ 0)
    (hr : s.g_report_size ≠ 0) (hflags : ¬ has_write_flag flags) :
    (dev_attestation_report_open P A s flags).calls = [PalCall.report (report_args s)] := by
  have h := strcmp_static_eq_false hhost
  have hw := (write_flags_eq_false_iff flags).2 hflags
  unfold dev_attestation_report_open
  simp only [h, hu, ht, hr, hw, or_self, Bool.false_eq_true, if_false]
  split_ifs <;> rfl

theorem exampleOps_fits : ∀ op ∈ exampleOps, op.fits sizedState := by
  intro op hop
  simp only [exampleOps, List.mem_cons, List.mem_singleton, List.not_mem_nil, or_false] at hop
  rcases hop with rfl | rfl | rfl | rfl
  · trivial
  · show 64 ≤ exampleUserData.length
    simp [exampleUserData]
  · trivial
  · show 512 ≤ (List.replicate 512 170).length
    rw [List.length_replicate]

theorem init_state_buffers (P : Pal) (s : AttState) :
    (init_attestation_struct_sizes P s).state.g_user_report_data = s.g_user_report_data
    ∧ (init_attestation_struct_sizes P s).state.g_target_info = s.g_target_info := by
  simp only [init_attestation_struct_sizes]
  split_ifs <;> exact ⟨rfl, rfl⟩

theorem init_outcome_cases (P : Pal) (s : AttState) :
    (init_attestation_struct_sizes P s).outcome = .returned 0
    ∨ (init_attestation_struct_sizes P s).outcome = .returned (-EACCES)
    ∨ (init_attestation_struct_sizes P s).outcome = .aborted := by
  simp only [init_attestation_struct_sizes]
  split_ifs <;> simp

theorem my_target_info_open_write_flag (P : Pal) (A : Alloc) (s : AttState) (flags : Nat)
    (hhost : P.host_type = "Linux-SGX") (hflags : has_write_flag flags) :
    dev_attestation_my_target_info_open P A s flags
      = ⟨match (init_attestation_struct_sizes P s).outcome with
         | .aborted => .aborted
         | .returned _ => .returned (-EACCES),
         (init_attestation_struct_sizes P s).state, none,
         (init_attestation_struct_sizes P s).calls⟩ := by
  have h := strcmp_static_eq_false hhost
  have hw := (write_flags_eq_true_iff flags).2 hflags
  unfold dev_attestation_my_target_info_open
  simp only [h, Bool.false_eq_true, if_false]
  cases hi : (init_attestation_struct_sizes P s).outcome with
  | aborted => rfl
  | returned c =>
    simp only [hw, if_true]
    split_ifs <;> rfl

theorem report_open_write_flag (P : Pal) (A : Alloc) (s : AttState) (flags : Nat)
    (hhost : P.host_type = "Linux-SGX") (hflags : has_write_flag flags) :
    dev_attestation_report_open P A s flags = ⟨.returned (-EACCES), s, none, []⟩ := by
  have h := strcmp_static_eq_false hhost
  have hw := (write_flags_eq_true_iff flags).2 hflags
  unfold dev_attestation_report_open
  simp only [h, hw, Bool.false_eq_true, if_false, if_true]
  split_ifs <;> rfl

theorem quote_open_write_flag (P : Pal) (A : Alloc) (s : AttState) (flags : Nat)
    (hhost : P.host_type = "Linux-SGX") (hflags : has_write_flag flags) :
    dev_attestation_quote_open P A s flags = ⟨.returned (-EACCES), s, none, []⟩ := by
  have h := strcmp_static_eq_false hhost
  have hw := (write_flags_eq_true_iff flags).2 hflags
  unfold dev_attestation_quote_open
  simp only [h, hw, Bool.false_eq_true, if_false, if_true]
  split_ifs <;> rfl

theorem init_of_unsized (P : Pal) (s : AttState)
    (h0 : ¬ (s.g_user_report_data_size ≠ 0 ∧ s.g_target_info_size ≠ 0 ∧ s.g_report_size ≠ 0)) :
    (init_attestation_struct_sizes P s).calls = [PalCall.report (probe_args s)]
    ∧ (init_attestation_struct_sizes P s).state
        = { s with
            g_user_report_data_size :=
              (P.DkAttestationReport (probe_args s)).user_report_data_size
            g_target_info_size := (P.DkAttestationReport (probe_args s)).target_info_size
            g_report_size := (P.DkAttestationReport (probe_args s)).report_size } := by
  simp only [init_attestation_struct_sizes, if_neg h0]
  split_ifs <;> exact ⟨rfl, rfl⟩

theorem init_sizes_of_ok (P : Pal) (s : AttState)
    (hok : (init_attestation_struct_sizes P s).outcome = .returned 0) :
    (init_attestation_struct_sizes P s).state.g_user_report_data_size ≠ 0
    ∧ (init_attestation_struct_sizes P s).state.g_target_info_size ≠ 0
    ∧ (init_attestation_struct_sizes P s).state.g_report_size ≠ 0 := by
  simp only [init_attestation_struct_sizes] at hok ⊢
  split_ifs at hok ⊢ with h1 h2 h3 h4 h5
  all_goals first
    | exact h1
    | exact ⟨h3.1, h4.1, h5⟩
    | simp [EACCES] at hok

theorem init_returned_nonneg (P : Pal) (s : AttState) (c : Int)
    (hc : (init_attestation_struct_sizes P s).outcome = .returned c) (hnn : ¬ c < 0) :
    c = 0 := by
  rcases init_outcome_cases P s with h | h | h
  · rw [h] at hc
    exact (Outcome.returned.inj hc).symm
  · rw [h] at hc
    have hce := Outcome.returned.inj hc
    rw [← hce] at hnn
    simp [EACCES] at hnn
  · rw [h] at hc
    cases hc

theorem user_report_data_open_init (P : Pal) (A : Alloc) (s : AttState) (flags : Nat)
    (hhost : P.host_type = "Linux-SGX") :
    (dev_attestation_user_report_data_open P A s flags).state
        = (init_attestation_struct_sizes P s).state
    ∧ (dev_attestation_user_report_data_open P A s flags).calls
        = (init_attestation_struct_sizes P s).calls
    ∧ ((dev_attestation_user_report_data_open P A s flags).outcome = .returned 0 →
        (init_attestation_struct_sizes P s).outcome = .returned 0) := by
  have h := strcmp_static_eq_false hhost
  unfold dev_attestation_user_report_data_open
  simp only [h, Bool.false_eq_true, if_false]
  cases hi : (init_attestation_struct_sizes P s).outcome with
  | aborted => simp
  | returned c =>
    simp only
    split_ifs with h1
    all_goals first
      | (refine ⟨rfl, rfl, fun _ => ?_⟩
         rw [init_returned_nonneg P s c hi h1])
      | simp [EACCES, ENOMEM]

theorem target_info_open_init (P : Pal) (A : Alloc) (s : AttState) (flags : Nat)
    (hhost : P.host_type = "Linux-SGX") :
    (dev_attestation_target_info_open P A s flags).state
        = (init_attestation_struct_sizes P s).state
    ∧ (dev_attestation_target_info_open P A s flags).calls
        = (init_attestation_struct_sizes P s).calls
    ∧ ((dev_attestation_target_info_open P A s flags).outcome = .returned 0 →
        (init_attestation_struct_sizes P s).outcome = .returned 0) := by
  have h := strcmp_static_eq_false hhost
  unfold dev_attestation_target_info_open
  simp only [h, Bool.false_eq_true, if_false]
  cases hi : (init_attestation_struct_sizes P s).outcome with
  | aborted => simp
  | returned c =>
    simp only
    split_ifs with h1
    all_goals first
      | (refine ⟨rfl, rfl, fun _ => ?_⟩
         rw [init_returned_nonneg P s c hi h1])
      | simp [EACCES, ENOMEM]

theorem my_target_info_open_init (P : Pal) (A : Alloc) (s : AttState) (flags : Nat)
    (hhost : P.host_type = "Linux-SGX") :
    (dev_attestation_my_target_info_open P A s flags).state
        = (init_attestation_struct_sizes P s).state
    ∧ ((dev_attestation_my_target_info_open P A s flags).outcome = .returned 0 →
        (init_attestation_struct_sizes P s).outcome = .returned 0) := by
  have h := strcmp_static_eq_false hhost
  unfold dev_attestation_my_target_info_open
  simp only [h, Bool.false_eq_true, if_false]
  cases hi : (init_attestation_struct_sizes P s).outcome with
  | aborted => simp
  | returned c =>
    simp only
    split_ifs with h1
    all_goals first
      | (refine ⟨rfl, fun _ => ?_⟩
         rw [init_returned_nonneg P s c hi h1])
      | simp [EACCES, ENOMEM]

theorem report_open_ok (P : Pal) (A : Alloc) (s : AttState) (flags : Nat)
    (hhost : P.host_type = "Linux-SGX")
    (hu : s.g_user_report_data_size ≠ 0) (ht : s.g_target_info_size ≠ 0)
    (hr : s.g_report_size ≠ 0) (hflags : ¬ has_write_flag flags)
    (hret : 0 ≤ (P.DkAttestationReport (report_args s)).ret)
    (hdata : A.data_ok = true) (hstr : A.str_ok = true) :
    dev_attestation_report_open P A s flags
      = ⟨.returned 0,
         ⟨(P.DkAttestationReport (report_args s)).user_report_data,
          (P.DkAttestationReport (report_args s)).user_report_data_size,
          (P.DkAttestationReport (report_args s)).target_info,
          (P.DkAttestationReport (report_args s)).target_info_size,
          (P.DkAttestationReport (report_args s)).report_size⟩,
         some ⟨MAY_READ,
               ⟨(P.DkAttestationReport (report_args s)).report.take
                   (P.DkAttestationReport (report_args s)).report_size,
                (P.DkAttestationReport (report_args s)).report_size,
                (P.DkAttestationReport (report_args s)).report_size, none⟩⟩,
         [PalCall.report (report_args s)]⟩ := by
  have h := strcmp_static_eq_false hhost
  have hw := (write_flags_eq_false_iff flags).2 hflags
  have hneg : ¬ (P.DkAttestationReport (report_args s)).ret < 0 := not_lt.mpr hret
  simp [dev_attestation_report_open, h, hu, ht, hr, hw, hneg, hdata, hstr, memcpy_calloc_take]

theorem quote_open_ok (P : Pal) (A : Alloc) (s : AttState) (flags : Nat)
    (hhost : P.host_type = "Linux-SGX")
    (hu : s.g_user_report_data_size ≠ 0) (hflags : ¬ has_write_flag flags)
    (hret : 0 ≤ (P.DkAttestationQuote (quote_args s)).ret)
    (hdata : A.data_ok = true) (hstr : A.str_ok = true) :
    dev_attestation_quote_open P A s flags
      = ⟨.returned 0, s,
         some ⟨MAY_READ,
               ⟨(P.DkAttestationQuote (quote_args s)).quote.take
                   (P.DkAttestationQuote (quote_args s)).quote_size,
                (P.DkAttestationQuote (quote_args s)).quote_size,
                (P.DkAttestationQuote (quote_args s)).quote_size, none⟩⟩,
         [PalCall.quote (quote_args s)]⟩ := by
  have h := strcmp_static_eq_false hhost
  have hw := (write_flags_eq_false_iff flags).2 hflags
  have hneg : ¬ (P.DkAttestationQuote (quote_args s)).ret < 0 := not_lt.mpr hret
  simp [dev_attestation_quote_open, h, hu, hw, hneg, hdata, hstr, memcpy_calloc_take]

theorem quote_open_state (P : Pal) (A : Alloc) (s : AttState) (flags : Nat) :
    (dev_attestation_quote_open P A s flags).state = s := by
  simp only [dev_attestation_quote_open]
  split_ifs <;> rfl

theorem quote_open_calls (P : Pal) (A : Alloc) (s : AttState) (flags : Nat) :
    ∀ c ∈ (dev_attestation_quote_open P A s flags).calls, c = PalCall.quote (quote_args s) := by
  simp only [dev_attestation_quote_open]
  split_ifs <;> simp

theorem report_open_state_cases (P : Pal) (A : Alloc) (s : AttState) (flags : Nat) :
    ((dev_attestation_report_open P A s flags).calls = []
      ∧ (dev_attestation_report_open P A s flags).state = s)
    ∨ ((dev_attestation_report_open P A s flags).calls = [PalCall.report (report_args s)]
      ∧ (dev_attestation_report_open P A s flags).state
          = ⟨(P.DkAttestationReport (report_args s)).user_report_data,
             (P.DkAttestationReport (report_args s)).user_report_data_size,
             (P.DkAttestationReport (report_args s)).target_info,
             (P.DkAttestationReport (report_args s)).target_info_size,
             (P.DkAttestationReport (report_args s)).report_size⟩) := by
  simp only [dev_attestation_report_open]
  split_ifs <;> simp

theorem sizing_open_initial (P : Pal) (A : Alloc) (l : Leaf) (flags : Nat)
    (hhost : P.host_type = "Linux-SGX")
    (hl : l = .user_report_data ∨ l = .target_info ∨ l = .my_target_info)
    (hok : (l.open P A AttState.initial flags).outcome = .returned 0) :
    (l.open P A AttState.initial flags).state
        = (init_attestation_struct_sizes P AttState.initial).state
    ∧ (init_attestation_struct_sizes P AttState.initial).outcome = .returned 0 := by
  rcases hl with rfl | rfl | rfl
  · exact ⟨(user_report_data_open_init P A _ flags hhost).1,
      (user_report_data_open_init P A _ flags hhost).2.2 hok⟩
  · exact ⟨(target_info_open_init P A _ flags hhost).1,
      (target_info_open_init P A _ flags hhost).2.2 hok⟩
  · exact ⟨(my_target_info_open_init P A _ flags hhost).1,
      (my_target_info_open_init P A _ flags hhost).2 hok⟩

theorem my_target_info_open_eq (P : Pal) (A : Alloc) (s : AttState) (flags : Nat)
    (hhost : P.host_type = "Linux-SGX")
    (hinit : (init_attestation_struct_sizes P s).outcome = .returned 0)
    (hflags : ¬ has_write_flag flags) :
    dev_attestation_my_target_info_open P A s flags
      = if (P.DkAttestationReport
              (my_target_info_args (init_attestation_struct_sizes P s).state)).ret < 0 then
          ⟨.returned (-EACCES), (init_attestation_struct_sizes P s).state, none,
           (init_attestation_struct_sizes P s).calls
             ++ [.report (my_target_info_args (init_attestation_struct_sizes P s).state)]⟩
        else if ¬ ((P.DkAttestationReport
              (my_target_info_args (init_attestation_struct_sizes P s).state)).user_report_data_size
                = (init_attestation_struct_sizes P s).state.g_user_report_data_size
            ∧ (P.DkAttestationReport
              (my_target_info_args (init_attestation_struct_sizes P s).state)).target_info_size
                = (init_attestation_struct_sizes P s).state.g_target_info_size
            ∧ (P.DkAttestationReport
              (my_target_info_args (init_attestation_struct_sizes P s).state)).report_size
                = (init_attestation_struct_sizes P s).state.g_report_size) then
          ⟨.aborted, (init_attestation_struct_sizes P s).state, none,
           (init_attestation_struct_sizes P s).calls
             ++ [.report (my_target_info_args (init_attestation_struct_sizes P s).state)]⟩
        else if ¬ (A.data_ok = true ∧ A.str_ok = true) then
          ⟨.returned (-ENOMEM), (init_attestation_struct_sizes P s).state, none,
           (init_attestation_struct_sizes P s).calls
             ++ [.report (my_target_info_args (init_attestation_struct_sizes P s).state)]⟩
        else
          ⟨.returned 0, (init_attestation_struct_sizes P s).state,
           some ⟨MAY_READ,
                 ⟨(P.DkAttestationReport
                      (my_target_info_args (init_attestation_struct_sizes P s).state)).target_info.take
                    (init_attestation_struct_sizes P s).state.g_target_info_size,
                  (init_attestation_struct_sizes P s).state.g_target_info_size,
                  (init_attestation_struct_sizes P s).state.g_target_info_size, none⟩⟩,
           (init_attestation_struct_sizes P s).calls
             ++ [.report (my_target_info_args (init_attestation_struct_sizes P s).state)]⟩ := by
  have h := strcmp_static_eq_false hhost
  have hw := (write_flags_eq_false_iff flags).2 hflags
  unfold dev_attestation_my_target_info_open
  simp only [h, hinit, hw, Bool.false_eq_true, if_false, lt_self_iff_false]
  split_ifs <;> simp_all [memcpy_calloc_take]

theorem my_target_info_args_congr (s s2 : AttState)
    (hu : s2.g_user_report_data_size = s.g_user_report_data_size)
    (ht : s2.g_target_info_size = s.g_target_info_size)
    (hr : s2.g_report_size = s.g_report_size) :
    my_target_info_args s2 = my_target_info_args s := by
  simp [my_target_info_args, hu, ht, hr]

theorem my_target_info_open_sized (P : Pal) (A : Alloc) (s : AttState) (flags : Nat)
    (hhost : P.host_type = "Linux-SGX")
    (hu : s.g_user_report_data_size ≠ 0) (ht : s.g_target_info_size ≠ 0)
    (hr : s.g_report_size ≠ 0) (hflags : ¬ has_write_flag flags) :
    dev_attestation_my_target_info_open P A s flags
      = if (P.DkAttestationReport (my_target_info_args s)).ret < 0 then
          ⟨.returned (-EACCES), s, none, [.report (my_target_info_args s)]⟩
        else if ¬ ((P.DkAttestationReport (my_target_info_args s)).user_report_data_size
                = s.g_user_report_data_size
            ∧ (P.DkAttestationReport (my_target_info_args s)).target_info_size
                = s.g_target_info_size
            ∧ (P.DkAttestationReport (my_target_info_args s)).report_size
                = s.g_report_size) then
          ⟨.aborted, s, none, [.report (my_target_info_args s)]⟩
        else if ¬ (A.data_ok = true ∧ A.str_ok = true) then
          ⟨.returned (-ENOMEM), s, none, [.report (my_target_info_args s)]⟩
        else
          ⟨.returned 0, s,
           some ⟨MAY_READ,
                 ⟨(P.DkAttestationReport (my_target_info_args s)).target_info.take
                    s.g_target_info_size,
                  s.g_target_info_size, s.g_target_info_size, none⟩⟩,
           [.report (my_target_info_args s)]⟩ := by
  have hi := init_of_sized P s hu ht hr
  have hinit : (init_attestation_struct_sizes P s).outcome = .returned 0 := by rw [hi]
  rw [my_target_info_open_eq P A s flags hhost hinit hflags, hi]
  rfl

theorem my_target_info_open_hdl_of_ok (P : Pal) (A : Alloc) (s : AttState) (flags : Nat)
    (hhost : P.host_type = "Linux-SGX")
    (hu : s.g_user_report_data_size ≠ 0) (ht : s.g_target_info_size ≠ 0)
    (hr : s.g_report_size ≠ 0) (hflags : ¬ has_write_flag flags)
    (hok : (dev_attestation_my_target_info_open P A s flags).outcome = .returned 0) :
    (dev_attestation_my_target_info_open P A s flags).hdl
      = some ⟨MAY_READ,
              ⟨(P.DkAttestationReport (my_target_info_args s)).target_info.take
                  s.g_target_info_size,
               s.g_target_info_size, s.g_target_info_size, none⟩⟩ := by
  rw [my_target_info_open_sized P A s flags hhost hu ht hr hflags] at hok ⊢
  revert hok
  split_ifs <;> simp [EACCES, ENOMEM]

theorem quote_open_of_ok (P : Pal) (A : Alloc) (s : AttState) (flags : Nat)
    (hok : (dev_attestation_quote_open P A s flags).outcome = .returned 0) :
    dev_attestation_quote_open P A s flags
      = ⟨.returned 0, s,
         some ⟨MAY_READ,
               ⟨(P.DkAttestationQuote (quote_args s)).quote.take
                   (P.DkAttestationQuote (quote_args s)).quote_size,
                (P.DkAttestationQuote (quote_args s)).quote_size,
                (P.DkAttestationQuote (quote_args s)).quote_size, none⟩⟩,
         [PalCall.quote (quote_args s)]⟩ := by
  simp only [dev_attestation_quote_open] at hok ⊢
  split_ifs at hok ⊢ <;> simp_all [memcpy_calloc_take, EACCES, ENOMEM]

theorem my_target_info_open_state_of_sized (P : Pal) (A : Alloc) (s : AttState) (flags : Nat)
    (hu : s.g_user_report_data_size ≠ 0) (ht : s.g_target_info_size ≠ 0)
    (hr : s.g_report_size ≠ 0) :
    (dev_attestation_my_target_info_open P A s flags).state = s := by
  by_cases hhost : P.host_type = "Linux-SGX"
  · rw [(my_target_info_open_init P A s flags hhost).1, init_of_sized P s hu ht hr]
  · have h := strcmp_static_eq_true hhost
    simp [dev_attestation_my_target_info_open, h]

theorem modify_sizes (s : AttState) (hdl : Handle) :
    (user_report_data_modify s hdl).state.sizes = s.sizes
    ∧ (target_info_modify s hdl).state.sizes = s.sizes := by
  unfold user_report_data_modify target_info_modify
  constructor <;> split_ifs <;> rfl

theorem memcpy_length (dst src : List Byte) (n : Nat) (h : memcpy_in_bounds dst src n) :
    (memcpy dst src n).length = dst.length := by
  obtain ⟨hd, hs⟩ := h
  simp only [memcpy, List.length_append, List.length_take, List.length_drop,
    Nat.min_eq_left hs]
  omega

theorem staged_after_length (g0 : List Byte) (n : Nat) (last : Option (List Byte))
    (hg : n ≤ g0.length) (h : ∀ B, last = some B → n ≤ B.length) :
    (staged_after g0 n last).length = g0.length := by
  cases last with
  | none => rfl
  | some B => exact memcpy_length g0 B n ⟨hg, h B rfl⟩

theorem init_probe_ok_bounds (P : Pal) (s : AttState)
    (hprobe : (init_attestation_struct_sizes P s).calls ≠ [])
    (hok : (init_attestation_struct_sizes P s).outcome = .returned 0) :
    ((init_attestation_struct_sizes P s).state.g_user_report_data_size ≠ 0
      ∧ (init_attestation_struct_sizes P s).state.g_user_report_data_size
          ≤ USER_REPORT_DATA_MAX_SIZE)
    ∧ ((init_attestation_struct_sizes P s).state.g_target_info_size ≠ 0
      ∧ (init_attestation_struct_sizes P s).state.g_target_info_size ≤ TARGET_INFO_MAX_SIZE)
    ∧ (init_attestation_struct_sizes P s).state.g_report_size ≠ 0 := by
  simp only [init_attestation_struct_sizes] at hprobe hok ⊢
  split_ifs at hprobe hok ⊢ with h1 h2 h3 h4 h5
  all_goals first
    | exact ⟨h3, h4, h5⟩
    | exact absurd rfl hprobe
    | simp [EACCES] at hok

theorem init_probe_failed (P : Pal) (s : AttState)
    (h0 : ¬ (s.g_user_report_data_size ≠ 0 ∧ s.g_target_info_size ≠ 0 ∧ s.g_report_size ≠ 0))
    (hret : (P.DkAttestationReport (probe_args s)).ret < 0) :
    (init_attestation_struct_sizes P s).outcome = .returned (-EACCES) := by
  simp only [init_attestation_struct_sizes, if_neg h0, if_pos hret]

theorem open_of_init_failed (P : Pal) (A : Alloc) (s : AttState) (flags : Nat)
    (hhost : P.host_type = "Linux-SGX")
    (hinit : (init_attestation_struct_sizes P s).outcome = .returned (-EACCES)) :
    ((dev_attestation_user_report_data_open P A s flags).outcome = .returned (-EACCES)
      ∧ (dev_attestation_user_report_data_open P A s flags).hdl = none)
    ∧ ((dev_attestation_target_info_open P A s flags).outcome = .returned (-EACCES)
      ∧ (dev_attestation_target_info_open P A s flags).hdl = none)
    ∧ ((dev_attestation_my_target_info_open P A s flags).outcome = .returned (-EACCES)
      ∧ (dev_attestation_my_target_info_open P A s flags).hdl = none) := by
  have h := strcmp_static_eq_false hhost
  simp [dev_attestation_user_report_data_open, dev_attestation_target_info_open,
    dev_attestation_my_target_info_open, h, hinit, EACCES]

theorem report_open_call_failed (P : Pal) (A : Alloc) (s : AttState) (flags : Nat)
    (hhost : P.host_type = "Linux-SGX")
    (hret : (P.DkAttestationReport (report_args s)).ret < 0) :
    (dev_attestation_report_open P A s flags).outcome = .returned (-EACCES)
    ∧ (dev_attestation_report_open P A s flags).hdl = none := by
  have h := strcmp_static_eq_false hhost
  simp only [dev_attestation_report_open, h, Bool.false_eq_true, if_false, if_pos hret]
  split_ifs <;> exact ⟨rfl, rfl⟩

theorem quote_open_call_failed (P : Pal) (A : Alloc) (s : AttState) (flags : Nat)
    (hhost : P.host_type = "Linux-SGX") (hdata : A.data_ok = true)
    (hret : (P.DkAttestationQuote (quote_args s)).ret < 0) :
    (dev_attestation_quote_open P A s flags).outcome = .returned (-EACCES)
    ∧ (dev_attestation_quote_open P A s flags).hdl = none := by
  have h := strcmp_static_eq_false hhost
  simp only [dev_attestation_quote_open, h, hdata, Bool.false_eq_true, if_false, if_pos hret,
    not_true_eq_false]
  split_ifs <;> exact ⟨rfl, rfl⟩

theorem getElem?_append_of_some {α : Type} (xs ys : List α) (i : Nat) (a : α)
    (h : xs[i]? = some a) : (xs ++ ys)[i]? = some a := by
  obtain ⟨hi, _⟩ := List.getElem?_eq_some.mp h
  rw [List.getElem?_append_left hi]
  exact h

theorem init_sizes_cases (P : Pal) (s : AttState) :
    (init_attestation_struct_sizes P s).state.sizes = s.sizes
    ∨ (init_attestation_struct_sizes P s).state.sizes
        = ((P.DkAttestationReport (probe_args s)).user_report_data_size,
           (P.DkAttestationReport (probe_args s)).target_info_size,
           (P.DkAttestationReport (probe_args s)).report_size) := by
  by_cases h0 : s.g_user_report_data_size ≠ 0 ∧ s.g_target_info_size ≠ 0
      ∧ s.g_report_size ≠ 0
  · rw [init_of_sized P s h0.1 h0.2.1 h0.2.2]
    exact Or.inl rfl
  · rw [(init_of_unsized P s h0).2]
    exact Or.inr rfl

theorem open_state_sizes_cases (P : Pal) (l : Leaf) (A : Alloc) (s : AttState) (flags : Nat) :
    (l.open P A s flags).state.sizes = s.sizes
    ∨ (∃ a : ReportArgs,
        (a.user_report_data_size, a.target_info_size, a.report_size) = s.sizes
        ∧ (l.open P A s flags).state.sizes
            = ((P.DkAttestationReport a).user_report_data_size,
               (P.DkAttestationReport a).target_info_size,
               (P.DkAttestationReport a).report_size)) := by
  have hprobe : (init_attestation_struct_sizes P s).state.sizes = s.sizes
      ∨ (∃ a : ReportArgs,
        (a.user_report_data_size, a.target_info_size, a.report_size) = s.sizes
        ∧ (init_attestation_struct_sizes P s).state.sizes
            = ((P.DkAttestationReport a).user_report_data_size,
               (P.DkAttestationReport a).target_info_size,
               (P.DkAttestationReport a).report_size)) := by
    rcases init_sizes_cases P s with h | h
    · exact Or.inl h
    · exact Or.inr ⟨probe_args s, rfl, h⟩
  by_cases hhost : P.host_type = "Linux-SGX"
  · cases l with
    | user_report_data =>
      simp only [Leaf.open]
      rw [(user_report_data_open_init P A s flags hhost).1]
      exact hprobe
    | target_info =>
      simp only [Leaf.open]
      rw [(target_info_open_init P A s flags hhost).1]
      exact hprobe
    | my_target_info =>
      simp only [Leaf.open]
      rw [(my_target_info_open_init P A s flags hhost).1]
      exact hprobe
    | report =>
      simp only [Leaf.open]
      rcases report_open_state_cases P A s flags with h | h
      · rw [h.2]
        exact Or.inl rfl
      · rw [h.2]
        exact Or.inr ⟨report_args s, rfl, rfl⟩
    | quote =>
      simp only [Leaf.open]
      rw [quote_open_state]
      exact Or.inl rfl
  · have h := strcmp_static_eq_true hhost
    refine Or.inl ?_
    cases l <;>
      simp [Leaf.open, dev_attestation_user_report_data_open, dev_attestation_target_info_open,
        dev_attestation_my_target_info_open, dev_attestation_report_open,
        dev_attestation_quote_open, h]

theorem step_sizes_cases (P : Pal) (U T R : Nat) (hfix : P.sizes_fixed U T R) (op : AttOp)
    (s : AttState) : (op.step P s).sizes = s.sizes ∨ (op.step P s).sizes = (U, T, R) := by
  cases op with
  | open_leaf l A flags =>
    simp only [AttOp.step]
    rcases open_state_sizes_cases P l A s flags with h | ⟨a, ha, h⟩
    · exact Or.inl h
    · rcases hfix a with ⟨h1, h2, h3⟩ | ⟨h1, h2, h3⟩
      · right
        rw [h, h1, h2, h3]
      · left
        rw [h, h1, h2, h3]
        exact ha
  | close_user_report_data hdl => exact Or.inl (modify_sizes s hdl).1
  | close_target_info hdl => exact Or.inl (modify_sizes s hdl).2

theorem step_keeps_fixed (P : Pal) (U T R : Nat) (hfix : P.sizes_fixed U T R) (op : AttOp)
    (s : AttState) (hs : s.sizes = (U, T, R)) : (op.step P s).sizes = (U, T, R) := by
  rcases step_sizes_cases P U T R hfix op s with h | h
  · rw [h, hs]
  · exact h

theorem run_ops_keeps_fixed (P : Pal) (U T R : Nat) (hfix : P.sizes_fixed U T R) :
    ∀ (ops : List AttOp) (s : AttState), s.sizes = (U, T, R) →
      (ops.foldl (AttOp.step P) s).sizes = (U, T, R) := by
  intro ops
  induction ops with
  | nil => intro s hs; exact hs
  | cons op ops ih =>
    intro s hs
    exact ih _ (step_keeps_fixed P U T R hfix op s hs)

theorem run_ops_sizes_inv (P : Pal) (U T R : Nat) (hfix : P.sizes_fixed U T R) :
    ∀ (ops : List AttOp) (s : AttState), (s.sizes = (0, 0, 0) ∨ s.sizes = (U, T, R)) →
      ((run_ops P s ops).sizes = (0, 0, 0) ∨ (run_ops P s ops).sizes = (U, T, R)) := by
  intro ops
  induction ops with
  | nil => intro s hs; exact hs
  | cons op ops ih =>
    intro s hs
    refine ih (op.step P s) ?_
    rcases step_sizes_cases P U T R hfix op s with h | h
    · rw [h]
      exact hs
    · exact Or.inr h

theorem set_length_append_singleton {α : Type} (xs : List α) (a b : α) :
    (xs ++ [a]).set xs.length b = xs ++ [b] := by
  induction xs with
  | nil => rfl
  | cons x xs ih => simp [List.set, ih]

theorem extended_by_refl (m : Memory) : m.extended_by m := ⟨[], [], by simp, by simp⟩

theorem extended_by_trans (m m1 m2 : Memory) (h1 : m.extended_by m1) (h2 : m1.extended_by m2) :
    m.extended_by m2 := by
  obtain ⟨rs, bs, hr, hb⟩ := h1
  obtain ⟨rs2, bs2, hr2, hb2⟩ := h2
  exact ⟨rs ++ rs2, bs ++ bs2, by rw [hr2, hr, List.append_assoc],
    by rw [hb2, hb, List.append_assoc]⟩

theorem owns_of_extended (m m1 : Memory) (h : MemHandle) (hown : m.owns h)
    (hext : m.extended_by m1) :
    m1.owns h ∧ m1.view h = m.view h ∧ m1.str_of h = m.str_of h := by
  obtain ⟨r, b, hr, hs, hb, hp⟩ := hown
  obtain ⟨rs, bs, hrs, hbs⟩ := hext
  have hrec : m1.record h.data = some r := by
    unfold Memory.record at hr ⊢
    cases hq : m.records[h.data]? with
    | none => rw [hq] at hr; simp at hr
    | some o =>
      rw [hrs, getElem?_append_of_some _ _ _ _ hq]
      rw [hq] at hr
      exact hr
  have hload : m1.load (.heap b) = m.load (.heap b) := by
    simp only [Memory.load]
    rw [hbs, List.getElem?_append_left hb]
  refine ⟨⟨r, b, hrec, hs, ?_, hp⟩, ?_, ?_⟩
  · rw [hbs, List.length_append]
    omega
  · unfold Memory.view
    rw [hrec, hr]
    simp only [Option.map_some', hs, hload]
  · unfold Memory.str_of
    rw [hrec, hr]

theorem modify_mem_extended (m : Memory) (hdl : MemHandle) :
    m.extended_by (user_report_data_modify_mem m hdl).mem
    ∧ m.extended_by (target_info_modify_mem m hdl).mem := by
  unfold user_report_data_modify_mem target_info_modify_mem
  constructor <;> split_ifs <;> exact extended_by_refl m

theorem modify_mem_refines (m : Memory) (hdl : MemHandle) (hv : Handle)
    (hview : m.view hdl = some hv) :
    ((user_report_data_modify_mem m hdl).outcome = (user_report_data_modify m.globals hv).outcome
      ∧ (user_report_data_modify_mem m hdl).mem.globals
          = (user_report_data_modify m.globals hv).state)
    ∧ ((target_info_modify_mem m hdl).outcome = (target_info_modify m.globals hv).outcome
      ∧ (target_info_modify_mem m hdl).mem.globals
          = (target_info_modify m.globals hv).state) := by
  have hsrc : m.load (m.str_of hdl) = hv.data.str := by
    unfold Memory.view at hview
    unfold Memory.str_of
    cases hr : m.record hdl.data with
    | none => rw [hr] at hview; simp at hview
    | some r =>
      rw [hr] at hview
      simp only [Option.map_some', Option.some.injEq] at hview
      rw [← hview]
  unfold user_report_data_modify_mem target_info_modify_mem user_report_data_modify
    target_info_modify
  rw [hsrc]
  refine ⟨?_, ?_⟩ <;> split_ifs <;> exact ⟨rfl, rfl⟩

theorem with_globals_eq (m : Memory) (s : AttState) :
    (m.with_globals s).globals = s ∧ (m.with_globals s).records = m.records
    ∧ (m.with_globals s).blocks = m.blocks := ⟨rfl, rfl, rfl⟩

theorem calloc_record_globals (m : Memory) : m.calloc_record.globals = m.globals := rfl

theorem alloc_free_eq (m : Memory) :
    m.calloc_record.free_record m.next_record = ⟨m.globals, m.records ++ [none], m.blocks⟩ := by
  simp [Memory.free_record, Memory.calloc_record, Memory.next_record,
    set_length_append_singleton]

theorem alloc_copy_eq (m : Memory) (k n : Nat) (src : List Byte) (r : StrRecord) :
    ((m.calloc_record.calloc_block k).memcpy_to m.calloc_record.next_block src n).set_record
        m.next_record r
      = ⟨m.globals, m.records ++ [some r], m.blocks ++ [memcpy (calloc_bytes k) src n]⟩ := by
  simp [Memory.set_record, Memory.memcpy_to, Memory.store, Memory.load, Memory.calloc_block,
    Memory.calloc_record, Memory.next_record, Memory.next_block,
    set_length_append_singleton]

theorem fresh_view (g : AttState) (rs : List (Option StrRecord)) (bs : List (List Byte))
    (r : StrRecord) (bytes : List Byte) (acc : Nat) (p : BufPtr)
    (hr : r.str = .heap bs.length) :
    (⟨g, rs ++ [some r], bs ++ [bytes]⟩ : Memory).view ⟨acc, rs.length, p⟩
        = some ⟨acc, ⟨bytes, r.len, r.buf_size, r.modify⟩⟩
    ∧ (⟨g, rs ++ [some r], bs ++ [bytes]⟩ : Memory).str_of ⟨acc, rs.length, p⟩
        = .heap bs.length := by
  simp [Memory.view, Memory.str_of, Memory.record, Memory.load, hr]

theorem facts_of_refines (m : Memory) (R : MemOpenResult) (V : OpenResult)
    (h : R.refines m V) :
    R.outcome = V.outcome ∧ R.mem.globals = V.state ∧ R.calls = V.calls
    ∧ m.extended_by R.mem
    ∧ (∀ h, R.hdl = some h →
        h.data = m.records.length ∧ h.ptr = .heap m.blocks.length
        ∧ R.mem.str_of h = .heap m.blocks.length
        ∧ m.blocks.length < R.mem.blocks.length
        ∧ R.mem.view h = V.hdl
        ∧ R.mem.owns h) := by
  rcases h with ⟨_, h | h⟩ | ⟨hv, hV, h⟩
  · subst h
    exact ⟨rfl, rfl, rfl, ⟨[], [], by simp, by simp⟩, by simp⟩
  · subst h
    exact ⟨rfl, rfl, rfl, ⟨[none], [], rfl, by simp⟩, by simp⟩
  · subst h
    refine ⟨rfl, rfl, rfl, ⟨_, _, rfl, rfl⟩, ?_⟩
    intro h hh
    simp only [Option.some.injEq] at hh
    subst hh
    refine ⟨rfl, rfl, (fresh_view _ _ _ _ _ _ _ rfl).2, by simp, ?_, ?_⟩
    · rw [hV]
      exact (fresh_view _ _ _ _ _ _ _ rfl).1
    · exact ⟨⟨.heap m.blocks.length, hv.data.len, hv.data.buf_size, hv.data.modify⟩,
        m.blocks.length, by simp [Memory.record], rfl, by simp, rfl⟩

theorem user_report_data_open_mem_refines (P : Pal) (A : Alloc) (m : Memory) (flags : Nat) :
    (dev_attestation_user_report_data_open_mem P A m flags).refines m
      (dev_attestation_user_report_data_open P A m.globals flags) := by
  simp only [dev_attestation_user_report_data_open_mem,
    dev_attestation_user_report_data_open, alloc_free_eq, alloc_copy_eq,
    calloc_record_globals, (with_globals_eq _ _).1, (with_globals_eq _ _).2.1,
    (with_globals_eq _ _).2.2]
  by_cases hhost : strcmp_static P.host_type "Linux-SGX" = true
  · rw [if_pos hhost, if_pos hhost]
    exact Or.inl ⟨rfl, Or.inl rfl⟩
  · rw [if_neg hhost, if_neg hhost]
    cases hi : (init_attestation_struct_sizes P m.globals).outcome with
    | aborted => exact Or.inl ⟨rfl, Or.inl rfl⟩
    | returned c =>
      dsimp only
      split_ifs
      all_goals
        first
        | exact Or.inl ⟨rfl, Or.inl rfl⟩
        | exact Or.inl ⟨rfl, Or.inr rfl⟩
        | exact Or.inr ⟨_, rfl, rfl⟩

theorem target_info_open_mem_refines (P : Pal) (A : Alloc) (m : Memory) (flags : Nat) :
    (dev_attestation_target_info_open_mem P A m flags).refines m
      (dev_attestation_target_info_open P A m.globals flags) := by
  simp only [dev_attestation_target_info_open_mem,
    dev_attestation_target_info_open, alloc_free_eq, alloc_copy_eq,
    calloc_record_globals, (with_globals_eq _ _).1, (with_globals_eq _ _).2.1,
    (with_globals_eq _ _).2.2]
  by_cases hhost : strcmp_static P.host_type "Linux-SGX" = true
  · rw [if_pos hhost, if_pos hhost]
    exact Or.inl ⟨rfl, Or.inl rfl⟩
  · rw [if_neg hhost, if_neg hhost]
    cases hi : (init_attestation_struct_sizes P m.globals).outcome with
    | aborted => exact Or.inl ⟨rfl, Or.inl rfl⟩
    | returned c =>
      dsimp only
      split_ifs
      all_goals
        first
        | exact Or.inl ⟨rfl, Or.inl rfl⟩
        | exact Or.inl ⟨rfl, Or.inr rfl⟩
        | exact Or.inr ⟨_, rfl, rfl⟩

set_option maxHeartbeats 2000000 in
theorem my_target_info_open_mem_refines (P : Pal) (A : Alloc) (m : Memory) (flags : Nat) :
    (dev_attestation_my_target_info_open_mem P A m flags).refines m
      (dev_attestation_my_target_info_open P A m.globals flags) := by
  simp only [dev_attestation_my_target_info_open_mem,
    dev_attestation_my_target_info_open, alloc_free_eq, alloc_copy_eq,
    calloc_record_globals, (with_globals_eq _ _).1, (with_globals_eq _ _).2.1,
    (with_globals_eq _ _).2.2]
  by_cases hhost : strcmp_static P.host_type "Linux-SGX" = true
  · rw [if_pos hhost, if_pos hhost]
    exact Or.inl ⟨rfl, Or.inl rfl⟩
  · rw [if_neg hhost, if_neg hhost]
    cases hi : (init_attestation_struct_sizes P m.globals).outcome with
    | aborted => exact Or.inl ⟨rfl, Or.inl rfl⟩
    | returned c =>
      dsimp only
      split_ifs
      all_goals
        first
        | exact Or.inl ⟨rfl, Or.inl rfl⟩
        | exact Or.inl ⟨rfl, Or.inr rfl⟩
        | exact Or.inr ⟨_, rfl, rfl⟩

theorem report_open_mem_refines (P : Pal) (A : Alloc) (m : Memory) (flags : Nat) :
    (dev_attestation_report_open_mem P A m flags).refines m
      (dev_attestation_report_open P A m.globals flags) := by
  simp only [dev_attestation_report_open_mem,
    dev_attestation_report_open, alloc_free_eq, alloc_copy_eq,
    calloc_record_globals, (with_globals_eq _ _).1, (with_globals_eq _ _).2.1,
    (with_globals_eq _ _).2.2]
  split_ifs
  all_goals
    first
    | exact Or.inl ⟨rfl, Or.inl rfl⟩
    | exact Or.inl ⟨rfl, Or.inr rfl⟩
    | exact Or.inr ⟨_, rfl, rfl⟩

theorem quote_open_mem_refines (P : Pal) (A : Alloc) (m : Memory) (flags : Nat) :
    (dev_attestation_quote_open_mem P A m flags).refines m
      (dev_attestation_quote_open P A m.globals flags) := by
  simp only [dev_attestation_quote_open_mem,
    dev_attestation_quote_open, alloc_free_eq, alloc_copy_eq,
    calloc_record_globals, (with_globals_eq _ _).1, (with_globals_eq _ _).2.1,
    (with_globals_eq _ _).2.2]
  split_ifs
  all_goals
    first
    | exact Or.inl ⟨rfl, Or.inl rfl⟩
    | exact Or.inl ⟨rfl, Or.inr rfl⟩
    | exact Or.inr ⟨_, rfl, rfl⟩

theorem leaf_open_mem_refines (P : Pal) (l : Leaf) (A : Alloc) (m : Memory) (flags : Nat) :
    (l.open_mem P A m flags).refines m (l.open P A m.globals flags) := by
  cases l with
  | user_report_data => exact user_report_data_open_mem_refines P A m flags
  | target_info => exact target_info_open_mem_refines P A m flags
  | my_target_info => exact my_target_info_open_mem_refines P A m flags
  | report => exact report_open_mem_refines P A m flags
  | quote => exact quote_open_mem_refines P A m flags

theorem mem_step_extended (P : Pal) (m : Memory) (op : MemOp) :
    m.extended_by (op.step P m) := by
  cases op with
  | open_leaf l A flags =>
    exact (facts_of_refines m _ _ (leaf_open_mem_refines P l A m flags)).2.2.2.1
  | close_user_report_data hdl => exact (modify_mem_extended m hdl).1
  | close_target_info hdl => exact (modify_mem_extended m hdl).2

theorem run_mem_ops_extended (P : Pal) :
    ∀ (ops : List MemOp) (m : Memory), m.extended_by (run_mem_ops P m ops) := by
  intro ops
  induction ops with
  | nil => intro m; exact extended_by_refl m
  | cons op ops ih =>
    intro m
    exact extended_by_trans m _ _ (mem_step_extended P m op) (ih (op.step P m))


/-- A handle whose record aliases the global array is not stale: a commit to
`user_report_data` changes the bytes it reads. -/
theorem alias_handle_follows_commit :
    (user_report_data_modify_mem aliasMemory secondHandle).mem.view firstHandle
      ≠ aliasMemory.view firstHandle := by
  decide

/-! ## Claims -/

/-- Claim C1: when the host type is not "Linux-SGX", each of the five open
callbacks returns -EACCES, makes no platform call, stores no handle, and
leaves the globals (the three cached sizes and both staging buffers) as they
were. -/
theorem C1_unsupported_host_open (l : Leaf) (P : Pal) (A : Alloc) (s : AttState) (flags : Nat)
    (hhost : P.host_type ≠ "Linux-SGX") :
    l.open P A s flags = ⟨.returned (-EACCES), s, none, []⟩ := by
  have h := strcmp_static_eq_true hhost
  cases l <;>
    simp [Leaf.open, dev_attestation_user_report_data_open, dev_attestation_target_info_open,
      dev_attestation_my_target_info_open, dev_attestation_report_open,
      dev_attestation_quote_open, h]

/-- Witness of C1: the quote open on a host that identifies as "Linux". -/
theorem C1_unsupported_host_open_witness :
    Leaf.quote.open otherHostPal allocOk sizedState 0
      = ⟨.returned (-EACCES), sizedState, none, []⟩ :=
  C1_unsupported_host_open Leaf.quote otherHostPal allocOk sizedState 0 (by decide)

/-- Claim C2: round trip of the writable files.  In a state whose three sizes
are initialised, on the supported platform with both allocations succeeding:
after the close-commit `user_report_data_modify` of a handle whose buffer has
`g_user_report_data_size` bytes, opening `user_report_data` returns 0 and
yields a handle whose buffer is exactly that byte sequence; likewise for
`target_info_modify`, `target_info` and `g_target_info_size`. -/
theorem C2_writable_round_trip (P : Pal) (A : Alloc) (s : AttState) (hU hT : Handle)
    (flags : Nat) (hhost : P.host_type = "Linux-SGX")
    (hdata : A.data_ok = true) (hstr : A.str_ok = true)
    (hu : s.g_user_report_data_size ≠ 0) (ht : s.g_target_info_size ≠ 0)
    (hr : s.g_report_size ≠ 0)
    (hlenU : hU.data.str.length = s.g_user_report_data_size)
    (hlenT : hT.data.str.length = s.g_target_info_size) :
    ((user_report_data_modify s hU).outcome = .returned 0
      ∧ (dev_attestation_user_report_data_open P A
            (user_report_data_modify s hU).state flags).outcome = .returned 0
      ∧ (dev_attestation_user_report_data_open P A
            (user_report_data_modify s hU).state flags).hdl.map (fun h => h.data.str)
          = some hU.data.str)
    ∧ ((target_info_modify s hT).outcome = .returned 0
      ∧ (dev_attestation_target_info_open P A
            (target_info_modify s hT).state flags).outcome = .returned 0
      ∧ (dev_attestation_target_info_open P A
            (target_info_modify s hT).state flags).hdl.map (fun h => h.data.str)
          = some hT.data.str) := by
  have h := strcmp_static_eq_false hhost
  have hmU : user_report_data_modify s hU = ⟨.returned 0,
      { s with g_user_report_data :=
                 memcpy s.g_user_report_data hU.data.str s.g_user_report_data_size }, []⟩ := by
    simp [user_report_data_modify, hu]
  have hmT : target_info_modify s hT = ⟨.returned 0,
      { s with g_target_info :=
                 memcpy s.g_target_info hT.data.str s.g_target_info_size }, []⟩ := by
    simp [target_info_modify, ht]
  refine ⟨⟨by rw [hmU], ?_, ?_⟩, ⟨by rw [hmT], ?_, ?_⟩⟩
  · rw [hmU]
    simp [dev_attestation_user_report_data_open, h, init_of_sized, hu, ht, hr, hdata, hstr]
  · rw [hmU]
    simp [dev_attestation_user_report_data_open, h, init_of_sized, hu, ht, hr, hdata, hstr,
      memcpy_calloc_take]
    rw [memcpy_take_of_le _ _ _ (le_of_eq hlenU.symm), ← hlenU, List.take_length]
  · rw [hmT]
    simp [dev_attestation_target_info_open, h, init_of_sized, hu, ht, hr, hdata, hstr]
  · rw [hmT]
    simp [dev_attestation_target_info_open, h, init_of_sized, hu, ht, hr, hdata, hstr,
      memcpy_calloc_take]
    rw [memcpy_take_of_le _ _ _ (le_of_eq hlenT.symm), ← hlenT, List.take_length]

/-- Witness of C2: on the example platform, committing the bytes 0x01 .. 0x40
and reopening `user_report_data` gives those bytes back. -/
theorem C2_writable_round_trip_witness :
    (dev_attestation_user_report_data_open examplePal allocOk
        (user_report_data_modify sizedState
          (written_handle .user_report_data_modify exampleUserData)).state 0).hdl.map
        (fun h => h.data.str)
      = some exampleUserData :=
  (C2_writable_round_trip examplePal allocOk sizedState
    (written_handle .user_report_data_modify exampleUserData)
    (written_handle .target_info_modify exampleTargetInfo) 0
    rfl rfl rfl (by decide) (by decide) (by decide)
    (by simp [written_handle, exampleUserData, sizedState])
    (List.length_replicate 512 170)).1.2.2

/-- Claim C3: in a state whose three sizes are initialised, on the supported
platform, with neither O_WRONLY nor O_RDWR in the flags, when
DkAttestationReport succeeds and both allocations succeed,
`dev_attestation_report_open` makes exactly one platform call, whose inputs
are the staged user_report_data and the staged target_info (with the cached
sizes and a report buffer of `g_report_size` bytes); it returns 0 and stores a
read-only handle (acc_mode = MAY_READ, no close-commit hook) whose buffer is
the first `report_size` bytes the platform wrote into the report buffer, with
buf_size = len = the cached `g_report_size`; when the platform wrote exactly
`report_size` bytes the buffer is the whole report. -/
theorem C3_report_open_success (P : Pal) (A : Alloc) (s : AttState) (flags : Nat)
    (hhost : P.host_type = "Linux-SGX")
    (hu : s.g_user_report_data_size ≠ 0) (ht : s.g_target_info_size ≠ 0)
    (hr : s.g_report_size ≠ 0) (hflags : ¬ has_write_flag flags)
    (hret : 0 ≤ (P.DkAttestationReport (report_args s)).ret)
    (hdata : A.data_ok = true) (hstr : A.str_ok = true) :
    (dev_attestation_report_open P A s flags).calls
        = [PalCall.report ⟨some s.g_user_report_data, s.g_user_report_data_size,
                           some s.g_target_info, s.g_target_info_size,
                           some s.g_report_size, s.g_report_size⟩]
    ∧ (dev_attestation_report_open P A s flags).outcome = .returned 0
    ∧ (dev_attestation_report_open P A s flags).state.g_report_size
        = (P.DkAttestationReport (report_args s)).report_size
    ∧ (dev_attestation_report_open P A s flags).hdl
        = some ⟨MAY_READ,
                ⟨(P.DkAttestationReport (report_args s)).report.take
                    (P.DkAttestationReport (report_args s)).report_size,
                 (dev_attestation_report_open P A s flags).state.g_report_size,
                 (dev_attestation_report_open P A s flags).state.g_report_size,
                 none⟩⟩
    ∧ ((P.DkAttestationReport (report_args s)).report.length
          = (P.DkAttestationReport (report_args s)).report_size →
        (dev_attestation_report_open P A s flags).hdl.map (fun h => h.data.str)
          = some (P.DkAttestationReport (report_args s)).report) := by
  have h := strcmp_static_eq_false hhost
  have hw := (write_flags_eq_false_iff flags).2 hflags
  have hneg : ¬ (P.DkAttestationReport (report_args s)).ret < 0 := not_lt.mpr hret
  have hopen := report_open_ok P A s flags hhost hu ht hr hflags hret hdata hstr
  rw [hopen]
  refine ⟨rfl, rfl, rfl, rfl, ?_⟩
  intro hlen
  simp only [Option.map_some']
  rw [← hlen, List.take_length]

/-- Witness of C3: the report open on the example platform, read-only, in the
state right after the sizes probe. -/
theorem C3_report_open_success_witness :
    (dev_attestation_report_open examplePal allocOk sizedState 0).outcome = .returned 0 :=
  (C3_report_open_success examplePal allocOk sizedState 0 rfl (by decide) (by decide)
    (by decide) (by decide) (by decide) rfl rfl).2.1

/-- Claim C4: last commit wins.  Start in any state `s0` whose three sizes are
initialised and run any finite sequence of opens of the writable files and
close-commits of `user_report_data` / `target_info` handles (each closed handle
holding at least the committed number of bytes).  A following read-only open
of `report` on the supported platform makes one platform call whose
user_report_data argument is the staging buffer holding the bytes of the most
recent `user_report_data` commit (the buffer of `s0` if there was none, so all
zeros when `s0` has the zeroed buffer of process start), and whose target_info
argument is the same for `target_info`.  A commit on one writable file leaves
the staged value of the other unchanged. -/
theorem C4_last_commit_wins (P : Pal) (A : Alloc) (s0 : AttState) (ops : List WritableOp)
    (flags : Nat) (hhost : P.host_type = "Linux-SGX")
    (hu : s0.g_user_report_data_size ≠ 0) (ht : s0.g_target_info_size ≠ 0)
    (hr : s0.g_report_size ≠ 0) (hfit : ∀ op ∈ ops, op.fits s0)
    (hflags : ¬ has_write_flag flags) :
    (dev_attestation_report_open P A (run_writable_ops P s0 ops) flags).calls
        = [PalCall.report
            ⟨some (run_writable_ops P s0 ops).g_user_report_data, s0.g_user_report_data_size,
             some (run_writable_ops P s0 ops).g_target_info, s0.g_target_info_size,
             some s0.g_report_size, s0.g_report_size⟩]
    ∧ (∀ B, last_user_report_data_commit ops = some B →
        (run_writable_ops P s0 ops).g_user_report_data.take s0.g_user_report_data_size
          = B.take s0.g_user_report_data_size)
    ∧ (last_user_report_data_commit ops = none →
        (run_writable_ops P s0 ops).g_user_report_data = s0.g_user_report_data
        ∧ (s0.g_user_report_data = List.replicate USER_REPORT_DATA_MAX_SIZE 0 →
            (run_writable_ops P s0 ops).g_user_report_data
              = List.replicate USER_REPORT_DATA_MAX_SIZE 0))
    ∧ (∀ B, last_target_info_commit ops = some B →
        (run_writable_ops P s0 ops).g_target_info.take s0.g_target_info_size
          = B.take s0.g_target_info_size)
    ∧ (last_target_info_commit ops = none →
        (run_writable_ops P s0 ops).g_target_info = s0.g_target_info
        ∧ (s0.g_target_info = List.replicate TARGET_INFO_MAX_SIZE 0 →
            (run_writable_ops P s0 ops).g_target_info
              = List.replicate TARGET_INFO_MAX_SIZE 0))
    ∧ (∀ (s : AttState) (hdl : Handle),
        (user_report_data_modify s hdl).state.g_target_info = s.g_target_info)
    ∧ (∀ (s : AttState) (hdl : Handle),
        (target_info_modify s hdl).state.g_user_report_data = s.g_user_report_data) := by
  have hrun := run_writable_ops_eq P s0 ops hu ht hr hfit
  refine ⟨?_, ?_, ?_, ?_, ?_, ?_, ?_⟩
  · rw [report_open_calls_of_sized P A _ flags hhost (by rw [hrun]; exact hu)
      (by rw [hrun]; exact ht) (by rw [hrun]; exact hr) hflags, hrun]
    rfl
  · intro B hB
    have hlen := last_user_report_data_fits s0 ops none hfit (fun _ h => by cases h) B hB
    rw [hrun]
    simp only [hB, staged_after]
    exact memcpy_take_of_le _ _ _ hlen
  · intro hnone
    rw [hrun]
    simp only [hnone, staged_after]
    exact ⟨trivial, fun h0 => h0⟩
  · intro B hB
    have hlen := last_target_info_fits s0 ops none hfit (fun _ h => by cases h) B hB
    rw [hrun]
    simp only [hB, staged_after]
    exact memcpy_take_of_le _ _ _ hlen
  · intro hnone
    rw [hrun]
    simp only [hnone, staged_after]
    exact ⟨trivial, fun h0 => h0⟩
  · intro s hdl
    unfold user_report_data_modify
    split_ifs <;> rfl
  · intro s hdl
    unfold target_info_modify
    split_ifs <;> rfl

/-- Witness of C4: after the example run on the example platform, the first 64
staged bytes are the committed 0x01 .. 0x40. -/
theorem C4_last_commit_wins_witness :
    (run_writable_ops examplePal sizedState exampleOps).g_user_report_data.take 64
      = exampleUserData.take 64 :=
  (C4_last_commit_wins examplePal allocOk sizedState exampleOps 0 rfl (by decide) (by decide)
    (by decide) exampleOps_fits (by decide)).2.1 exampleUserData rfl

/-- Claim C5: on the supported platform, for every state, every platform
behaviour and every flags value with O_WRONLY or O_RDWR set, the opens of
`report` and `quote` return -EACCES and store no handle; the open of
`my_target_info` stores no handle and returns -EACCES, both when the sizes
probe it runs first fails and when it succeeds (provided the probe does not
trip an assertion of `init_attestation_struct_sizes`, which ends the process
instead of returning). -/
theorem C5_write_flag_open_denied (P : Pal) (A : Alloc) (s : AttState) (flags : Nat)
    (hhost : P.host_type = "Linux-SGX") (hflags : has_write_flag flags) :
    (((init_attestation_struct_sizes P s).outcome ≠ .aborted →
        (dev_attestation_my_target_info_open P A s flags).outcome = .returned (-EACCES))
      ∧ (dev_attestation_my_target_info_open P A s flags).hdl = none)
    ∧ ((dev_attestation_report_open P A s flags).outcome = .returned (-EACCES)
      ∧ (dev_attestation_report_open P A s flags).hdl = none)
    ∧ ((dev_attestation_quote_open P A s flags).outcome = .returned (-EACCES)
      ∧ (dev_attestation_quote_open P A s flags).hdl = none) := by
  rw [my_target_info_open_write_flag P A s flags hhost hflags,
    report_open_write_flag P A s flags hhost hflags,
    quote_open_write_flag P A s flags hhost hflags]
  refine ⟨⟨?_, rfl⟩, ⟨rfl, rfl⟩, ⟨rfl, rfl⟩⟩
  intro hne
  cases hi : (init_attestation_struct_sizes P s).outcome with
  | aborted => exact absurd hi hne
  | returned c => rfl

/-- Witness of C5: a write-only open of `my_target_info` as the first operation
of a process on the example platform (the sizes probe runs and succeeds). -/
theorem C5_write_flag_open_denied_witness :
    (dev_attestation_my_target_info_open examplePal allocOk AttState.initial O_WRONLY).outcome
      = .returned (-EACCES) :=
  (C5_write_flag_open_denied examplePal allocOk AttState.initial O_WRONLY rfl
    (by decide)).1.1 (by decide)

/-- Counterexample to C6 as stated: in the initial state a write-only open of
`my_target_info` on the example platform runs the sizes probe (one
DkAttestationReport call with NULL buffers) and leaves the cached sizes at
(64, 512, 432) instead of (0, 0, 0). -/
theorem C6_counterexample :
    has_write_flag O_WRONLY
    ∧ (dev_attestation_my_target_info_open examplePal allocOk AttState.initial O_WRONLY).calls
        = [PalCall.report ⟨none, 0, none, 0, none, 0⟩]
    ∧ AttState.initial.g_user_report_data_size = 0
    ∧ (dev_attestation_my_target_info_open examplePal allocOk AttState.initial
          O_WRONLY).state.g_user_report_data_size = 64
    ∧ (dev_attestation_my_target_info_open examplePal allocOk AttState.initial
          O_WRONLY).state.g_target_info_size = 512
    ∧ (dev_attestation_my_target_info_open examplePal allocOk AttState.initial
          O_WRONLY).state.g_report_size = 432 := by
  refine ⟨by decide, ?_, rfl, ?_, ?_, ?_⟩ <;> decide

/-- Claim C6, amended: on the supported platform, for every state and every
flags value with O_WRONLY or O_RDWR set, the opens of `report` and `quote`
make no platform call and leave the globals unchanged.  The open of
`my_target_info` runs `init_attestation_struct_sizes` before it tests the
flags: it never changes the staging buffers; when the three sizes are already
cached it makes no platform call and leaves the globals unchanged; otherwise
it makes the sizes probe (one DkAttestationReport call with NULL buffers) and
the cached sizes become what the probe wrote. -/
theorem C6_write_flag_open_frame (P : Pal) (A : Alloc) (s : AttState) (flags : Nat)
    (hhost : P.host_type = "Linux-SGX") (hflags : has_write_flag flags) :
    ((dev_attestation_report_open P A s flags).calls = []
      ∧ (dev_attestation_report_open P A s flags).state = s)
    ∧ ((dev_attestation_quote_open P A s flags).calls = []
      ∧ (dev_attestation_quote_open P A s flags).state = s)
    ∧ ((dev_attestation_my_target_info_open P A s flags).state.g_user_report_data
          = s.g_user_report_data
      ∧ (dev_attestation_my_target_info_open P A s flags).state.g_target_info
          = s.g_target_info)
    ∧ (s.g_user_report_data_size ≠ 0 ∧ s.g_target_info_size ≠ 0 ∧ s.g_report_size ≠ 0 →
        (dev_attestation_my_target_info_open P A s flags).calls = []
        ∧ (dev_attestation_my_target_info_open P A s flags).state = s)
    ∧ (¬ (s.g_user_report_data_size ≠ 0 ∧ s.g_target_info_size ≠ 0 ∧ s.g_report_size ≠ 0) →
        (dev_attestation_my_target_info_open P A s flags).calls
          = [PalCall.report ⟨none, s.g_user_report_data_size, none, s.g_target_info_size,
                             none, s.g_report_size⟩]
        ∧ (dev_attestation_my_target_info_open P A s flags).state
          = { s with
              g_user_report_data_size :=
                (P.DkAttestationReport (probe_args s)).user_report_data_size
              g_target_info_size := (P.DkAttestationReport (probe_args s)).target_info_size
              g_report_size := (P.DkAttestationReport (probe_args s)).report_size }) := by
  rw [my_target_info_open_write_flag P A s flags hhost hflags,
    report_open_write_flag P A s flags hhost hflags,
    quote_open_write_flag P A s flags hhost hflags]
  refine ⟨⟨rfl, rfl⟩, ⟨rfl, rfl⟩, init_state_buffers P s, ?_, ?_⟩
  · rintro ⟨hu, ht, hr⟩
    rw [init_of_sized P s hu ht hr]
    exact ⟨rfl, rfl⟩
  · intro h0
    exact init_of_unsized P s h0

/-- Witness of C6 (amended): a write-only open of `my_target_info` once the
sizes are cached makes no platform call and changes nothing. -/
theorem C6_write_flag_open_frame_witness :
    (dev_attestation_my_target_info_open examplePal allocOk sizedState O_WRONLY).calls = []
    ∧ (dev_attestation_my_target_info_open examplePal allocOk sizedState O_WRONLY).state
        = sizedState :=
  (C6_write_flag_open_frame examplePal allocOk sizedState O_WRONLY rfl
    (by decide)).2.2.2.1 (by decide)

/-- Claim C8: on the supported platform, `dev_attestation_report_open` returns
-EACCES, makes no platform call, stores no handle and leaves the globals
unchanged whenever one of the three cached sizes is 0;
`dev_attestation_quote_open` does the same whenever `g_user_report_data_size`
is 0. -/
theorem C8_missing_sizes_denied (P : Pal) (A : Alloc) (s : AttState) (flags : Nat)
    (hhost : P.host_type = "Linux-SGX") :
    (s.g_user_report_data_size = 0 ∨ s.g_target_info_size = 0 ∨ s.g_report_size = 0 →
        dev_attestation_report_open P A s flags = ⟨.returned (-EACCES), s, none, []⟩)
    ∧ (s.g_user_report_data_size = 0 →
        dev_attestation_quote_open P A s flags = ⟨.returned (-EACCES), s, none, []⟩) := by
  have h := strcmp_static_eq_false hhost
  constructor
  · intro h0
    have h0' : s.g_target_info_size = 0 ∨ s.g_user_report_data_size = 0 ∨ s.g_report_size = 0 := by
      tauto
    simp only [dev_attestation_report_open, h, Bool.false_eq_true, if_false, if_pos h0']
  · intro h0
    simp only [dev_attestation_quote_open, h, Bool.false_eq_true, if_false, if_pos h0]

/-- Witness of C8: read-only opens of `report` and `quote` as the first
operation of a process on the example platform. -/
theorem C8_missing_sizes_denied_witness :
    dev_attestation_report_open examplePal allocOk AttState.initial 0
        = ⟨.returned (-EACCES), AttState.initial, none, []⟩
    ∧ dev_attestation_quote_open examplePal allocOk AttState.initial 0
        = ⟨.returned (-EACCES), AttState.initial, none, []⟩ :=
  ⟨(C8_missing_sizes_denied examplePal allocOk AttState.initial 0 rfl).1 (Or.inl rfl),
   (C8_missing_sizes_denied examplePal allocOk AttState.initial 0 rfl).2 rfl⟩

/-- Counterexample to C7 as stated: in the initial process state, on the example
platform (whose primitives all succeed), a read-only open of `report`
and of `quote` as the very first attestation operation returns -EACCES, with
no platform call and no handle. -/
theorem C7_counterexample :
    dev_attestation_report_open examplePal allocOk AttState.initial 0
        = ⟨.returned (-EACCES), AttState.initial, none, []⟩
    ∧ dev_attestation_quote_open examplePal allocOk AttState.initial 0
        = ⟨.returned (-EACCES), AttState.initial, none, []⟩ := by
  constructor <;> rfl

/-- Claim C7, amended: the opens of `user_report_data`, `target_info` and
`my_target_info` ensure the sizes are cached; the opens of `report` and `quote`
do not.  On the supported platform, in the initial process state, a read-only
open of `report` or `quote` as the very first attestation operation returns
-EACCES without a platform call.  After one successful open of
`user_report_data`, `target_info` or `my_target_info` in the initial state
(state `s1`: sizes cached, staging buffers still all zero), a read-only open of
`report` whose platform call succeeds returns 0 and yields the report the
platform computed from all-zero user_report_data and all-zero target_info, and
a read-only open of `quote` whose platform call succeeds returns 0 and yields
the quote computed from all-zero user_report_data. -/
theorem C7_first_open_of_result (P : Pal) (A A1 : Alloc) (l : Leaf) (flags1 flags : Nat)
    (s1 : AttState) (hhost : P.host_type = "Linux-SGX")
    (hl : l = .user_report_data ∨ l = .target_info ∨ l = .my_target_info)
    (hfirst : (l.open P A1 AttState.initial flags1).outcome = .returned 0)
    (hs1 : s1 = (l.open P A1 AttState.initial flags1).state)
    (hflags : ¬ has_write_flag flags)
    (hdata : A.data_ok = true) (hstr : A.str_ok = true) :
    dev_attestation_report_open P A AttState.initial flags
        = ⟨.returned (-EACCES), AttState.initial, none, []⟩
    ∧ dev_attestation_quote_open P A AttState.initial flags
        = ⟨.returned (-EACCES), AttState.initial, none, []⟩
    ∧ s1.g_user_report_data = List.replicate USER_REPORT_DATA_MAX_SIZE 0
    ∧ s1.g_target_info = List.replicate TARGET_INFO_MAX_SIZE 0
    ∧ (0 ≤ (P.DkAttestationReport (report_args s1)).ret →
        (dev_attestation_report_open P A s1 flags).outcome = .returned 0
        ∧ (dev_attestation_report_open P A s1 flags).calls
          = [PalCall.report
              ⟨some (List.replicate USER_REPORT_DATA_MAX_SIZE 0), s1.g_user_report_data_size,
               some (List.replicate TARGET_INFO_MAX_SIZE 0), s1.g_target_info_size,
               some s1.g_report_size, s1.g_report_size⟩]
        ∧ (dev_attestation_report_open P A s1 flags).hdl.map (fun h => h.data.str)
          = some ((P.DkAttestationReport (report_args s1)).report.take
                    (P.DkAttestationReport (report_args s1)).report_size))
    ∧ (0 ≤ (P.DkAttestationQuote (quote_args s1)).ret →
        (dev_attestation_quote_open P A s1 flags).outcome = .returned 0
        ∧ (dev_attestation_quote_open P A s1 flags).calls
          = [PalCall.quote
              ⟨List.replicate USER_REPORT_DATA_MAX_SIZE 0, s1.g_user_report_data_size,
               QUOTE_MAX_SIZE, QUOTE_MAX_SIZE⟩]
        ∧ (dev_attestation_quote_open P A s1 flags).hdl.map (fun h => h.data.str)
          = some ((P.DkAttestationQuote (quote_args s1)).quote.take
                    (P.DkAttestationQuote (quote_args s1)).quote_size)) := by
  have h := strcmp_static_eq_false hhost
  obtain ⟨hst, hinit⟩ := sizing_open_initial P A1 l flags1 hhost hl hfirst
  have hsz := init_sizes_of_ok P AttState.initial hinit
  have hbuf := init_state_buffers P AttState.initial
  rw [← hst, ← hs1] at hsz hbuf
  have hbU : s1.g_user_report_data = List.replicate USER_REPORT_DATA_MAX_SIZE 0 := hbuf.1
  have hbT : s1.g_target_info = List.replicate TARGET_INFO_MAX_SIZE 0 := hbuf.2
  refine ⟨?_, ?_, hbU, hbT, ?_, ?_⟩
  · simp [dev_attestation_report_open, h, AttState.initial]
  · simp [dev_attestation_quote_open, h, AttState.initial]
  · intro hret
    rw [report_open_ok P A s1 flags hhost hsz.1 hsz.2.1 hsz.2.2 hflags hret hdata hstr]
    refine ⟨rfl, ?_, rfl⟩
    simp only [report_args, hbU, hbT]
  · intro hret
    rw [quote_open_ok P A s1 flags hhost hsz.1 hflags hret hdata hstr]
    refine ⟨rfl, ?_, rfl⟩
    simp only [quote_args, hbU]

/-- Witness of C7 (amended): on the example platform, open `user_report_data`
first, then `report` read-only: the report open returns 0. -/
theorem C7_first_open_of_result_witness :
    (dev_attestation_report_open examplePal allocOk
        (Leaf.user_report_data.open examplePal allocOk AttState.initial O_RDWR).state
        0).outcome = .returned 0 :=
  ((C7_first_open_of_result examplePal allocOk allocOk Leaf.user_report_data O_RDWR 0
    (Leaf.user_report_data.open examplePal allocOk AttState.initial O_RDWR).state
    rfl (Or.inl rfl) (by decide) rfl (by decide) rfl rfl).2.2.2.2.1
    (by decide)).1

/-- Claim C10: the quote does not depend on target_info.  For two states that
agree on the three cached sizes and on the staged user_report_data, whatever
their staged target_info, and the same platform, allocation results and
flags, `dev_attestation_quote_open` ends the same way, stores the same handle
and makes the same platform calls; every platform call it makes is
DkAttestationQuote on the staged user_report_data, its cached size and a quote
buffer of QUOTE_MAX_SIZE bytes, so the staged target_info is not passed. -/
theorem C10_quote_ignores_target_info (P : Pal) (A : Alloc) (s1 s2 : AttState) (flags : Nat)
    (hurd : s1.g_user_report_data = s2.g_user_report_data)
    (hu : s1.g_user_report_data_size = s2.g_user_report_data_size)
    (_ht : s1.g_target_info_size = s2.g_target_info_size)
    (_hr : s1.g_report_size = s2.g_report_size) :
    (dev_attestation_quote_open P A s1 flags).outcome
        = (dev_attestation_quote_open P A s2 flags).outcome
    ∧ (dev_attestation_quote_open P A s1 flags).hdl
        = (dev_attestation_quote_open P A s2 flags).hdl
    ∧ (dev_attestation_quote_open P A s1 flags).calls
        = (dev_attestation_quote_open P A s2 flags).calls
    ∧ (∀ c ∈ (dev_attestation_quote_open P A s1 flags).calls,
        c = PalCall.quote ⟨s1.g_user_report_data, s1.g_user_report_data_size,
                           QUOTE_MAX_SIZE, QUOTE_MAX_SIZE⟩) := by
  have hq : quote_args s1 = quote_args s2 := by
    simp [quote_args, hurd, hu]
  refine ⟨?_, ?_, ?_, quote_open_calls P A s1 flags⟩
  all_goals
    simp only [dev_attestation_quote_open, hq, hu]
    split_ifs <;> rfl

/-- Witness of C10: the quote open on the example platform before and after a
commit of 512 bytes 0xAA to `target_info`. -/
theorem C10_quote_ignores_target_info_witness :
    (dev_attestation_quote_open examplePal allocOk sizedState 0).hdl
      = (dev_attestation_quote_open examplePal allocOk targetedState 0).hdl :=
  (C10_quote_ignores_target_info examplePal allocOk sizedState targetedState 0
    rfl rfl rfl rfl).2.1

/-- Claim C11: on the supported platform, with the three sizes cached and
neither O_WRONLY nor O_RDWR in the flags, `dev_attestation_my_target_info_open`
leaves the globals unchanged and makes exactly one platform call:
DkAttestationReport with an all-zero user_report_data of
`g_user_report_data_size` bytes, an all-zero target_info of
`g_target_info_size` bytes and no report buffer.  It returns 0 when that call
succeeds, returns the cached sizes and both allocations succeed; whenever it
returns 0 the handle is read-only (MAY_READ, no close-commit hook), its buffer
is the `g_target_info_size` bytes the platform left in the target_info
scratch, and buf_size = len = `g_target_info_size`.  Two successful opens, in
any two states with the same cached sizes (whatever their staged
user_report_data and target_info), store identical handles. -/
theorem C11_my_target_info_from_zeroed_scratch (P : Pal) (A : Alloc) (s : AttState)
    (flags : Nat) (hhost : P.host_type = "Linux-SGX")
    (hu : s.g_user_report_data_size ≠ 0) (ht : s.g_target_info_size ≠ 0)
    (hr : s.g_report_size ≠ 0) (hflags : ¬ has_write_flag flags) :
    (dev_attestation_my_target_info_open P A s flags).calls
        = [PalCall.report
            ⟨some (List.replicate s.g_user_report_data_size 0), s.g_user_report_data_size,
             some (List.replicate s.g_target_info_size 0), s.g_target_info_size,
             none, s.g_report_size⟩]
    ∧ (dev_attestation_my_target_info_open P A s flags).state = s
    ∧ (0 ≤ (P.DkAttestationReport (my_target_info_args s)).ret →
        (P.DkAttestationReport (my_target_info_args s)).user_report_data_size
          = s.g_user_report_data_size →
        (P.DkAttestationReport (my_target_info_args s)).target_info_size
          = s.g_target_info_size →
        (P.DkAttestationReport (my_target_info_args s)).report_size = s.g_report_size →
        A.data_ok = true → A.str_ok = true →
        (dev_attestation_my_target_info_open P A s flags).outcome = .returned 0)
    ∧ ((dev_attestation_my_target_info_open P A s flags).outcome = .returned 0 →
        (dev_attestation_my_target_info_open P A s flags).hdl
          = some ⟨MAY_READ,
                  ⟨(P.DkAttestationReport (my_target_info_args s)).target_info.take
                      s.g_target_info_size,
                   s.g_target_info_size, s.g_target_info_size, none⟩⟩
        ∧ ((P.DkAttestationReport (my_target_info_args s)).target_info.length
              = s.g_target_info_size →
            (dev_attestation_my_target_info_open P A s flags).hdl.map (fun h => h.data.str)
              = some (P.DkAttestationReport (my_target_info_args s)).target_info))
    ∧ (∀ (A2 : Alloc) (s2 : AttState) (flags2 : Nat),
        s2.g_user_report_data_size = s.g_user_report_data_size →
        s2.g_target_info_size = s.g_target_info_size →
        s2.g_report_size = s.g_report_size →
        ¬ has_write_flag flags2 →
        (dev_attestation_my_target_info_open P A s flags).outcome = .returned 0 →
        (dev_attestation_my_target_info_open P A2 s2 flags2).outcome = .returned 0 →
        (dev_attestation_my_target_info_open P A2 s2 flags2).hdl
          = (dev_attestation_my_target_info_open P A s flags).hdl) := by
  have hopen := my_target_info_open_sized P A s flags hhost hu ht hr hflags
  have hsucc := my_target_info_open_hdl_of_ok P A s flags hhost hu ht hr hflags
  refine ⟨?_, ?_, ?_, ?_, ?_⟩
  · rw [hopen]
    split_ifs <;> rfl
  · rw [hopen]
    split_ifs <;> rfl
  · intro hret h1 h2 h3 hd hs
    rw [hopen]
    simp [not_lt.mpr hret, h1, h2, h3, hd, hs]
  · intro hok
    refine ⟨hsucc hok, fun hlen => ?_⟩
    rw [hsucc hok]
    simp only [Option.map_some']
    rw [← hlen, List.take_length]
  · intro A2 s2 flags2 h1 h2 h3 hflags2 hok hok2
    rw [hsucc hok, my_target_info_open_hdl_of_ok P A2 s2 flags2 hhost (by rw [h1]; exact hu)
      (by rw [h2]; exact ht) (by rw [h3]; exact hr) hflags2 hok2,
      my_target_info_args_congr s s2 h1 h2 h3, h2]

/-- Witness of C11: a read-only open of `my_target_info` on the example
platform with the sizes cached returns 0. -/
theorem C11_my_target_info_from_zeroed_scratch_witness :
    (dev_attestation_my_target_info_open examplePal allocOk sizedState 0).outcome
      = .returned 0 :=
  (C11_my_target_info_from_zeroed_scratch examplePal allocOk sizedState 0 rfl
    (by decide) (by decide) (by decide) (by decide)).2.2.1
    (by decide) rfl rfl rfl rfl rfl

/-- Claim C12: for every successful `dev_attestation_quote_open` (the platform
returning a quote size within the capacity it was given, with that many bytes
in the quote buffer), the globals are unchanged and exactly one platform call
was made: DkAttestationQuote with the staged user_report_data, its cached size
and a quote buffer of 2048 (QUOTE_MAX_SIZE) bytes; the handle is read-only,
its buf_size and len both equal the quote size the platform returned, its
buffer is the first that-many bytes of the quote the platform produced, and
the buffer length does not exceed 2048. -/
theorem C12_quote_open_success (P : Pal) (A : Alloc) (s : AttState) (flags : Nat)
    (hok : (dev_attestation_quote_open P A s flags).outcome = .returned 0)
    (hcap : (P.DkAttestationQuote (quote_args s)).quote_size
              ≤ (quote_args s).quote_capacity)
    (hbuf : (P.DkAttestationQuote (quote_args s)).quote_size
              ≤ (P.DkAttestationQuote (quote_args s)).quote.length) :
    (dev_attestation_quote_open P A s flags).calls
        = [PalCall.quote ⟨s.g_user_report_data, s.g_user_report_data_size, 2048, 2048⟩]
    ∧ (dev_attestation_quote_open P A s flags).state = s
    ∧ ∃ h, (dev_attestation_quote_open P A s flags).hdl = some h
        ∧ h.acc_mode = MAY_READ
        ∧ h.data.modify = none
        ∧ h.data.buf_size = (P.DkAttestationQuote (quote_args s)).quote_size
        ∧ h.data.len = (P.DkAttestationQuote (quote_args s)).quote_size
        ∧ h.data.str = (P.DkAttestationQuote (quote_args s)).quote.take
                          (P.DkAttestationQuote (quote_args s)).quote_size
        ∧ h.data.str.length = h.data.buf_size
        ∧ h.data.buf_size ≤ 2048
        ∧ h.data.str.length ≤ 2048 := by
  have hcap' : (P.DkAttestationQuote (quote_args s)).quote_size ≤ 2048 := hcap
  have hlen : ((P.DkAttestationQuote (quote_args s)).quote.take
      (P.DkAttestationQuote (quote_args s)).quote_size).length
        = (P.DkAttestationQuote (quote_args s)).quote_size := by
    rw [List.length_take]
    exact Nat.min_eq_left hbuf
  rw [quote_open_of_ok P A s flags hok]
  refine ⟨rfl, rfl, _, rfl, rfl, rfl, rfl, rfl, rfl, hlen, hcap', ?_⟩
  show (List.take _ _).length ≤ 2048
  rw [hlen]
  exact hcap'

/-- Witness of C12: the read-only open of `quote` on the example platform, whose
quote has 100 bytes. -/
theorem C12_quote_open_success_witness :
    (dev_attestation_quote_open examplePal allocOk sizedState 0).calls
      = [PalCall.quote ⟨sizedState.g_user_report_data, sizedState.g_user_report_data_size,
                        2048, 2048⟩] :=
  (C12_quote_open_success examplePal allocOk sizedState 0 (by decide) (by decide)
    (by decide)).1

/-- Claim C13: the cached sizes are immutable once initialised.  On a platform
with fixed sizes, in every state reached from the initial state by any
sequence of the five opens and the two close-commits in which the three cached
sizes are all non-zero, every later sequence of these operations leaves the
triple unchanged; in particular `dev_attestation_report_open`, which hands
the cached sizes to the platform as in/out parameters, leaves it unchanged.
The triple is then the platform's fixed triple. -/
theorem C13_cached_sizes_immutable (P : Pal) (U T R : Nat) (hfix : P.sizes_fixed U T R)
    (pre post : List AttOp)
    (hsized : (run_ops P AttState.initial pre).g_user_report_data_size ≠ 0
      ∧ (run_ops P AttState.initial pre).g_target_info_size ≠ 0
      ∧ (run_ops P AttState.initial pre).g_report_size ≠ 0) :
    (run_ops P AttState.initial (pre ++ post)).sizes
        = (run_ops P AttState.initial pre).sizes
    ∧ (∀ (A : Alloc) (flags : Nat),
        (dev_attestation_report_open P A (run_ops P AttState.initial pre) flags).state.sizes
          = (run_ops P AttState.initial pre).sizes)
    ∧ (∀ op : AttOp,
        (op.step P (run_ops P AttState.initial pre)).sizes
          = (run_ops P AttState.initial pre).sizes)
    ∧ (run_ops P AttState.initial pre).sizes = (U, T, R) := by
  have hinv := run_ops_sizes_inv P U T R hfix pre AttState.initial (Or.inl rfl)
  have hfixed : (run_ops P AttState.initial pre).sizes = (U, T, R) := by
    rcases hinv with h0 | h1
    · exfalso
      have hz : (run_ops P AttState.initial pre).g_user_report_data_size = 0 :=
        congrArg Prod.fst h0
      exact hsized.1 hz
    · exact h1
  refine ⟨?_, fun A flags => ?_, fun op => ?_, hfixed⟩
  · unfold run_ops
    rw [List.foldl_append]
    exact (run_ops_keeps_fixed P U T R hfix post _ hfixed).trans hfixed.symm
  · exact (step_keeps_fixed P U T R hfix (.open_leaf .report A flags) _ hfixed).trans
      hfixed.symm
  · exact (step_keeps_fixed P U T R hfix op _ hfixed).trans hfixed.symm

/-- Witness of C13: on the example platform (fixed sizes 64, 512, 432), after
the first open of `user_report_data`, a read-only open of `report`, a commit
to `user_report_data` and an open of `quote` leave the sizes unchanged. -/
theorem C13_cached_sizes_immutable_witness :
    (run_ops examplePal AttState.initial
        ([.open_leaf .user_report_data allocOk O_RDWR]
          ++ [.open_leaf .report allocOk 0,
              .close_user_report_data (written_handle .user_report_data_modify exampleUserData),
              .open_leaf .quote allocOk 0])).sizes
      = (run_ops examplePal AttState.initial
          [.open_leaf .user_report_data allocOk O_RDWR]).sizes :=
  (C13_cached_sizes_immutable examplePal 64 512 432 (fun _ => Or.inl ⟨rfl, rfl, rfl⟩)
    [.open_leaf .user_report_data allocOk O_RDWR]
    [.open_leaf .report allocOk 0,
     .close_user_report_data (written_handle .user_report_data_modify exampleUserData),
     .open_leaf .quote allocOk 0]
    (by decide)).1

/-- Claim C14: whenever `init_attestation_struct_sizes` returns 0 after
performing the probe, the three cached sizes are strictly positive,
`g_user_report_data_size` is at most 256 and `g_target_info_size` at most
1024.  Consequently, with the staging buffers being the 256-byte and
1024-byte C arrays, the copies made with these sizes stay inside the staging
buffers: the copy out of each staging buffer in the opens of
`user_report_data` and `target_info`, and the copy into each staging buffer
in the two close-commits (which leaves the array length as it was); the sizes
and array lengths, and so these bounds, persist over every following sequence
of opens and close-commits of the writable files. -/
theorem C14_size_bounds (P : Pal) (s : AttState) (harr : s.arrays_ok)
    (hprobe : (init_attestation_struct_sizes P s).calls ≠ [])
    (hok : (init_attestation_struct_sizes P s).outcome = .returned 0) :
    (0 < (init_attestation_struct_sizes P s).state.g_user_report_data_size
      ∧ (init_attestation_struct_sizes P s).state.g_user_report_data_size ≤ 256)
    ∧ (0 < (init_attestation_struct_sizes P s).state.g_target_info_size
      ∧ (init_attestation_struct_sizes P s).state.g_target_info_size ≤ 1024)
    ∧ 0 < (init_attestation_struct_sizes P s).state.g_report_size
    ∧ (init_attestation_struct_sizes P s).state.arrays_ok
    ∧ memcpy_in_bounds
        (calloc_bytes (init_attestation_struct_sizes P s).state.g_user_report_data_size)
        (init_attestation_struct_sizes P s).state.g_user_report_data
        (init_attestation_struct_sizes P s).state.g_user_report_data_size
    ∧ memcpy_in_bounds
        (calloc_bytes (init_attestation_struct_sizes P s).state.g_target_info_size)
        (init_attestation_struct_sizes P s).state.g_target_info
        (init_attestation_struct_sizes P s).state.g_target_info_size
    ∧ (∀ hdl : Handle,
        (init_attestation_struct_sizes P s).state.g_user_report_data_size
            ≤ hdl.data.str.length →
        memcpy_in_bounds (init_attestation_struct_sizes P s).state.g_user_report_data
            hdl.data.str (init_attestation_struct_sizes P s).state.g_user_report_data_size
        ∧ (user_report_data_modify (init_attestation_struct_sizes P s).state
              hdl).state.arrays_ok)
    ∧ (∀ hdl : Handle,
        (init_attestation_struct_sizes P s).state.g_target_info_size ≤ hdl.data.str.length →
        memcpy_in_bounds (init_attestation_struct_sizes P s).state.g_target_info
            hdl.data.str (init_attestation_struct_sizes P s).state.g_target_info_size
        ∧ (target_info_modify (init_attestation_struct_sizes P s).state hdl).state.arrays_ok)
    ∧ (∀ ops : List WritableOp,
        (∀ op ∈ ops, op.fits (init_attestation_struct_sizes P s).state) →
        (run_writable_ops P (init_attestation_struct_sizes P s).state ops).sizes
            = (init_attestation_struct_sizes P s).state.sizes
        ∧ (run_writable_ops P (init_attestation_struct_sizes P s).state ops).arrays_ok) := by
  obtain ⟨⟨hu0, hu⟩, ⟨ht0, ht⟩, hr0⟩ := init_probe_ok_bounds P s hprobe hok
  obtain ⟨hbU, hbT⟩ := init_state_buffers P s
  have harr1 : (init_attestation_struct_sizes P s).state.arrays_ok := by
    unfold AttState.arrays_ok
    rw [hbU, hbT]
    exact harr
  generalize (init_attestation_struct_sizes P s).state = s1 at *
  have hU : s1.g_user_report_data_size ≤ s1.g_user_report_data.length := by
    rw [harr1.1]; exact hu
  have hT : s1.g_target_info_size ≤ s1.g_target_info.length := by
    rw [harr1.2]; exact ht
  refine ⟨⟨Nat.pos_of_ne_zero hu0, hu⟩, ⟨Nat.pos_of_ne_zero ht0, ht⟩, Nat.pos_of_ne_zero hr0,
    harr1, ?_, ?_, ?_, ?_, ?_⟩
  · exact ⟨by simp [calloc_bytes], hU⟩
  · exact ⟨by simp [calloc_bytes], hT⟩
  · intro hdl hlen
    refine ⟨⟨hU, hlen⟩, ?_⟩
    simp only [user_report_data_modify, hu0, not_true_eq_false, if_false, ne_eq,
      not_false_eq_true, AttState.arrays_ok]
    rw [memcpy_length _ _ _ ⟨hU, hlen⟩]
    exact harr1
  · intro hdl hlen
    refine ⟨⟨hT, hlen⟩, ?_⟩
    simp only [target_info_modify, ht0, not_true_eq_false, if_false, ne_eq,
      not_false_eq_true, AttState.arrays_ok]
    rw [memcpy_length _ _ _ ⟨hT, hlen⟩]
    exact harr1
  · intro ops hfit
    rw [run_writable_ops_eq P s1 ops hu0 ht0 hr0 hfit]
    refine ⟨rfl, ?_, ?_⟩
    · exact (staged_after_length _ _ _ hU
        (last_user_report_data_fits s1 ops none hfit (fun _ h => by cases h))).trans harr1.1
    · exact (staged_after_length _ _ _ hT
        (last_target_info_fits s1 ops none hfit (fun _ h => by cases h))).trans harr1.2

/-- Witness of C14: the first sizes probe of a process on the example
platform caches a user_report_data size of at most 256. -/
theorem C14_size_bounds_witness :
    (init_attestation_struct_sizes examplePal AttState.initial).state.g_user_report_data_size
      ≤ 256 :=
  (C14_size_bounds examplePal AttState.initial
    ⟨List.length_replicate _ _, List.length_replicate _ _⟩ (by decide) (by decide)).1.2

/-- Evaluation for C16 at the failing input: on the example platform with the
sizes (64, 512, 432) cached, the opens of `user_report_data` and `target_info`
return 0 and store handles with buf_size 64 and 512 but with len = 0, while
the read-only open of `report` stores len = buf_size = 432. -/
theorem C16_writable_open_len :
    (dev_attestation_user_report_data_open examplePal allocOk sizedState O_RDWR).outcome
        = .returned 0
    ∧ (dev_attestation_user_report_data_open examplePal allocOk sizedState O_RDWR).hdl.map
        (fun h => (h.data.len, h.data.buf_size)) = some (0, 64)
    ∧ (dev_attestation_target_info_open examplePal allocOk sizedState O_RDWR).outcome
        = .returned 0
    ∧ (dev_attestation_target_info_open examplePal allocOk sizedState O_RDWR).hdl.map
        (fun h => (h.data.len, h.data.buf_size)) = some (0, 512)
    ∧ (dev_attestation_report_open examplePal allocOk sizedState 0).hdl.map
        (fun h => (h.data.len, h.data.buf_size)) = some (432, 432) := by
  refine ⟨by decide, by decide, by decide, by decide, by decide⟩

/-- Claim C17: on the supported platform every platform failure surfaces as
-EACCES, with no handle stored, whatever negative value the platform returned.
If the sizes probe runs (a cached size is 0) and returns a negative value, the
opens of `user_report_data`, `target_info` and `my_target_info` return -EACCES.
If the DkAttestationReport call of a read-only open of `my_target_info` (made
once the sizes are cached or the probe has passed) or of `report` returns a
negative value, that open returns -EACCES.  If the DkAttestationQuote call of
a read-only open of `quote` (made once the handle record is allocated) returns
a negative value, that open returns -EACCES. -/
theorem C17_platform_failure_is_eacces (P : Pal) (A : Alloc) (s : AttState) (flags : Nat)
    (hhost : P.host_type = "Linux-SGX") :
    (¬ (s.g_user_report_data_size ≠ 0 ∧ s.g_target_info_size ≠ 0 ∧ s.g_report_size ≠ 0) →
      (P.DkAttestationReport (probe_args s)).ret < 0 →
        ((dev_attestation_user_report_data_open P A s flags).outcome = .returned (-EACCES)
          ∧ (dev_attestation_user_report_data_open P A s flags).hdl = none)
        ∧ ((dev_attestation_target_info_open P A s flags).outcome = .returned (-EACCES)
          ∧ (dev_attestation_target_info_open P A s flags).hdl = none)
        ∧ ((dev_attestation_my_target_info_open P A s flags).outcome = .returned (-EACCES)
          ∧ (dev_attestation_my_target_info_open P A s flags).hdl = none))
    ∧ (¬ has_write_flag flags →
      (init_attestation_struct_sizes P s).outcome = .returned 0 →
      (P.DkAttestationReport
          (my_target_info_args (init_attestation_struct_sizes P s).state)).ret < 0 →
        (dev_attestation_my_target_info_open P A s flags).outcome = .returned (-EACCES)
        ∧ (dev_attestation_my_target_info_open P A s flags).hdl = none)
    ∧ (¬ has_write_flag flags →
      (P.DkAttestationReport (report_args s)).ret < 0 →
        (dev_attestation_report_open P A s flags).outcome = .returned (-EACCES)
        ∧ (dev_attestation_report_open P A s flags).hdl = none)
    ∧ (¬ has_write_flag flags → A.data_ok = true →
      (P.DkAttestationQuote (quote_args s)).ret < 0 →
        (dev_attestation_quote_open P A s flags).outcome = .returned (-EACCES)
        ∧ (dev_attestation_quote_open P A s flags).hdl = none) := by
  refine ⟨?_, ?_, ?_, ?_⟩
  · intro h0 hret
    exact open_of_init_failed P A s flags hhost (init_probe_failed P s h0 hret)
  · intro hflags hinit hret
    rw [my_target_info_open_eq P A s flags hhost hinit hflags, if_pos hret]
    exact ⟨rfl, rfl⟩
  · intro _ hret
    exact report_open_call_failed P A s flags hhost hret
  · intro _ hdata hret
    exact quote_open_call_failed P A s flags hhost hdata hret

/-- Witness of C17: on a platform whose primitives fail with -5 and -7, the
first open of `user_report_data` and a read-only open of `quote` with the
sizes cached both return -EACCES. -/
theorem C17_platform_failure_is_eacces_witness :
    (dev_attestation_user_report_data_open failingPal allocOk AttState.initial O_RDWR).outcome
        = .returned (-EACCES)
    ∧ (dev_attestation_quote_open failingPal allocOk sizedState 0).outcome
        = .returned (-EACCES) :=
  ⟨((C17_platform_failure_is_eacces failingPal allocOk AttState.initial O_RDWR rfl).1
      (by decide) (by decide)).1.1,
   ((C17_platform_failure_is_eacces failingPal allocOk sizedState 0 rfl).2.2.2
      (by decide) rfl (by decide)).1⟩

/-- Claim C18: staleness.  When an open of any of the five files stores a
handle, the handle's record is new and its `str` (and `info.str.ptr`) point
at a heap block that this open allocated, not at a global array and not at a
block that existed before; what a reader of the handle sees is the handle
that the open computed from the state sampled at open time.  For every later
close-commit on `user_report_data` or `target_info`, in any memory in which
the handle still owns its block and with any handle being closed, whatever its
contents, the commit writes the closed handle's bytes into the globals and
what a reader of the first handle sees (buffer, len, buf_size) is unchanged;
so it is after every later sequence of opens and close-commits. -/
theorem C18_open_handle_is_stale_copy (P : Pal) (m : Memory) (l : Leaf) (A : Alloc)
    (flags : Nat) (h : MemHandle)
    (hopen : (l.open_mem P A m flags).hdl = some h) :
    (h.data = m.records.length ∧ h.ptr = .heap m.blocks.length
      ∧ (l.open_mem P A m flags).mem.str_of h = .heap m.blocks.length
      ∧ m.blocks.length < (l.open_mem P A m flags).mem.blocks.length)
    ∧ (l.open_mem P A m flags).mem.view h = (l.open P A m.globals flags).hdl
    ∧ (l.open_mem P A m flags).mem.owns h
    ∧ (∀ (q : Memory) (hdl : MemHandle), q.owns h →
        ((user_report_data_modify_mem q hdl).mem.view h = q.view h
          ∧ (user_report_data_modify_mem q hdl).mem.owns h
          ∧ ∀ hv, q.view hdl = some hv →
              (user_report_data_modify_mem q hdl).mem.globals
                = (user_report_data_modify q.globals hv).state)
        ∧ ((target_info_modify_mem q hdl).mem.view h = q.view h
          ∧ (target_info_modify_mem q hdl).mem.owns h
          ∧ ∀ hv, q.view hdl = some hv →
              (target_info_modify_mem q hdl).mem.globals
                = (target_info_modify q.globals hv).state))
    ∧ (∀ ops : List MemOp,
        (run_mem_ops P (l.open_mem P A m flags).mem ops).view h
          = (l.open_mem P A m flags).mem.view h
        ∧ (run_mem_ops P (l.open_mem P A m flags).mem ops).str_of h = .heap m.blocks.length) := by
  have hf := (facts_of_refines m _ _ (leaf_open_mem_refines P l A m flags)).2.2.2.2 h hopen
  obtain ⟨hd, hp, hs, hb, hv, ho⟩ := hf
  refine ⟨⟨hd, hp, hs, hb⟩, hv, ho, ?_, ?_⟩
  · intro q hdl hq
    have hu := owns_of_extended q _ h hq (modify_mem_extended q hdl).1
    have ht := owns_of_extended q _ h hq (modify_mem_extended q hdl).2
    exact ⟨⟨hu.2.1, hu.1, fun hv hview => (modify_mem_refines q hdl hv hview).1.2⟩,
      ⟨ht.2.1, ht.1, fun hv hview => (modify_mem_refines q hdl hv hview).2.2⟩⟩
  · intro ops
    have hr := owns_of_extended _ _ h ho (run_mem_ops_extended P ops (l.open_mem P A m flags).mem)
    exact ⟨hr.2.1, hr.2.2.trans hs⟩

set_option maxRecDepth 100000 in
/-- Witness of C18: on the example platform, `report` is opened read-only, then
`user_report_data` is opened and the bytes 0x01 .. 0x40 are written into its
buffer; the close-commit of that second handle leaves what a reader of the
`report` handle sees unchanged, while the first 64 staged bytes change from
zeros to the committed bytes. -/
theorem C18_open_handle_is_stale_copy_witness :
    (user_report_data_modify_mem writtenMemory secondHandle).mem.view firstHandle
        = writtenMemory.view firstHandle
    ∧ (user_report_data_modify_mem writtenMemory secondHandle).mem.globals.g_user_report_data.take
          64 = exampleUserData
    ∧ writtenMemory.globals.g_user_report_data.take 64 = List.replicate 64 0 :=
  ⟨((C18_open_handle_is_stale_copy examplePal sizedMemory .report allocOk 0 firstHandle
      (by decide)).2.2.2.1 writtenMemory secondHandle
      ⟨⟨.heap 0, 432, 432, none⟩, 0, by decide, rfl, by decide, rfl⟩).1.1,
   by decide, by decide⟩

/-- Claim C19: `dev_attestation_dir` declares and holds exactly five entries,
named user_report_data, target_info, my_target_info, report and quote, in this
order, all of type regular file.  For every name argument (and stat buffer),
the mode callback of user_report_data and target_info returns 0 with
FILE_RW_MODE | S_IFREG and that of my_target_info, report and quote returns 0
with FILE_R_MODE | S_IFREG; the stat callback of each entry returns 0 with
st_dev = 1, st_ino = 1, every other field zero, and st_mode equal to the mode
its mode callback reports. -/
theorem C19_directory_table (name : String) (buf : Stat) :
    dev_attestation_dir.size = 5
    ∧ dev_attestation_dir.ent.length = 5
    ∧ dev_attestation_dir.ent.map (fun e => (e.name, e.type))
        = [("user_report_data", LINUX_DT_REG), ("target_info", LINUX_DT_REG),
           ("my_target_info", LINUX_DT_REG), ("report", LINUX_DT_REG),
           ("quote", LINUX_DT_REG)]
    ∧ dev_attestation_dir.ent.map (fun e => e.fs_ops.mode name)
        = [(0, FILE_RW_MODE ||| S_IFREG), (0, FILE_RW_MODE ||| S_IFREG),
           (0, FILE_R_MODE ||| S_IFREG), (0, FILE_R_MODE ||| S_IFREG),
           (0, FILE_R_MODE ||| S_IFREG)]
    ∧ dev_attestation_dir.ent.map (fun e => e.fs_ops.stat name buf)
        = [(0, ⟨1, 1, 0, FILE_RW_MODE ||| S_IFREG, 0, 0, 0, 0, 0, 0, 0, 0, 0⟩),
           (0, ⟨1, 1, 0, FILE_RW_MODE ||| S_IFREG, 0, 0, 0, 0, 0, 0, 0, 0, 0⟩),
           (0, ⟨1, 1, 0, FILE_R_MODE ||| S_IFREG, 0, 0, 0, 0, 0, 0, 0, 0, 0⟩),
           (0, ⟨1, 1, 0, FILE_R_MODE ||| S_IFREG, 0, 0, 0, 0, 0, 0, 0, 0, 0⟩),
           (0, ⟨1, 1, 0, FILE_R_MODE ||| S_IFREG, 0, 0, 0, 0, 0, 0, 0, 0, 0⟩)]
    ∧ dev_attestation_dir.ent.map (fun e => (e.fs_ops.stat name buf).2.st_mode)
        = dev_attestation_dir.ent.map (fun e => (e.fs_ops.mode name).2) := by
  refine ⟨rfl, rfl, rfl, rfl, rfl, rfl⟩

/-- Claim C20: the size cache is a one-shot initialiser.  Whenever all three
cached sizes are non-zero, `init_attestation_struct_sizes` returns 0, makes no
platform call and leaves the globals unchanged.  After any call that returned
0, a second call in a row returns 0, makes no platform call and changes
nothing.  A platform call is made only when a cached size is 0, and it is the
sizes probe (DkAttestationReport with NULL buffers); when the probe returns a
negative value the function returns -EACCES. -/
theorem C20_one_shot_size_cache (P : Pal) (s : AttState) :
    (s.g_user_report_data_size ≠ 0 ∧ s.g_target_info_size ≠ 0 ∧ s.g_report_size ≠ 0 →
        init_attestation_struct_sizes P s = ⟨.returned 0, s, []⟩)
    ∧ ((init_attestation_struct_sizes P s).outcome = .returned 0 →
        init_attestation_struct_sizes P (init_attestation_struct_sizes P s).state
          = ⟨.returned 0, (init_attestation_struct_sizes P s).state, []⟩)
    ∧ ((init_attestation_struct_sizes P s).calls ≠ [] →
        (s.g_user_report_data_size = 0 ∨ s.g_target_info_size = 0 ∨ s.g_report_size = 0)
        ∧ (init_attestation_struct_sizes P s).calls
            = [PalCall.report ⟨none, s.g_user_report_data_size, none, s.g_target_info_size,
                               none, s.g_report_size⟩])
    ∧ ((s.g_user_report_data_size = 0 ∨ s.g_target_info_size = 0 ∨ s.g_report_size = 0) →
        (P.DkAttestationReport (probe_args s)).ret < 0 →
        (init_attestation_struct_sizes P s).outcome = .returned (-EACCES)) := by
  refine ⟨?_, ?_, ?_, ?_⟩
  · rintro ⟨hu, ht, hr⟩
    exact init_of_sized P s hu ht hr
  · intro hok
    obtain ⟨hu, ht, hr⟩ := init_sizes_of_ok P s hok
    exact init_of_sized P _ hu ht hr
  · intro hc
    by_cases h0 : s.g_user_report_data_size ≠ 0 ∧ s.g_target_info_size ≠ 0
        ∧ s.g_report_size ≠ 0
    · rw [init_of_sized P s h0.1 h0.2.1 h0.2.2] at hc
      exact absurd rfl hc
    · refine ⟨?_, (init_of_unsized P s h0).1⟩
      by_contra hne
      push_neg at hne
      exact h0 hne
  · intro hz hret
    refine init_probe_failed P s ?_ hret
    rintro ⟨hu, ht, hr⟩
    rcases hz with h | h | h
    · exact hu h
    · exact ht h
    · exact hr h

/-- Witness of C20: with the sizes cached, the initialiser on the example
platform returns 0 without a platform call. -/
theorem C20_one_shot_size_cache_witness :
    init_attestation_struct_sizes examplePal sizedState = ⟨.returned 0, sizedState, []⟩ :=
  (C20_one_shot_size_cache examplePal sizedState).1 (by decide)

end Attestation

namespace Util

/-! ## Facts about `parse_hex` -/

theorem isxdigit_nul : isxdigit (Char.ofNat 0) = false := by decide

theorem lt_length_of_isxdigit (hex : List Char) (i : Nat)
    (h : isxdigit (char_at hex i) = true) : i < hex.length := by
  by_contra hlt
  have hd : char_at hex i = Char.ofNat 0 := by
    unfold char_at
    rw [List.getD_eq_getElem?_getD, List.getElem?_eq_none (Nat.le_of_not_lt hlt)]
    rfl
  rw [hd, isxdigit_nul] at h
  cases h

theorem char_at_mem (hex : List Char) (i : Nat) (h : i < hex.length) :
    char_at hex i ∈ hex := by
  unfold char_at
  rw [List.getD_eq_getElem?_getD, List.getElem?_eq_getElem h]
  exact List.getElem_mem h

theorem hex_digit_value_le (c : Char) : hex_digit_value c ≤ 15 := by
  unfold hex_digit_value
  split_ifs <;> omega

theorem hex_byte_lt (hex : List Char) (k : Nat) : hex_byte hex k < 256 := by
  have h1 := hex_digit_value_le (char_at hex (2 * k))
  have h2 := hex_digit_value_le (char_at hex (2 * k + 1))
  show 16 * hex_digit_value (char_at hex (2 * k)) + hex_digit_value (char_at hex (2 * k + 1))
    < 256
  omega

theorem sscanf_of_xdigits (hex : List Char) (k : Nat)
    (h1 : isxdigit (char_at hex (2 * k)) = true)
    (h2 : isxdigit (char_at hex (2 * k + 1)) = true) :
    sscanf_02hhx (hex.drop (2 * k)) = some (hex_byte hex k) := by
  have l1 := lt_length_of_isxdigit hex _ h1
  have l2 := lt_length_of_isxdigit hex _ h2
  have e1 : char_at hex (2 * k) = hex[2 * k] := by
    unfold char_at
    rw [List.getD_eq_getElem?_getD, List.getElem?_eq_getElem l1]
    rfl
  have e2 : char_at hex (2 * k + 1) = hex[2 * k + 1] := by
    unfold char_at
    rw [List.getD_eq_getElem?_getD, List.getElem?_eq_getElem l2]
    rfl
  rw [List.drop_eq_getElem_cons l1, List.drop_eq_getElem_cons l2]
  rw [e1] at h1
  rw [e2] at h2
  simp only [sscanf_02hhx, h1, h2, Bool.and_self, if_true]
  have hlt := hex_byte_lt hex k
  unfold hex_byte at hlt ⊢
  rw [e1, e2] at hlt ⊢
  rw [Nat.mod_eq_of_lt hlt]

theorem parse_hex_loop_bad (g : UtilState) (hex : List Char) (bs n i : Nat) (buf : List Byte)
    (h : ¬ (isxdigit (char_at hex ((i * 2) % SIZE_T_MOD)) = true
          ∧ isxdigit (char_at hex ((i * 2 + 1) % SIZE_T_MOD)) = true)) :
    parse_hex_loop g hex bs (n + 1) i buf = (-1, buf) := by
  rw [parse_hex_loop]
  have hc : (!isxdigit (char_at hex ((i * 2) % SIZE_T_MOD))
      || !isxdigit (char_at hex ((i * 2 + 1) % SIZE_T_MOD))) = true := by
    by_cases h1 : isxdigit (char_at hex ((i * 2) % SIZE_T_MOD)) = true
    · by_cases h2 : isxdigit (char_at hex ((i * 2 + 1) % SIZE_T_MOD)) = true
      · exact absurd ⟨h1, h2⟩ h
      · simp [h2]
    · simp [h1]
  rw [if_pos hc]

theorem parse_hex_loop_good (g : UtilState) (hex : List Char) (bs n i : Nat)
    (buf : List Byte)
    (h1 : isxdigit (char_at hex ((i * 2) % SIZE_T_MOD)) = true)
    (h2 : isxdigit (char_at hex ((i * 2 + 1) % SIZE_T_MOD)) = true) :
    parse_hex_loop g hex bs (n + 1) i buf
      = parse_hex_loop g hex bs n (i + 1)
          (match sscanf_02hhx (hex.drop ((i * 2) % SIZE_T_MOD)) with
           | some b =>
             buf.set (if g.g_endianness = .ENDIAN_LSB then i else bs - i - 1) b
           | none => buf) := by
  rw [parse_hex_loop]
  simp only [h1, h2, Bool.not_true, Bool.or_self, Bool.false_eq_true, if_false]

theorem parse_hex_loop_ret (g : UtilState) (hex : List Char) (bs : Nat) :
    ∀ (n i : Nat) (buf : List Byte),
      ((parse_hex_loop g hex bs n i buf).1 = 0 ∨ (parse_hex_loop g hex bs n i buf).1 = -1)
      ∧ ((parse_hex_loop g hex bs n i buf).1 = 0 ↔
          ∀ k, i ≤ k → k < i + n →
            isxdigit (char_at hex ((k * 2) % SIZE_T_MOD)) = true
            ∧ isxdigit (char_at hex ((k * 2 + 1) % SIZE_T_MOD)) = true) := by
  intro n
  induction n with
  | zero =>
    intro i buf
    refine ⟨Or.inl rfl, ⟨fun _ k h1 h2 => ?_, fun _ => rfl⟩⟩
    omega
  | succ n ih =>
    intro i buf
    by_cases hc : isxdigit (char_at hex ((i * 2) % SIZE_T_MOD)) = true
        ∧ isxdigit (char_at hex ((i * 2 + 1) % SIZE_T_MOD)) = true
    · rw [parse_hex_loop_good g hex bs n i buf hc.1 hc.2]
      obtain ⟨hor, hiff⟩ := ih (i + 1)
        (match sscanf_02hhx (hex.drop ((i * 2) % SIZE_T_MOD)) with
         | some b => buf.set (if g.g_endianness = .ENDIAN_LSB then i else bs - i - 1) b
         | none => buf)
      refine ⟨hor, hiff.trans ⟨fun h k h1 h2 => ?_, fun h k h1 h2 => ?_⟩⟩
      · by_cases hk : k = i
        · subst hk
          exact hc
        · exact h k (by omega) (by omega)
      · exact h k (by omega) (by omega)
    · rw [parse_hex_loop_bad g hex bs n i buf hc]
      refine ⟨Or.inr rfl, ⟨fun h => ?_, fun h => ?_⟩⟩
      · simp at h
      · exact absurd (h i (le_refl i) (by omega)) hc

theorem parse_hex_loop_ret_endianness (g1 g2 : UtilState) (hex : List Char) (bs n i : Nat)
    (buf1 buf2 : List Byte) :
    (parse_hex_loop g1 hex bs n i buf1).1 = (parse_hex_loop g2 hex bs n i buf2).1 := by
  obtain ⟨hor1, hiff1⟩ := parse_hex_loop_ret g1 hex bs n i buf1
  obtain ⟨hor2, hiff2⟩ := parse_hex_loop_ret g2 hex bs n i buf2
  by_cases h : (parse_hex_loop g1 hex bs n i buf1).1 = 0
  · rw [h, hiff2.2 (hiff1.1 h)]
  · have h2 : ¬ (parse_hex_loop g2 hex bs n i buf2).1 = 0 := fun h0 => h (hiff1.2 (hiff2.1 h0))
    rcases hor1 with h1 | h1
    · exact absurd h1 h
    · rcases hor2 with h3 | h3
      · exact absurd h3 h2
      · rw [h1, h3]

theorem parse_hex_loop_step (g : UtilState) (hex : List Char) (bs n i : Nat)
    (buf : List Byte) (hM : hex.length < SIZE_T_MOD) (hi : 2 * i + 1 < hex.length)
    (hx : ∀ c ∈ hex, isxdigit c = true) :
    parse_hex_loop g hex bs (n + 1) i buf
      = parse_hex_loop g hex bs n (i + 1)
          (buf.set (if g.g_endianness = .ENDIAN_LSB then i else bs - i - 1)
            (hex_byte hex i)) := by
  have e1 : (i * 2) % SIZE_T_MOD = 2 * i := by
    unfold SIZE_T_MOD at hM ⊢
    omega
  have e2 : (i * 2 + 1) % SIZE_T_MOD = 2 * i + 1 := by
    unfold SIZE_T_MOD at hM ⊢
    omega
  have h1 : isxdigit (char_at hex (2 * i)) = true :=
    hx _ (char_at_mem hex _ (by omega))
  have h2 : isxdigit (char_at hex (2 * i + 1)) = true :=
    hx _ (char_at_mem hex _ hi)
  rw [parse_hex_loop_good g hex bs n i buf (by rw [e1]; exact h1) (by rw [e2]; exact h2),
    e1, sscanf_of_xdigits hex i h1 h2]

theorem parse_hex_loop_lsb (g : UtilState) (hex : List Char) (bs : Nat)
    (hg : g.g_endianness = .ENDIAN_LSB) (hM : hex.length < SIZE_T_MOD)
    (hx : ∀ c ∈ hex, isxdigit c = true) :
    ∀ (n i : Nat) (buf : List Byte), 2 * (i + n) ≤ hex.length →
      (parse_hex_loop g hex bs n i buf).2.length = buf.length
      ∧ ∀ j, (parse_hex_loop g hex bs n i buf).2[j]?
          = if i ≤ j ∧ j < i + n ∧ j < buf.length then some (hex_byte hex j) else buf[j]? := by
  intro n
  induction n with
  | zero =>
    intro i buf _
    refine ⟨rfl, fun j => ?_⟩
    rw [if_neg (by omega)]
    rfl
  | succ n ih =>
    intro i buf hlen
    rw [parse_hex_loop_step g hex bs n i buf hM (by omega) hx]
    simp only [hg, if_true]
    obtain ⟨hl, hget⟩ := ih (i + 1) (buf.set i (hex_byte hex i)) (by omega)
    rw [List.length_set] at hl hget
    refine ⟨hl, fun j => ?_⟩
    rw [hget j, List.getElem?_set]
    by_cases hji : i = j
    · subst hji
      by_cases hlt : i < buf.length
      · rw [if_neg (by omega), if_pos rfl, if_pos hlt, if_pos ⟨le_refl _, by omega, hlt⟩]
      · rw [if_neg (by omega), if_pos rfl, if_neg hlt, if_neg (by omega),
          List.getElem?_eq_none (Nat.le_of_not_lt hlt)]
    · rw [if_neg hji]
      by_cases hc : i + 1 ≤ j ∧ j < i + 1 + n ∧ j < buf.length
      · rw [if_pos hc, if_pos ⟨by omega, by omega, hc.2.2⟩]
      · rw [if_neg hc, if_neg (by omega)]

theorem parse_hex_loop_msb (g : UtilState) (hex : List Char) (bs : Nat)
    (hg : g.g_endianness = .ENDIAN_MSB) (hM : hex.length < SIZE_T_MOD)
    (hx : ∀ c ∈ hex, isxdigit c = true) :
    ∀ (n i : Nat) (buf : List Byte), 2 * (i + n) ≤ hex.length → i + n ≤ bs →
      (parse_hex_loop g hex bs n i buf).2.length = buf.length
      ∧ ∀ j, (parse_hex_loop g hex bs n i buf).2[j]?
          = if bs - (i + n) ≤ j ∧ j < bs - i ∧ j < buf.length
            then some (hex_byte hex (bs - 1 - j)) else buf[j]? := by
  intro n
  induction n with
  | zero =>
    intro i buf _ _
    refine ⟨rfl, fun j => ?_⟩
    rw [if_neg (by omega)]
    rfl
  | succ n ih =>
    intro i buf hlen hbs
    rw [parse_hex_loop_step g hex bs n i buf hM (by omega) hx]
    have hne : ¬ (g.g_endianness = endianness_t.ENDIAN_LSB) := by
      rw [hg]
      decide
    simp only [hne, if_false]
    obtain ⟨hl, hget⟩ := ih (i + 1) (buf.set (bs - i - 1) (hex_byte hex i)) (by omega)
      (by omega)
    rw [List.length_set] at hl hget
    refine ⟨hl, fun j => ?_⟩
    rw [hget j, List.getElem?_set]
    by_cases hji : bs - i - 1 = j
    · have hidx : bs - 1 - j = i := by omega
      by_cases hlt : j < buf.length
      · rw [if_neg (by omega), if_pos hji, if_pos (by omega),
          if_pos ⟨by omega, by omega, hlt⟩, hidx]
      · rw [if_neg (by omega), if_pos hji, if_neg (by omega), if_neg (by omega),
          List.getElem?_eq_none (Nat.le_of_not_lt hlt)]
    · rw [if_neg hji]
      by_cases hc : bs - (i + 1 + n) ≤ j ∧ j < bs - (i + 1) ∧ j < buf.length
      · rw [if_pos hc, if_pos ⟨by omega, by omega, hc.2.2⟩]
      · rw [if_neg hc, if_neg (by omega)]

theorem parse_hex_eq_loop (g : UtilState) (hex : List Char) (buf : List Byte) (bs : Nat)
    (h0 : bs ≠ 0) (hlen : hex.length = (bs * 2) % SIZE_T_MOD) :
    parse_hex g (some hex) (some buf) bs
      = ((parse_hex_loop g hex bs bs 0 buf).1, some (parse_hex_loop g hex bs bs 0 buf).2) := by
  simp only [parse_hex, h0, if_false, hlen, ne_eq, not_true_eq_false]

theorem parse_hex_ret_cases (g : UtilState) (hex : Option (List Char))
    (buf : Option (List Byte)) (bs : Nat) :
    (parse_hex g hex buf bs).1 = 0 ∨ (parse_hex g hex buf bs).1 = -1 := by
  cases hex with
  | none => exact Or.inr rfl
  | some h =>
    cases buf with
    | none => exact Or.inr rfl
    | some b =>
      simp only [parse_hex]
      split_ifs
      · exact Or.inr rfl
      · exact Or.inr rfl
      · exact (parse_hex_loop_ret g h bs bs 0 b).1

theorem parse_hex_accept_iff (g : UtilState) (hex : List Char) (buf : List Byte) (bs : Nat)
    (hbs : bs < SIZE_T_MOD) (hhex : hex.length < SIZE_T_MOD) :
    (parse_hex g (some hex) (some buf) bs).1 = 0
      ↔ 0 < bs ∧ hex.length = 2 * bs ∧ ∀ c ∈ hex, isxdigit c = true := by
  constructor
  · intro h
    by_cases h0 : bs = 0
    · simp [parse_hex, h0] at h
    by_cases hlen : hex.length = (bs * 2) % SIZE_T_MOD
    · rw [parse_hex_eq_loop g hex buf bs h0 hlen] at h
      have hall := (parse_hex_loop_ret g hex bs bs 0 buf).2.1 h
      have hno : 2 * bs < SIZE_T_MOD := by
        by_contra hge
        have hk := (hall (bs - 9223372036854775808) (Nat.zero_le _)
          (by unfold SIZE_T_MOD at hbs hge; omega)).1
        have hidx : ((bs - 9223372036854775808) * 2) % SIZE_T_MOD = hex.length := by
          unfold SIZE_T_MOD at hbs hge hlen ⊢
          omega
        rw [hidx] at hk
        exact absurd (lt_length_of_isxdigit hex _ hk) (lt_irrefl _)
      have hlen2 : hex.length = 2 * bs := by
        unfold SIZE_T_MOD at hno hlen
        omega
      refine ⟨Nat.pos_of_ne_zero h0, hlen2, fun c hc => ?_⟩
      obtain ⟨j, hj, rfl⟩ := List.getElem_of_mem hc
      have hk := hall (j / 2) (Nat.zero_le _) (by omega)
      have e1 : ((j / 2) * 2) % SIZE_T_MOD = 2 * (j / 2) := by
        unfold SIZE_T_MOD at hno ⊢
        omega
      have e2 : ((j / 2) * 2 + 1) % SIZE_T_MOD = 2 * (j / 2) + 1 := by
        unfold SIZE_T_MOD at hno ⊢
        omega
      rw [e1, e2] at hk
      have hchar : ∀ m, m < hex.length → char_at hex m = hex[m]?.getD (Char.ofNat 0) := by
        intro m _
        unfold char_at
        rw [List.getD_eq_getElem?_getD]
      have hcj : char_at hex j = hex[j] := by
        rw [hchar j hj, List.getElem?_eq_getElem hj]
        rfl
      rw [← hcj]
      rcases Nat.mod_two_eq_zero_or_one j with hm | hm
      · have : 2 * (j / 2) = j := by omega
        rw [this] at hk
        exact hk.1
      · have : 2 * (j / 2) + 1 = j := by omega
        rw [this] at hk
        exact hk.2
    · simp [parse_hex, h0, hlen] at h
  · rintro ⟨hpos, hlen, hx⟩
    have h0 : bs ≠ 0 := Nat.pos_iff_ne_zero.mp hpos
    have hlen' : hex.length = (bs * 2) % SIZE_T_MOD := by
      unfold SIZE_T_MOD at hhex ⊢
      omega
    rw [parse_hex_eq_loop g hex buf bs h0 hlen']
    refine (parse_hex_loop_ret g hex bs bs 0 buf).2.2 (fun k _ hk => ?_)
    have e1 : (k * 2) % SIZE_T_MOD = 2 * k := by
      unfold SIZE_T_MOD at hhex ⊢
      omega
    have e2 : (k * 2 + 1) % SIZE_T_MOD = 2 * k + 1 := by
      unfold SIZE_T_MOD at hhex ⊢
      omega
    rw [e1, e2]
    exact ⟨hx _ (char_at_mem hex _ (by omega)), hx _ (char_at_mem hex _ (by omega))⟩

theorem parse_hex_lsb_content (g : UtilState) (hex : List Char) (buf : List Byte) (bs : Nat)
    (hg : g.g_endianness = .ENDIAN_LSB) (hhex : hex.length < SIZE_T_MOD)
    (hpos : 0 < bs) (hlen : hex.length = 2 * bs) (hx : ∀ c ∈ hex, isxdigit c = true) :
    ∃ out, (parse_hex g (some hex) (some buf) bs).2 = some out
      ∧ out.length = buf.length
      ∧ ∀ j, out[j]? = if j < bs ∧ j < buf.length then some (hex_byte hex j) else buf[j]? := by
  have h0 : bs ≠ 0 := Nat.pos_iff_ne_zero.mp hpos
  have hlen' : hex.length = (bs * 2) % SIZE_T_MOD := by
    unfold SIZE_T_MOD at hhex ⊢
    omega
  rw [parse_hex_eq_loop g hex buf bs h0 hlen']
  obtain ⟨hl, hget⟩ := parse_hex_loop_lsb g hex bs hg hhex hx bs 0 buf (by omega)
  refine ⟨_, rfl, hl, fun j => ?_⟩
  rw [hget j]
  by_cases hc : j < bs ∧ j < buf.length
  · rw [if_pos ⟨Nat.zero_le _, by omega, hc.2⟩, if_pos hc]
  · rw [if_neg (by omega), if_neg hc]

theorem parse_hex_msb_content (g : UtilState) (hex : List Char) (buf : List Byte) (bs : Nat)
    (hg : g.g_endianness = .ENDIAN_MSB) (hhex : hex.length < SIZE_T_MOD)
    (hpos : 0 < bs) (hlen : hex.length = 2 * bs) (hx : ∀ c ∈ hex, isxdigit c = true) :
    ∃ out, (parse_hex g (some hex) (some buf) bs).2 = some out
      ∧ out.length = buf.length
      ∧ ∀ j, out[j]? = if j < bs ∧ j < buf.length then some (hex_byte hex (bs - 1 - j))
          else buf[j]? := by
  have h0 : bs ≠ 0 := Nat.pos_iff_ne_zero.mp hpos
  have hlen' : hex.length = (bs * 2) % SIZE_T_MOD := by
    unfold SIZE_T_MOD at hhex ⊢
    omega
  rw [parse_hex_eq_loop g hex buf bs h0 hlen']
  obtain ⟨hl, hget⟩ := parse_hex_loop_msb g hex bs hg hhex hx bs 0 buf (by omega) (by omega)
  refine ⟨_, rfl, hl, fun j => ?_⟩
  rw [hget j]
  by_cases hc : j < bs ∧ j < buf.length
  · rw [if_pos ⟨by omega, by omega, hc.2⟩, if_pos hc]
  · rw [if_neg (by omega), if_neg hc]

theorem parse_hex_ret_endianness (g1 g2 : UtilState) (hex : Option (List Char))
    (buf : Option (List Byte)) (bs : Nat) :
    (parse_hex g1 hex buf bs).1 = (parse_hex g2 hex buf bs).1 := by
  cases hex with
  | none => rfl
  | some h =>
    cases buf with
    | none => rfl
    | some b =>
      simp only [parse_hex]
      split_ifs
      · rfl
      · rfl
      · exact parse_hex_loop_ret_endianness g1 g2 h bs bs 0 b b

/-! ## Claims about `parse_hex` -/

/-- Claim C21: for non-null `hex` and `buffer` (with `buffer_size` and the
string length being `size_t` values), `parse_hex` returns 0 if and only if
`buffer_size > 0`, the length of `hex` is exactly `2 * buffer_size` and every
character of `hex` is a hexadecimal digit; otherwise it returns -1.  On
success under ENDIAN_LSB, with a buffer of at least `buffer_size` bytes, the
buffer keeps its length and byte `i` equals
`16 * value(hex[2i]) + value(hex[2i+1])` for every `i < buffer_size`. -/
theorem C21_parse_hex_accepts_well_formed (g : UtilState) (hex : List Char)
    (buffer : List Byte) (buffer_size : Nat)
    (hbs : buffer_size < SIZE_T_MOD) (hhex : hex.length < SIZE_T_MOD) :
    ((parse_hex g (some hex) (some buffer) buffer_size).1 = 0
      ↔ 0 < buffer_size ∧ hex.length = 2 * buffer_size ∧ ∀ c ∈ hex, isxdigit c = true)
    ∧ ((parse_hex g (some hex) (some buffer) buffer_size).1 ≠ 0 →
        (parse_hex g (some hex) (some buffer) buffer_size).1 = -1)
    ∧ (g.g_endianness = .ENDIAN_LSB →
        (parse_hex g (some hex) (some buffer) buffer_size).1 = 0 →
        buffer_size ≤ buffer.length →
        ∃ out, (parse_hex g (some hex) (some buffer) buffer_size).2 = some out
          ∧ out.length = buffer.length
          ∧ ∀ i, i < buffer_size →
              out[i]? = some (16 * hex_digit_value (char_at hex (2 * i))
                              + hex_digit_value (char_at hex (2 * i + 1)))) := by
  have hiff := parse_hex_accept_iff g hex buffer buffer_size hbs hhex
  refine ⟨hiff, fun hne => ?_, fun hg hok hlen => ?_⟩
  · rcases parse_hex_ret_cases g (some hex) (some buffer) buffer_size with h | h
    · exact absurd h hne
    · exact h
  · obtain ⟨hpos, hl, hx⟩ := hiff.1 hok
    obtain ⟨out, hout, hlo, hget⟩ :=
      parse_hex_lsb_content g hex buffer buffer_size hg hhex hpos hl hx
    refine ⟨out, hout, hlo, fun i hi => ?_⟩
    rw [hget i, if_pos ⟨hi, by omega⟩]
    rfl

/-- Witness of C21: the six hexadecimal digits `0aFf10` and a buffer of three
bytes are accepted. -/
theorem C21_parse_hex_accepts_well_formed_witness :
    (parse_hex UtilState.initial (some ['0', 'a', 'F', 'f', '1', '0']) (some [0, 0, 0]) 3).1
      = 0 :=
  (C21_parse_hex_accepts_well_formed UtilState.initial ['0', 'a', 'F', 'f', '1', '0']
    [0, 0, 0] 3 (by decide) (by decide)).1.2 ⟨by decide, by decide, by decide⟩

/-- Claim C22: endianness only reverses the byte order.  The return code of
`parse_hex` is the same after `set_endianness(ENDIAN_MSB)` and after
`set_endianness(ENDIAN_LSB)`, for every input.  For every accepted hex string
and `buffer_size` (with a buffer of at least `buffer_size` bytes), byte
`buffer_size - 1 - i` of the buffer produced under ENDIAN_MSB equals byte `i`
of the buffer produced under ENDIAN_LSB for every `i < buffer_size`; when the
buffer has exactly `buffer_size` bytes, the buffer under ENDIAN_MSB is the
reversal of the buffer under ENDIAN_LSB. -/
theorem C22_endianness_reverses_bytes (g : UtilState) (hex : List Char)
    (buffer : List Byte) (buffer_size : Nat)
    (hbs : buffer_size < SIZE_T_MOD) (hhex : hex.length < SIZE_T_MOD) :
    (∀ (h : Option (List Char)) (b : Option (List Byte)) (n : Nat),
        (parse_hex (set_endianness g .ENDIAN_MSB) h b n).1
          = (parse_hex (set_endianness g .ENDIAN_LSB) h b n).1)
    ∧ ((parse_hex (set_endianness g .ENDIAN_LSB) (some hex) (some buffer) buffer_size).1 = 0 →
        buffer_size ≤ buffer.length →
        ∃ outL outM,
          (parse_hex (set_endianness g .ENDIAN_LSB) (some hex) (some buffer) buffer_size).2
            = some outL
          ∧ (parse_hex (set_endianness g .ENDIAN_MSB) (some hex) (some buffer) buffer_size).2
            = some outM
          ∧ (∀ i, i < buffer_size → outM[buffer_size - 1 - i]? = outL[i]?)
          ∧ (buffer.length = buffer_size → outM = outL.reverse)) := by
  refine ⟨fun h b n => parse_hex_ret_endianness _ _ h b n, fun hok hlen => ?_⟩
  obtain ⟨hpos, hl, hx⟩ :=
    (parse_hex_accept_iff (set_endianness g .ENDIAN_LSB) hex buffer buffer_size hbs hhex).1 hok
  obtain ⟨outL, hoL, hlL, hgL⟩ :=
    parse_hex_lsb_content (set_endianness g .ENDIAN_LSB) hex buffer buffer_size rfl hhex
      hpos hl hx
  obtain ⟨outM, hoM, hlM, hgM⟩ :=
    parse_hex_msb_content (set_endianness g .ENDIAN_MSB) hex buffer buffer_size rfl hhex
      hpos hl hx
  refine ⟨outL, outM, hoL, hoM, fun i hi => ?_, fun hexact => ?_⟩
  · rw [hgM, hgL, if_pos ⟨by omega, by omega⟩, if_pos ⟨hi, by omega⟩]
    have hidx : buffer_size - 1 - (buffer_size - 1 - i) = i := by omega
    rw [hidx]
  · apply List.ext_getElem?
    intro j
    by_cases hj : j < buffer_size
    · rw [List.getElem?_reverse (by omega), hgM, hgL, hlL, hexact,
        if_pos ⟨hj, by omega⟩, if_pos ⟨by omega, by omega⟩]
    · rw [List.getElem?_eq_none (by omega), List.getElem?_eq_none]
      rw [List.length_reverse]
      omega

/-- Witness of C22: the digits `0aFf10` parsed into a buffer of three bytes are
accepted, and the buffer under ENDIAN_MSB is the reversal of the buffer under
ENDIAN_LSB. -/
theorem C22_endianness_reverses_bytes_witness :
    ∃ outL outM,
      (parse_hex (set_endianness UtilState.initial .ENDIAN_LSB)
          (some ['0', 'a', 'F', 'f', '1', '0']) (some [0, 0, 0]) 3).2 = some outL
      ∧ (parse_hex (set_endianness UtilState.initial .ENDIAN_MSB)
          (some ['0', 'a', 'F', 'f', '1', '0']) (some [0, 0, 0]) 3).2 = some outM
      ∧ (∀ i, i < 3 → outM[3 - 1 - i]? = outL[i]?)
      ∧ (([0, 0, 0] : List Byte).length = 3 → outM = outL.reverse) :=
  (C22_endianness_reverses_bytes UtilState.initial ['0', 'a', 'F', 'f', '1', '0'] [0, 0, 0] 3
    (by decide) (by decide)).2 (by decide) (by decide)

end Util

namespace DevFs

/-! ## Claims about `dev_poll` -/

theorem lor_land_left (a b : Nat) : (a ||| b) &&& a = a := by
  apply Nat.eq_of_testBit_eq
  intro i
  simp only [Nat.testBit_and, Nat.testBit_or]
  cases Nat.testBit a i <;> cases Nat.testBit b i <;> rfl

theorem lor_land_right (a b : Nat) : (a ||| b) &&& b = b := by
  apply Nat.eq_of_testBit_eq
  intro i
  simp only [Nat.testBit_and, Nat.testBit_or]
  cases Nat.testBit a i <;> cases Nat.testBit b i <;> rfl

theorem land_lor_self_left (a b : Nat) : a &&& (a ||| b) = a := by
  rw [Nat.and_comm, lor_land_left]

theorem land_lor_self_right (a b : Nat) : b &&& (a ||| b) = b := by
  rw [Nat.and_comm, lor_land_right]

theorem ne_zero_of_land_ne_zero (p a : Nat) (h : p &&& a ≠ 0) : a ≠ 0 := by
  intro h0
  rw [h0, Nat.and_zero] at h
  exact h rfl

theorem dev_poll_eq (K : poll_flags) (dev_ops : shim_dev_ops) (poll_type : Nat)
    (hne : poll_type ≠ K.FS_POLL_SZ) :
    dev_poll K dev_ops poll_type
      = (if poll_type &&& K.FS_POLL_RD ≠ 0 ∧ dev_ops.read.isSome = true
          then K.FS_POLL_RD else 0)
        ||| (if poll_type &&& K.FS_POLL_WR ≠ 0 ∧ dev_ops.write.isSome = true
          then K.FS_POLL_WR else 0) := by
  simp only [dev_poll, if_neg hne]
  split_ifs <;> simp

/-- Claim C23: `dev_poll` returns 0 when `poll_type` equals FS_POLL_SZ.  For
every other `poll_type` (FS_POLL_RD and FS_POLL_WR being distinct bits) the
result has the FS_POLL_RD bit set if and only if `poll_type` has FS_POLL_RD set
and the handle has a read operation, has the FS_POLL_WR bit set if and only if
`poll_type` has FS_POLL_WR set and the handle has a write operation, and has
no bit set outside FS_POLL_RD | FS_POLL_WR. -/
theorem C23_dev_poll_reports_asked_and_present (K : poll_flags) (dev_ops : shim_dev_ops)
    (poll_type : Nat) (hK : K.FS_POLL_RD &&& K.FS_POLL_WR = 0) :
    (poll_type = K.FS_POLL_SZ → dev_poll K dev_ops poll_type = 0)
    ∧ (poll_type ≠ K.FS_POLL_SZ →
        (dev_poll K dev_ops poll_type &&& K.FS_POLL_RD ≠ 0
          ↔ poll_type &&& K.FS_POLL_RD ≠ 0 ∧ dev_ops.read.isSome = true)
        ∧ (dev_poll K dev_ops poll_type &&& K.FS_POLL_WR ≠ 0
          ↔ poll_type &&& K.FS_POLL_WR ≠ 0 ∧ dev_ops.write.isSome = true)
        ∧ dev_poll K dev_ops poll_type &&& (K.FS_POLL_RD ||| K.FS_POLL_WR)
            = dev_poll K dev_ops poll_type) := by
  have hK' : K.FS_POLL_WR &&& K.FS_POLL_RD = 0 := by rw [Nat.and_comm]; exact hK
  refine ⟨fun h => by simp [dev_poll, h], fun hne => ?_⟩
  rw [dev_poll_eq K dev_ops poll_type hne]
  by_cases hr : poll_type &&& K.FS_POLL_RD ≠ 0 ∧ dev_ops.read.isSome = true
  · have hr0 := ne_zero_of_land_ne_zero _ _ hr.1
    by_cases hw : poll_type &&& K.FS_POLL_WR ≠ 0 ∧ dev_ops.write.isSome = true
    · have hw0 := ne_zero_of_land_ne_zero _ _ hw.1
      rw [if_pos hr, if_pos hw, lor_land_left, lor_land_right, Nat.and_self]
      exact ⟨⟨fun _ => hr, fun _ => hr0⟩, ⟨fun _ => hw, fun _ => hw0⟩, rfl⟩
    · rw [if_pos hr, if_neg hw, Nat.or_zero, Nat.and_self, hK, land_lor_self_left]
      exact ⟨⟨fun _ => hr, fun _ => hr0⟩, ⟨fun h => absurd rfl h, fun h => absurd h hw⟩, rfl⟩
  · by_cases hw : poll_type &&& K.FS_POLL_WR ≠ 0 ∧ dev_ops.write.isSome = true
    · have hw0 := ne_zero_of_land_ne_zero _ _ hw.1
      rw [if_neg hr, if_pos hw, Nat.zero_or, Nat.and_self, hK', land_lor_self_right]
      exact ⟨⟨fun h => absurd rfl h, fun h => absurd h hr⟩, ⟨fun _ => hw, fun _ => hw0⟩, rfl⟩
    · rw [if_neg hr, if_neg hw, Nat.or_zero, Nat.zero_and, Nat.zero_and, Nat.zero_and]
      exact ⟨⟨fun h => absurd rfl h, fun h => absurd h hr⟩,
        ⟨fun h => absurd rfl h, fun h => absurd h hw⟩, rfl⟩

/-- Witness of C23: with the Graphene flag values, polling a handle that has a
read but no write operation for reading and writing reports FS_POLL_RD only. -/
theorem C23_dev_poll_reports_asked_and_present_witness :
    dev_poll graphene_poll_flags ⟨some 4096, none⟩ 3 &&& graphene_poll_flags.FS_POLL_WR = 0
    ∧ dev_poll graphene_poll_flags ⟨some 4096, none⟩ 3 &&& graphene_poll_flags.FS_POLL_RD ≠ 0 :=
  ⟨by
    have h := ((C23_dev_poll_reports_asked_and_present graphene_poll_flags ⟨some 4096, none⟩ 3
      (by decide)).2 (by decide)).2.1
    by_contra hne
    exact absurd (h.1 hne).2 (by decide),
   ((C23_dev_poll_reports_asked_and_present graphene_poll_flags ⟨some 4096, none⟩ 3
      (by decide)).2 (by decide)).1.2 ⟨by decide, by decide⟩⟩

end DevFs
